import Mathlib

/-!
# Patient portal: realtime channel clients and session

A shallow embedding of the WebSocket clients of the patient portal
(`ChatWindow.js`, `Header.js`, `Notifications.js`, `RealtimeHeartRate.jsx`,
`RealtimeSpO2.jsx`, `RealtimeBP.jsx`, `RealtimeSkinTemp.jsx`) and of its
session handling (`AuthContext.js`, `Login.js`, `ProtectedRoute.js`), and
theorems about their queueing, reconnection, heartbeat, decoding, token
refresh, login and lockout behaviour.

Conventions of the embedding:

* React state and refs of one mounted component are the fields of a state
  record; an event handler is a function from state to state.  A functional
  state updater (`setX(prev => ...)`) is applied at the point of the call.
* A closure reads the `const` state values of the render that created it.
  Such values are carried explicitly in a `Render` snapshot.
* Code inside `try` is a computation in `Except JsError`; a JavaScript
  `TypeError` or `SyntaxError` is the `error` result.
* Everything the browser supplies (`JSON.parse`, `Date.now`, `Math.random`,
  `new Date(..)`) is a parameter of the handler that uses it.
-/

namespace Patient

/-! ## JavaScript values -/

/-- JavaScript values that reach the handlers: the results of `JSON.parse`
together with `undefined`.  Numbers are rationals, strings are sequences of
Unicode scalar values, and an array or object carries the identity `ref` of
its allocation, which is all that `===` looks at. -/
inductive JsVal where
  | undefined
  | null
  | bool (b : Bool)
  | num (q : ℚ)
  | str (s : String)
  | arr (ref : Nat) (items : List JsVal)
  | obj (ref : Nat) (props : List (String × JsVal))

namespace JsVal

instance : Inhabited JsVal := ⟨JsVal.undefined⟩

/-- ToBoolean: `undefined`, `null`, `false`, `0` and `""` are falsy. -/
def truthy : JsVal → Bool
  | undefined => false
  | null => false
  | bool b => b
  | num q => decide (q ≠ 0)
  | str s => decide (s ≠ "")
  | arr _ _ => true
  | obj _ _ => true

/-- The operator `a || b`. -/
def or (a b : JsVal) : JsVal := if a.truthy then a else b

/-- The operator `a === b`: primitives by value, arrays and objects by
identity. -/
def strictEq : JsVal → JsVal → Bool
  | undefined, undefined => true
  | null, null => true
  | bool a, bool b => a == b
  | num a, num b => decide (a = b)
  | str a, str b => a == b
  | arr r _, arr r' _ => r == r'
  | obj r _, obj r' _ => r == r'
  | _, _ => false

/-- The test `v === "lit"` against a string literal. -/
def isStr (v : JsVal) (lit : String) : Bool :=
  match v with
  | str s => s == lit
  | _ => false

end JsVal

/-- Exceptions raised by the runtime. -/
inductive JsError where
  | syntaxError
  | typeError
  | invalidStateError
  deriving DecidableEq, Repr

/-- Property read `v.k` for the property names the handlers use (none of
them is defined on a built-in prototype): a `TypeError` on `null` and
`undefined`, the own property of an object, `undefined` otherwise. -/
def JsVal.getProp (v : JsVal) (k : String) : Except JsError JsVal :=
  match v with
  | .undefined => .error .typeError
  | .null => .error .typeError
  | .obj _ props => .ok ((props.lookup k).getD .undefined)
  | _ => .ok .undefined

/-- `WebSocket.readyState`. -/
inductive ReadyState where
  | CONNECTING
  | OPEN
  | CLOSING
  | CLOSED
  deriving DecidableEq, Repr

/-! ## Outbound commands -/

/-- The `message` object of a `chat_message` command (`onSend`). -/
structure ChatPayload where
  room_id : JsVal
  content : JsVal
  sender_username : JsVal
  sender_type : JsVal
  receiver_username : JsVal
  receiver_type : JsVal
  message_type : JsVal

/-- The object literals handed to `send` / `sendOrQueueMessage`, by their
`type` field. -/
inductive Command where
  | fetch_rooms
  | join_room (room_id : JsVal)
  | fetch_messages (room_id : JsVal)
  | chat_message (message : ChatPayload)
  | subscribe (channel : String) (user_id : JsVal)
  | ping

/-! ## ChatWindow -/

namespace ChatWindow

/-- The constant `maxReconnect`. -/
def maxReconnect : Nat := 5

/-- An element of `chatRooms`: `{ room_id, other_user: { username, userType } }`. -/
structure ChatRoom where
  room_id : JsVal
  other_username : JsVal
  other_userType : JsVal

/-- The `loading` state object. -/
structure Loading where
  rooms : Bool
  users : Bool
  online : Bool
  messages : Bool

/-- The state constants a closure created during one render can read. -/
structure Render where
  pendingMessages : List Command
  chatRooms : List ChatRoom
  joinedRooms : List JsVal
  selectedRoom : Option ChatRoom

/-- One `WebSocket` constructed by `initWebSocket(token, username)`; its
handlers close over `token`, `username` and the render that ran the effect.
`sent` lists the frames handed to the transport. -/
structure Socket where
  token : JsVal
  username : JsVal
  render : Render
  readyState : ReadyState
  sent : List Command

/-- A pending `setTimeout(() => initWebSocket(token, username), delay)`. -/
structure Timer where
  delay : Nat
  token : JsVal
  username : JsVal
  render : Render

/-- State of one mounted `ChatWindow`.  `sockets` holds every socket the
instance has constructed, in construction order; `wsRef` is the index of
`wsRef.current` in it. -/
structure State where
  chatRooms : List ChatRoom
  selectedRoom : Option ChatRoom
  messages : List (List (String × JsVal))
  error : String
  loading : Loading
  joinedRooms : List JsVal
  pendingMessages : List Command
  sockets : List Socket
  wsRef : Option Nat
  reconnectAttempts : Nat
  timers : List Timer

/-- State at mount, before the first effect. -/
def State.init : State :=
  { chatRooms := [], selectedRoom := none, messages := [], error := "",
    loading := ⟨false, false, false, false⟩, joinedRooms := [],
    pendingMessages := [], sockets := [], wsRef := none,
    reconnectAttempts := 0, timers := [] }

/-- The values the current render exposes to closures. -/
def State.render (s : State) : Render :=
  ⟨s.pendingMessages, s.chatRooms, s.joinedRooms, s.selectedRoom⟩

/-- The expression `wsRef.current?.readyState`. -/
def State.wsReadyState (s : State) : Option ReadyState :=
  match s.wsRef with
  | none => none
  | some i => s.sockets[i]?.map Socket.readyState

/-- Replace socket `i`. -/
def State.setSocket (s : State) (i : Nat) (sk : Socket) : State :=
  { s with sockets := s.sockets.set i sk }

/-- The call `wsRef.current.send(JSON.stringify(message))`: a `TypeError`
when there is no socket, `InvalidStateError` while it is connecting, a
transmission when open, and silently nothing when closing or closed. -/
def wsRefSend (s : State) (message : Command) : Except JsError State :=
  match s.wsRef with
  | none => .error .typeError
  | some i =>
    match s.sockets[i]? with
    | none => .error .typeError
    | some sk =>
      match sk.readyState with
      | .CONNECTING => .error .invalidStateError
      | .OPEN => .ok (s.setSocket i { sk with sent := sk.sent ++ [message] })
      | _ => .ok s

/-- The function `sendOrQueueMessage`. -/
def sendOrQueueMessage (s : State) (message : Command) : State :=
  if s.wsReadyState = some .OPEN then
    match wsRefSend s message with
    | .ok s' => s'
    | .error _ => s
  else
    { s with pendingMessages := s.pendingMessages ++ [message],
             error := "Connecting to chat server, please wait..." }

/-- The guard and constructor call of `initWebSocket(token, username)`: with
a missing token or username it only sets the error, otherwise it constructs a
socket (connecting) and stores it in `wsRef.current`. -/
def initWebSocket (s : State) (r : Render) (token username : JsVal) : State :=
  if !token.truthy || !username.truthy then
    { s with error := "No user authenticated. Please login." }
  else
    { s with sockets := s.sockets ++ [⟨token, username, r, .CONNECTING, []⟩],
             wsRef := some s.sockets.length }

/-- The loop `pendingMessages.forEach(m => wsRef.current.send(..))`; stops at
the first exception and reports it. -/
def sendAll (s : State) : List Command → State × Option JsError
  | [] => (s, none)
  | m :: ms =>
    match wsRefSend s m with
    | .error e => (s, some e)
    | .ok s' => sendAll s' ms

/-- Set insertion `new Set(prev).add(x)`. -/
def setAdd (prev : List JsVal) (x : JsVal) : List JsVal :=
  if prev.any (fun y => y.strictEq x) then prev else prev ++ [x]

/-- The loop `chatRooms.forEach(room => ...)` of `onopen`; `joined` is the
`joinedRooms` set of the closure. -/
def joinRooms (joined : List JsVal) (s : State) : List ChatRoom → State
  | [] => s
  | room :: rooms =>
    if !joined.any (fun y => y.strictEq room.room_id) then
      let s1 := sendOrQueueMessage s (.join_room room.room_id)
      joinRooms joined { s1 with joinedRooms := setAdd s1.joinedRooms room.room_id } rooms
    else
      joinRooms joined s rooms

/-- The handler `onopen` of a socket whose closure is `sk`.  An exception
thrown by `send` ends the handler where it is raised. -/
def onopen (s : State) (sk : Socket) : State :=
  let s1 := { s with reconnectAttempts := 0, error := "" }
  match sendAll s1 sk.render.pendingMessages with
  | (s2, some _) => s2
  | (s2, none) =>
    let s3 := { s2 with pendingMessages := [] }
    let s4 := sendOrQueueMessage s3 .fetch_rooms
    joinRooms sk.render.joinedRooms s4 sk.render.chatRooms

/-- The delay `1000 * Math.pow(2, reconnectAttempts.current)` in ms. -/
def reconnectDelay (attempt : Nat) : Nat := 1000 * 2 ^ attempt

/-- The handler `onclose` of a socket whose closure is `sk`. -/
def onclose (s : State) (sk : Socket) : State :=
  if s.reconnectAttempts < maxReconnect then
    let n := s.reconnectAttempts + 1
    { s with
      reconnectAttempts := n,
      error := "Reconnecting to chat server (attempt " ++ toString n ++ "/" ++
        toString maxReconnect ++ ")...",
      timers := s.timers ++ [⟨reconnectDelay n, sk.token, sk.username, sk.render⟩] }
  else
    { s with error := "Chat connection lost. Please refresh the page." }

/-- The handler `onerror`. -/
def onerror (s : State) : State :=
  { s with error := "Chat connection error" }

/-- The connection part of the effect body of `useEffect(.., [user])`, with
`token` and `username` as computed from the user and local storage. -/
def effect (s : State) (token username : JsVal) : State :=
  if token.truthy && username.truthy then
    initWebSocket s s.render token username
  else
    { s with error := "No user authenticated. Please login." }

/-- The cleanup function of the effect:
`wsRef.current?.readyState === WebSocket.OPEN && wsRef.current.close()`. -/
def cleanup (s : State) : State :=
  match s.wsRef with
  | none => s
  | some i =>
    match s.sockets[i]? with
    | none => s
    | some sk =>
      if sk.readyState = .OPEN then s.setSocket i { sk with readyState := .CLOSING }
      else s

/-- The body of `useEffect(.., [selectedRoom])`: join the selected room and
ask for its messages, directly when the socket is open and through the queue
otherwise. -/
def selectedRoomEffect (s : State) : State :=
  match s.selectedRoom with
  | none => s
  | some room =>
    if room.other_username.truthy then
      if s.wsReadyState = some .OPEN then
        let s1 :=
          if !s.joinedRooms.any (fun y => y.strictEq room.room_id) then
            let s0 := sendOrQueueMessage s (.join_room room.room_id)
            { s0 with joinedRooms := setAdd s0.joinedRooms room.room_id }
          else s
        let s2 := { s1 with loading := { s1.loading with messages := true } }
        sendOrQueueMessage s2 (.fetch_messages room.room_id)
      else
        { s with
          pendingMessages := s.pendingMessages ++
            [.join_room room.room_id, .fetch_messages room.room_id],
          joinedRooms := setAdd s.joinedRooms room.room_id,
          loading := { s.loading with messages := true } }
    else s

/-- What can happen to a mounted `ChatWindow`. -/
inductive Event where
  /-- the effect runs (mount, or `user` changed after the cleanup) -/
  | effect (token username : JsVal)
  /-- the cleanup of the effect runs (unmount, or `user` changed) -/
  | cleanup
  /-- the transport opens socket `i` -/
  | opened (i : Nat)
  /-- the transport reports an error on socket `i` -/
  | errored (i : Nat)
  /-- socket `i` is closed (by the transport, or after `close()`) -/
  | closed (i : Nat)
  /-- pending timer `j` fires -/
  | timerFired (j : Nat)
  /-- the component calls `sendOrQueueMessage(message)` -/
  | send (message : Command)
  /-- the user picks a room: `setSelectedRoom(room)`, then the effect on
  `selectedRoom` runs -/
  | selectRoom (room : ChatRoom)

/-- One turn of the event loop.  An event that cannot occur in the current
state (no such socket or timer, a socket that is not connecting opening, a
closed socket closing again) leaves the state unchanged. -/
def step (s : State) : Event → State
  | .effect token username => effect s token username
  | .cleanup => cleanup s
  | .opened i =>
    match s.sockets[i]? with
    | some sk =>
      if sk.readyState = .CONNECTING then
        onopen (s.setSocket i { sk with readyState := .OPEN }) sk
      else s
    | none => s
  | .errored i =>
    match s.sockets[i]? with
    | some _ => onerror s
    | none => s
  | .closed i =>
    match s.sockets[i]? with
    | some sk =>
      if sk.readyState = .CLOSED then s
      else onclose (s.setSocket i { sk with readyState := .CLOSED }) sk
    | none => s
  | .timerFired j =>
    match s.timers[j]? with
    | some t => initWebSocket { s with timers := s.timers.eraseIdx j } t.render t.token t.username
    | none => s
  | .send message => sendOrQueueMessage s message
  | .selectRoom room => selectedRoomEffect { s with selectedRoom := some room }

/-- Run a sequence of events. -/
def run (s : State) (evs : List Event) : State := evs.foldl step s

/-- The sockets that are connecting or open. -/
def State.liveSockets (s : State) : List Socket :=
  s.sockets.filter (fun sk => sk.readyState = .CONNECTING ∨ sk.readyState = .OPEN)

/-- One failed connection: the socket in `wsRef.current` closes, then the
reconnect timer that close scheduled, if any, fires. -/
def failOnce (s : State) : State :=
  let s1 :=
    match s.wsRef with
    | some i => step s (.closed i)
    | none => s
  step s1 (.timerFired 0)

/-- A run of `k` consecutive failed connections. -/
def failures : Nat → State → State
  | 0, s => s
  | k + 1, s => failOnce (failures k s)

/-- Invariant of a run of failures below the cap: `c` attempts counted, no
timer pending, `wsRef.current` is the one socket that is not closed, and it
was built with credentials. -/
def Retrying (c : Nat) (s : State) : Prop :=
  s.reconnectAttempts = c ∧ s.timers = [] ∧
  ∃ i sk, s.wsRef = some i ∧ s.sockets[i]? = some sk ∧ sk.readyState ≠ .CLOSED ∧
    sk.token.truthy = true ∧ sk.username.truthy = true ∧
    ∀ (j : Nat) (sk' : Socket), s.sockets[j]? = some sk' → j ≠ i →
      sk'.readyState = .CLOSED

/-- Invariant after the cap is reached. -/
def GivenUp (s : State) : Prop :=
  s.reconnectAttempts = 5 ∧ s.timers = [] ∧ s.error = "Chat connection lost. Please refresh the page." ∧
  ∀ (j : Nat) (sk' : Socket), s.sockets[j]? = some sk' → sk'.readyState = .CLOSED

end ChatWindow

/-! ## Decoding helpers -/

/-- The result of `JSON.parse` as the handlers see it: the parsed value, or
the `SyntaxError` it throws. -/
abbrev JsonParse := String → Except JsError JsVal

/-- WhiteSpace and LineTerminator code points, the ones
`String.prototype.trim` removes. -/
def isJsWhitespace (c : Char) : Bool :=
  let n := c.toNat
  n = 0x09 || n = 0x0A || n = 0x0B || n = 0x0C || n = 0x0D || n = 0x20 ||
  n = 0xA0 || n = 0x1680 || (0x2000 ≤ n && n ≤ 0x200A) || n = 0x2028 ||
  n = 0x2029 || n = 0x202F || n = 0x205F || n = 0x3000 || n = 0xFEFF

/-- The method `String.prototype.trim`. -/
def jsTrim (s : String) : String :=
  String.mk (((s.toList.dropWhile isJsWhitespace).reverse.dropWhile isJsWhitespace).reverse)

/-- The call `s.replace(/: string$/, "")`: without the `m` flag `$` matches
at the end of the input only, so the one possible match is a suffix. -/
def stripStringSuffix (s : String) : String :=
  let cs := s.toList
  let suffix := ": string".toList
  if cs.drop (cs.length - suffix.length) = suffix ∧ suffix.length ≤ cs.length then
    String.mk (cs.take (cs.length - suffix.length))
  else s

/-- The class `\w`. -/
def isWordChar (c : Char) : Bool :=
  c.isAlphanum || c = '_'

/-- The call `s.match(/Dr\. \w+/)?.[0]` on the characters of `s`: the
leftmost occurrence of `Dr. ` followed by at least one word character,
extended over all word characters that follow. -/
def matchDoctor : List Char → Option String
  | [] => none
  | c :: cs =>
    match c :: cs with
    | 'D' :: 'r' :: '.' :: ' ' :: w :: rest =>
      if isWordChar w then
        some (String.mk ('D' :: 'r' :: '.' :: ' ' :: w :: rest.takeWhile isWordChar))
      else matchDoctor cs
    | _ => matchDoctor cs

/-- Read `xs.map` and call it (`xs.map(f)`): only an array has a callable
`map`. -/
def jsArrayMap {α : Type} (xs : JsVal) (f : JsVal → Except JsError α) :
    Except JsError (List α) :=
  match xs with
  | .arr _ items => items.mapM f
  | _ => .error .typeError

/-- The own enumerable properties an object spread `{...v}` copies. -/
def spreadProps : JsVal → List (String × JsVal)
  | .obj _ props => props
  | .arr _ items => items.enum.map (fun p => (toString p.1, p.2))
  | .str s => s.toList.enum.map (fun p => (toString p.1, JsVal.str (String.singleton p.2)))
  | _ => []

/-- Object literal entry `k: v` after earlier entries `props`: overwrite in
place, or append. -/
def setProp (props : List (String × JsVal)) (k : String) (v : JsVal) :
    List (String × JsVal) :=
  if props.any (fun p => p.1 == k) then
    props.map (fun p => if p.1 == k then (k, v) else p)
  else props ++ [(k, v)]

/-- Property read on a freshly built object given by its property list. -/
def propOf (props : List (String × JsVal)) (k : String) : JsVal :=
  (props.lookup k).getD .undefined

/-! ## Notification channel (Header, NotificationPopup, Notifications page)

The three components contain the same `connectWebSocket` connection code
and the same effect (`attemptReconnect`, `initWebSocket`, cleanup); they
differ in the body of `onmessage` and in their log texts. -/

namespace NotificationChannel

/-- The constant `RECONNECT_INTERVAL`. -/
def RECONNECT_INTERVAL : Nat := 10000

/-- The constant `MAX_RECONNECT_ATTEMPTS`. -/
def MAX_RECONNECT_ATTEMPTS : Nat := 5

/-- The constant `HEARTBEAT_INTERVAL`. -/
def HEARTBEAT_INTERVAL : Nat := 15000

/-- The function currently assigned to `ws.onclose`. -/
inductive OnClose where
  /-- the logging handler `connectWebSocket` installs -/
  | log
  /-- the handler `onopen` installs: `clearInterval(heartbeat)` -/
  | stopHeartbeat
  /-- the handler `attemptReconnect` installs:
  `reconnectTimeout = setTimeout(attemptReconnect, RECONNECT_INTERVAL)` -/
  | reconnect
  deriving DecidableEq, Repr

/-- The fields of `user` the channel reads. -/
structure User where
  authToken : JsVal
  username : JsVal

/-- One `WebSocket` made by `connectWebSocket(token)`.  `heartbeat` is the
period of the running `setInterval` started by `onopen`, if any. -/
structure Socket where
  token : JsVal
  readyState : ReadyState
  onclose : OnClose
  heartbeat : Option Nat
  sent : List Command

/-- A pending `setTimeout(attemptReconnect, delay)` with the id `setTimeout`
returned. -/
structure Timer where
  id : Nat
  delay : Nat
  deriving DecidableEq, Repr

/-- The locals of one run of the effect (`ws`, `reconnectAttempts`,
`reconnectTimeout`), the `user` of its closure, every socket it has
constructed and its pending timers. -/
structure State where
  user : User
  sockets : List Socket
  ws : Option Nat
  reconnectAttempts : Nat
  reconnectTimeout : Option Nat
  timers : List Timer
  nextTimerId : Nat

/-- The locals as the effect declares them; the ids `setTimeout` hands out
are positive. -/
def State.init (user : User) : State :=
  { user := user, sockets := [], ws := none, reconnectAttempts := 0,
    reconnectTimeout := none, timers := [], nextTimerId := 1 }

/-- Replace socket `i`. -/
def State.setSocket (s : State) (i : Nat) (sk : Socket) : State :=
  { s with sockets := s.sockets.set i sk }

/-- The function `connectWebSocket(token)`: `null` for a missing token,
otherwise a new connecting socket with the logging `onclose`. -/
def connectWebSocket (s : State) (token : JsVal) : State × Option Nat :=
  if !token.truthy then (s, none)
  else
    ({ s with sockets := s.sockets ++ [⟨token, .CONNECTING, .log, none, []⟩] },
     some s.sockets.length)

/-- The token both `initWebSocket` and `attemptReconnect` compute:
`user?.authToken`, or the result `refreshed` of `await refreshToken()` when
that is missing. -/
def chooseToken (user : User) (refreshed : JsVal) : JsVal :=
  if !user.authToken.truthy then refreshed else user.authToken

/-- The function `initWebSocket` of the effect. -/
def initWebSocket (s : State) (refreshed : JsVal) : State :=
  let (s1, ws) := connectWebSocket s (chooseToken s.user refreshed)
  { s1 with ws := ws }

/-- The statement `reconnectTimeout = setTimeout(attemptReconnect, RECONNECT_INTERVAL)`. -/
def scheduleReconnect (s : State) : State :=
  { s with timers := s.timers ++ [⟨s.nextTimerId, RECONNECT_INTERVAL⟩],
           reconnectTimeout := some s.nextTimerId,
           nextTimerId := s.nextTimerId + 1 }

/-- The function `attemptReconnect` of the effect. -/
def attemptReconnect (s : State) (refreshed : JsVal) : State :=
  if s.reconnectAttempts < MAX_RECONNECT_ATTEMPTS then
    let s1 := { s with reconnectAttempts := s.reconnectAttempts + 1 }
    match connectWebSocket s1 (chooseToken s1.user refreshed) with
    | (s2, some i) =>
      let s3 := { s2 with ws := some i }
      match s3.sockets[i]? with
      | some sk => s3.setSocket i { sk with onclose := .reconnect }
      | none => s3
    | (s2, none) => scheduleReconnect { s2 with ws := none }
  else s

/-- The handler `ws.onopen` of socket `i` (already open): subscribe, start
the heartbeat interval, replace `ws.onclose`. -/
def onopen (s : State) (i : Nat) (sk : Socket) : State :=
  s.setSocket i { sk with
    sent := sk.sent ++ [.subscribe "notifications" s.user.username],
    heartbeat := some HEARTBEAT_INTERVAL,
    onclose := .stopHeartbeat }

/-- One run of the heartbeat interval callback of socket `i`. -/
def heartbeatTick (s : State) (i : Nat) (sk : Socket) : State :=
  if sk.readyState = .OPEN then s.setSocket i { sk with sent := sk.sent ++ [.ping] }
  else s

/-- Run the function assigned to `ws.onclose` of socket `i`. -/
def runOnclose (s : State) (i : Nat) (sk : Socket) : State :=
  match sk.onclose with
  | .log => s
  | .stopHeartbeat => s.setSocket i { sk with heartbeat := none }
  | .reconnect => scheduleReconnect s

/-- The method `ws.close()`: a connecting or open socket starts closing. -/
def Socket.close (sk : Socket) : Socket :=
  match sk.readyState with
  | .CONNECTING => { sk with readyState := .CLOSING }
  | .OPEN => { sk with readyState := .CLOSING }
  | _ => sk

/-- The cleanup function of the effect. -/
def cleanup (s : State) : State :=
  let s1 :=
    match s.ws with
    | some i =>
      match s.sockets[i]? with
      | some sk => s.setSocket i sk.close
      | none => s
    | none => s
  match s1.reconnectTimeout with
  | some t => { s1 with timers := s1.timers.filter (fun x => x.id ≠ t) }
  | none => s1

/-- What can happen to one run of the effect. -/
inductive Event where
  /-- the effect body calls `initWebSocket()`; `refreshed` is what
  `refreshToken()` answers if asked -/
  | init (refreshed : JsVal)
  /-- the transport opens socket `i` -/
  | opened (i : Nat)
  /-- socket `i` is closed -/
  | closed (i : Nat)
  /-- the heartbeat interval of socket `i` elapses -/
  | tick (i : Nat)
  /-- the pending reconnect timer with id `t` fires -/
  | timerFired (t : Nat) (refreshed : JsVal)
  /-- `onmessage` of socket `i` calls `ws.close()` -/
  | serverError (i : Nat)
  /-- the cleanup of the effect runs -/
  | cleanup

/-- One turn of the event loop; an event that cannot occur in the current
state leaves it unchanged. -/
def step (s : State) : Event → State
  | .init refreshed => initWebSocket s refreshed
  | .opened i =>
    match s.sockets[i]? with
    | some sk =>
      if sk.readyState = .CONNECTING then onopen s i { sk with readyState := .OPEN }
      else s
    | none => s
  | .closed i =>
    match s.sockets[i]? with
    | some sk =>
      if sk.readyState = .CLOSED then s
      else
        let sk1 := { sk with readyState := .CLOSED }
        runOnclose (s.setSocket i sk1) i sk1
    | none => s
  | .tick i =>
    match s.sockets[i]? with
    | some sk =>
      match sk.heartbeat with
      | some _ => heartbeatTick s i sk
      | none => s
    | none => s
  | .timerFired t refreshed =>
    if s.timers.any (fun x => x.id = t) then
      attemptReconnect { s with timers := s.timers.filter (fun x => x.id ≠ t) } refreshed
    else s
  | .serverError i =>
    match s.sockets[i]? with
    | some sk => s.setSocket i sk.close
    | none => s
  | .cleanup => cleanup s

/-- Run a sequence of events. -/
def run (s : State) (evs : List Event) : State := evs.foldl step s

/-- What every socket of a reachable state satisfies: a running heartbeat
implies that `onclose` is the handler installed by `onopen`, and a connecting
socket has no heartbeat. -/
def Socket.Consistent (sk : Socket) : Prop :=
  (sk.heartbeat ≠ none → sk.onclose = .stopHeartbeat) ∧
  (sk.readyState = .CONNECTING → sk.heartbeat = none)

end NotificationChannel

/-! ## Header: inbound notification frames -/

namespace Header

/-- An element of the `notifications` state of the header. -/
structure Notification where
  id : JsVal
  title : JsVal
  message : JsVal
  type : JsVal
  timestamp : JsVal
  doctor : JsVal
  unread : Bool

/-- What the browser supplies to `onmessage`: `JSON.parse`, `Date.now()`,
`Math.random().toString(36).slice(2)` and `new Date().toISOString()`. -/
structure Env where
  jsonParse : JsonParse
  now : Nat
  random : String
  nowISO : String

/-- The `notifications` state together with the socket `ws` the handler
belongs to. -/
structure View where
  notifications : List Notification
  ws : NotificationChannel.Socket

/-- The updater passed to `setNotifications`. -/
def addNotification (prev : List Notification) (notification : Notification) :
    List Notification :=
  if prev.any (fun notif => notif.id.strictEq notification.id) then prev
  else prev ++ [notification]

/-- The body of the `try` block of `ws.onmessage`. -/
def onmessageTry (env : Env) (v : View) (raw : String) : Except JsError View := do
  let data ← env.jsonParse raw
  let type ← data.getProp "type"
  if type.isStr "notification" then
    let message ← data.getProp "message"
    let cleanMessage ←
      if message.truthy then
        match message with
        | .str m => pure (JsVal.str (jsTrim (stripStringSuffix m)))
        | _ => throw JsError.typeError
      else pure (JsVal.str "No message content")
    let id ← data.getProp "id"
    let notification_type ← data.getProp "notification_type"
    let timestamp ← data.getProp "timestamp"
    let notification : Notification :=
      { id := id.or (.str ("notif-" ++ toString env.now ++ "-" ++ env.random)),
        title :=
          if notification_type.isStr "appointment_accepted" then .str "Appointment Accepted"
          else if notification_type.isStr "appointment_rejected" then .str "Appointment Rejected"
          else notification_type.or (.str "Notification"),
        message := cleanMessage,
        type := notification_type.or (.str "info"),
        timestamp := timestamp.or (.str env.nowISO),
        doctor :=
          match message with
          | .str m =>
            if message.truthy then .str ((matchDoctor m.toList).getD "Unknown")
            else .str "Unknown"
          | _ => .str "Unknown",
        unread := true }
    pure { v with notifications := addNotification v.notifications notification }
  else
    let error ← data.getProp "error"
    if error.truthy then pure { v with ws := v.ws.close }
    else pure v

/-- The handler `ws.onmessage`: the `catch` block only logs. -/
def onmessage (env : Env) (v : View) (raw : String) : Except JsError View :=
  tryCatch (onmessageTry env v raw) (fun _ => pure v)

end Header

/-! ## ChatWindow: inbound frames -/

namespace ChatWindow

/-- What the browser supplies to `onmessage`: `JSON.parse`, `Date.now()`
and `new Date().toISOString()`. -/
structure Env where
  jsonParse : JsonParse
  now : Nat
  nowISO : String

/-- The expression `selectedRoom?.other_user?.username`. -/
def selectedUsername (r : Render) : JsVal :=
  match r.selectedRoom with
  | some room => room.other_username
  | none => .undefined

/-- The object `newMessage` built from a `chat_message` frame. -/
def newMessage (env : Env) (sk : Socket) (messageData : JsVal) :
    Except JsError (List (String × JsVal)) := do
  let roomId ← messageData.getProp "room_id"
  let id ← messageData.getProp "id"
  let content ← messageData.getProp "content"
  let sender_username ← messageData.getProp "sender_username"
  let sender ← messageData.getProp "sender"
  let receiver_username ← messageData.getProp "receiver_username"
  let timestamp ← messageData.getProp "timestamp"
  let sender_type ← messageData.getProp "sender_type"
  let receiver_type ← messageData.getProp "receiver_type"
  let message_type ← messageData.getProp "message_type"
  let mine := sender_username.strictEq sk.username
  pure
    [("id", id.or (.num env.now)),
     ("content", content.or (.str "")),
     ("sender_username", sender_username.or (sender.or sk.username)),
     ("receiver_username",
        receiver_username.or (if mine then selectedUsername sk.render else sk.username)),
     ("timestamp", timestamp.or (.str env.nowISO)),
     ("room_id", roomId),
     ("sender_type", sender_type.or (if mine then .str "patient" else .str "doctor")),
     ("receiver_type", receiver_type.or (if mine then .str "doctor" else .str "patient")),
     ("message_type", message_type.or (.str "text"))]

/-- The updater passed to `setMessages` for a `chat_message` frame. -/
def addMessage (prev : List (List (String × JsVal))) (m : List (String × JsVal)) :
    List (List (String × JsVal)) :=
  if !prev.any (fun x => (propOf x "id").strictEq (propOf m "id")) then prev ++ [m]
  else prev

/-- The callback mapped over `msg.rooms`. -/
def roomOfFrame (sk : Socket) (room : JsVal) : Except JsError ChatRoom := do
  let room_id ← room.getProp "room_id"
  let current_user ← room.getProp "current_user"
  let receiver_username ← room.getProp "receiver_username"
  let receiver_type ← room.getProp "receiver_type"
  let current_user_type ← room.getProp "current_user_type"
  let mine := current_user.strictEq sk.username
  pure { room_id := room_id,
         other_username := if mine then receiver_username else current_user,
         other_userType := if mine then receiver_type else current_user_type }

/-- The callback mapped over `msg.messages`. -/
def messageOfFrame (sk : Socket) (msg : JsVal) : Except JsError (List (String × JsVal)) := do
  let room_id ← msg.getProp "room_id"
  let sender_username ← msg.getProp "sender_username"
  let message_type ← msg.getProp "message_type"
  let mine := sender_username.strictEq sk.username
  let o1 := setProp (spreadProps msg) "room_id" room_id
  let o2 := setProp o1 "sender_type" (if mine then .str "patient" else .str "doctor")
  let o3 := setProp o2 "receiver_type" (if mine then .str "doctor" else .str "patient")
  pure (setProp o3 "message_type" (message_type.or (.str "text")))

/-- The expression `xs?.map(f) || []`. -/
def mapOrEmpty {α : Type} (xs : JsVal) (f : JsVal → Except JsError α) :
    Except JsError (List α) :=
  match xs with
  | .undefined => pure []
  | .null => pure []
  | _ => jsArrayMap xs f

/-- The body of the `try` block of `onmessage` of the socket with closure
`sk`. -/
def onmessageTry (env : Env) (s : State) (sk : Socket) (raw : String) :
    Except JsError State := do
  let msg ← env.jsonParse raw
  let type ← msg.getProp "type"
  if type.isStr "chat_message" then
    let message ← msg.getProp "message"
    let m ← newMessage env sk (message.or msg)
    pure { s with messages := addMessage s.messages m }
  else if type.isStr "join_room" then
    pure s
  else if type.isStr "chat_rooms" then
    let rooms ← msg.getProp "rooms"
    let chatRooms ← mapOrEmpty rooms (roomOfFrame sk)
    pure { s with chatRooms := chatRooms, loading := { s.loading with rooms := false } }
  else if type.isStr "messages" then
    let messages ← msg.getProp "messages"
    let ms ← mapOrEmpty messages (messageOfFrame sk)
    pure { s with messages := ms, loading := { s.loading with messages := false } }
  else pure s

/-- The handler `onmessage`: the `catch` block sets the error text. -/
def onmessage (env : Env) (s : State) (sk : Socket) (raw : String) :
    Except JsError State :=
  tryCatch (onmessageTry env s sk raw)
    (fun _ => pure { s with error := "Error processing message" })

end ChatWindow

/-! ## Real-time vitals views

`RealtimeHeartRate.jsx`, `RealtimeSpO2.jsx`, `RealtimeBP.jsx` and
`RealtimeSkinTemp.jsx` share one handler shape and differ in the key they
read from `message.data` and in the fields they store. -/

namespace Realtime

/-- The four views. -/
inductive Vital where
  | heartRate
  | spo2
  | bloodPressure
  | skinTemp
  deriving DecidableEq, Repr

/-- The key of `message.data` the view reads. -/
def Vital.key : Vital → String
  | .heartRate => "heart_rate"
  | .spo2 => "spo2"
  | .bloodPressure => "blood_pressure"
  | .skinTemp => "body_temperature"

/-- What the browser supplies: `JSON.parse`; `new Date(x)` as its time value
(`none` for an invalid date, an error when the conversion of `x` throws);
and `date.toLocaleString([], ..)`. -/
structure Env where
  jsonParse : JsonParse
  newDate : JsVal → Except JsError (Option Int)
  toLocaleString : Int → String

/-- The object `newDataPoint`; `values` are its measurement fields. -/
structure Sample where
  timestamp : Int
  formattedTime : String
  values : List (String × JsVal)

/-- The latest reading (`setLatestHeartRate` and its siblings). -/
structure Latest where
  values : List (String × JsVal)
  timestamp : JsVal

/-- State of one view and the `readyState` of its socket. -/
structure State where
  latest : Option Latest
  realtimeData : List Sample
  error : String
  isConnected : Bool
  readyState : ReadyState

/-- The expression `x.value !== undefined ? x.value : x`. -/
def valueOrSelf (x : JsVal) : Except JsError JsVal := do
  let value ← x.getProp "value"
  if !value.strictEq .undefined then pure value else pure x

/-- The measurement fields of `newDataPoint` for reading `x`. -/
def Vital.sampleValues : Vital → JsVal → Except JsError (List (String × JsVal))
  | .heartRate, x => do pure [("heartrate", ← valueOrSelf x)]
  | .spo2, x => do pure [("spo2", ← x.getProp "value")]
  | .bloodPressure, x => do
    pure [("bp_systolic", ← x.getProp "systolic"), ("bp_diastolic", ← x.getProp "diastolic")]
  | .skinTemp, x => do pure [("body_temperature", ← valueOrSelf x)]

/-- The measurement fields of the latest reading for reading `x`. -/
def Vital.latestValues : Vital → JsVal → Except JsError (List (String × JsVal))
  | .heartRate, x => do pure [("heartrate", ← valueOrSelf x)]
  | .spo2, x => do pure [("spo2", ← x.getProp "value")]
  | .bloodPressure, x => do
    pure [("systolic", ← x.getProp "systolic"), ("diastolic", ← x.getProp "diastolic")]
  | .skinTemp, x => do pure [("body_temperature", ← valueOrSelf x)]

/-- The updater `prev => [...prev, newDataPoint].slice(-20)`. -/
def pushSample (prev : List Sample) (p : Sample) : List Sample :=
  let xs := prev ++ [p]
  xs.drop (xs.length - 20)

/-- The condition of the `if`, with its short-circuit evaluation, and the
reading it selects. -/
def accepted (vital : Vital) (message : JsVal) : Except JsError (Option JsVal) := do
  let topic ← message.getProp "topic"
  if topic.isStr "healthcare/iot" then
    let message_type ← message.getProp "message_type"
    if message_type.isStr "mqtt_data" then
      let data ← message.getProp "data"
      let reading ← data.getProp vital.key
      if reading.truthy then pure (some reading) else pure none
    else pure none
  else pure none

/-- The body of the `try` block of `ws.onmessage`. -/
def onmessageTry (vital : Vital) (env : Env) (s : State) (raw : String) :
    Except JsError State := do
  let message ← env.jsonParse raw
  match ← accepted vital message with
  | none => pure s
  | some reading =>
    let data ← message.getProp "data"
    let timestamp ← data.getProp "timestamp"
    match ← env.newDate timestamp with
    | none => pure s
    | some date =>
      let newDataPoint : Sample :=
        { timestamp := date, formattedTime := env.toLocaleString date,
          values := ← vital.sampleValues reading }
      let latest : Latest := { values := ← vital.latestValues reading, timestamp := timestamp }
      pure { s with latest := some latest,
                    realtimeData := pushSample s.realtimeData newDataPoint }

/-- The handler `ws.onmessage`: the `catch` block sets the error text. -/
def onmessage (vital : Vital) (env : Env) (s : State) (raw : String) :
    Except JsError State :=
  tryCatch (onmessageTry vital env s raw)
    (fun _ => pure { s with error := "Failed to parse WebSocket data." })

end Realtime

/-! ## Outbound command literals -/

/-- The properties of the `message` object literal of a `chat_message`
command, in source order. -/
def ChatPayload.fields (m : ChatPayload) : List (String × JsVal) :=
  [("room_id", m.room_id), ("content", m.content),
   ("sender_username", m.sender_username), ("sender_type", m.sender_type),
   ("receiver_username", m.receiver_username), ("receiver_type", m.receiver_type),
   ("message_type", m.message_type)]

/-- The properties of the object literal handed to `JSON.stringify`, in
source order.  The nested `message` object is fresh; its identity is a
placeholder, serialisation does not look at it. -/
def Command.fields : Command → List (String × JsVal)
  | .fetch_rooms => [("type", .str "fetch_rooms")]
  | .join_room room_id => [("type", .str "join_room"), ("room_id", room_id)]
  | .fetch_messages room_id => [("type", .str "fetch_messages"), ("room_id", room_id)]
  | .chat_message message => [("type", .str "chat_message"), ("message", .obj 0 message.fields)]
  | .subscribe channel user_id =>
    [("type", .str "subscribe"), ("channel", .str channel), ("user_id", user_id)]
  | .ping => [("type", .str "ping")]

/-! ## Real-time vitals views: sequences of frames -/

namespace Realtime

/-- The `newDataPoint` a frame makes the handler append, if any: the same
steps as the `try` block up to the state updates. -/
def sampleOfFrame (vital : Vital) (env : Env) (raw : String) : Option Sample :=
  match env.jsonParse raw with
  | .error _ => none
  | .ok message =>
    match accepted vital message with
    | .ok (some reading) =>
      match message.getProp "data" with
      | .ok data =>
        match data.getProp "timestamp" with
        | .ok timestamp =>
          match env.newDate timestamp, vital.sampleValues reading, vital.latestValues reading with
          | .ok (some date), .ok values, .ok _ =>
            some { timestamp := date, formattedTime := env.toLocaleString date, values := values }
          | _, _, _ => none
        | .error _ => none
      | .error _ => none
    | _ => none

/-- The state after `onmessage` has run for one frame. -/
def receive (vital : Vital) (env : Env) (s : State) (raw : String) : State :=
  match onmessage vital env s raw with
  | .ok s' => s'
  | .error _ => s

/-- The state after the frames `raws` have arrived in this order. -/
def receiveAll (vital : Vital) (env : Env) (s : State) (raws : List String) : State :=
  raws.foldl (receive vital env) s

/-- State of a view when its socket has just opened: `useState([])`,
`useState(null)`, no error. -/
def State.opened : State :=
  { latest := none, realtimeData := [], error := "", isConnected := true, readyState := .OPEN }

end Realtime

/-! ## AuthContext: the session -/

/-- The method `toLowerCase`, on the letters A to Z.  The only characters
outside ASCII whose lower-case form contains an ASCII letter are the Kelvin
sign (`k`) and the dotted capital I (`i` followed by a combining dot), and
neither can complete a text the source compares the result with or searches
it for (`patient`, `f`, the anomaly words): those tests come out the same. -/
def asciiLower (s : String) : String :=
  String.mk (s.toList.map Char.toLower)

namespace AuthContext

/-- The `user` state object of `AuthProvider`. -/
structure User where
  authToken : JsVal
  userType : JsVal
  username : JsVal
  deviceToken : JsVal
  organizationName : JsVal
  googleAccessToken : JsVal
  googleRefreshToken : JsVal

/-- The contents of `localStorage`: keys with their string values. -/
abbrev Storage := List (String × String)

/-- The method `localStorage.getItem(key)`: the stored string, or `null`. -/
def getItem (st : Storage) (key : String) : JsVal :=
  match st.lookup key with
  | some v => .str v
  | none => .null

/-- The method `localStorage.removeItem(key)`. -/
def removeItem (st : Storage) (key : String) : Storage :=
  st.filter (fun p => p.1 != key)

/-- The method `localStorage.setItem(key, value)` for a value already
converted to a string. -/
def setItem (st : Storage) (key value : String) : Storage :=
  removeItem st key ++ [(key, value)]

/-- The seven keys of the session, in the order `login` and `logout` remove
them. -/
def sessionKeys : List String :=
  ["authToken", "userType", "username", "device_token", "organizationName",
   "googleAccessToken", "googleRefreshToken"]

/-- The session: the `user` state (`none` for `null`) and `localStorage`.
Routing (`navigate`) is not part of it. -/
structure Session where
  user : Option User
  storage : Storage

/-- What `login` can throw. -/
inductive Thrown where
  | typeError
  | error (message : String)
  deriving DecidableEq, Repr

/-- The conversion `String(v)` that `setItem` applies: a string is stored
as it is, for any other value the runtime's conversion `other` is used. -/
def toJsString (other : JsVal → String) : JsVal → String
  | .str s => s
  | v => other v

/-- A parameter default `= null`: it replaces `undefined` only. -/
def orNull : JsVal → JsVal
  | .undefined => .null
  | v => v

/-- The statement `if (v) localStorage.setItem(key, v)`. -/
def setItemIf (other : JsVal → String) (st : Storage) (key : String) (v : JsVal) : Storage :=
  if v.truthy then setItem st key (toJsString other v) else st

/-- The expression `userType.toLowerCase() === "patient" ? "Patient" : userType`
for a truthy `userType`; a value that is not a string has no `toLowerCase`. -/
def normalizeUserType (userType : JsVal) : Except Thrown JsVal :=
  match userType with
  | .str s => if asciiLower s == "patient" then .ok (.str "Patient") else .ok userType
  | _ => .error .typeError

/-- The function `login`; the result is the session afterwards together with
the redirect path it schedules, or what it throws.  `localStorage` itself is
taken not to fail. -/
def login (other : JsVal → String) (sess : Session)
    (authToken userType username organizationName googleAccessToken googleRefreshToken
      deviceToken : JsVal) : Session × Except Thrown String :=
  let organizationName := orNull organizationName
  let googleAccessToken := orNull googleAccessToken
  let googleRefreshToken := orNull googleRefreshToken
  let deviceToken := orNull deviceToken
  if !authToken.truthy || !userType.truthy || !username.truthy then
    (sess, .error (.error "Missing required login data: authToken, userType, or username"))
  else
    match normalizeUserType userType with
    | .error e => (sess, .error e)
    | .ok normalizedUserType =>
      let st0 := sessionKeys.foldl removeItem sess.storage
      let st1 := setItem st0 "authToken" (toJsString other authToken)
      let st2 := setItem st1 "userType" (toJsString other normalizedUserType)
      let st3 := setItem st2 "username" (toJsString other username)
      let st4 := setItemIf other st3 "organizationName" organizationName
      let st5 := setItemIf other st4 "googleAccessToken" googleAccessToken
      let st6 := setItemIf other st5 "googleRefreshToken" googleRefreshToken
      let st7 := setItemIf other st6 "device_token" deviceToken
      if !(getItem st7 "authToken").strictEq authToken then
        ({ sess with storage := st7 }, .error (.error "Failed to store authentication data"))
      else
        ({ user := some
             { authToken := authToken, userType := normalizedUserType, username := username,
               deviceToken := deviceToken.or .null,
               organizationName := organizationName.or .null,
               googleAccessToken := googleAccessToken.or .null,
               googleRefreshToken := googleRefreshToken.or .null },
           storage := st7 },
         .ok (if normalizedUserType.isStr "Patient" then "/user/dashboard"
              else "/doctor/dashboard"))

/-- The function `logout`. -/
def logout (sess : Session) : Session :=
  { user := none, storage := sessionKeys.foldl removeItem sess.storage }

/-- What `await fetch(..)` followed by `await response.json()` can give:
a rejected `fetch`, or a response with its `ok` flag and the result of
`response.json()`. -/
inductive FetchOutcome where
  | networkError
  | response (ok : Bool) (json : Except JsError JsVal)

/-- The expression `user?.googleRefreshToken`. -/
def refreshTokenOf (user : Option User) : JsVal :=
  match user with
  | some u => u.googleRefreshToken
  | none => .undefined

end AuthContext

/-! ## Token refresh (Header, NotificationPopup, Notifications page) -/

namespace Header

open AuthContext in
/-- The function `refreshToken` of the header; the one of `NotificationPopup`
is the same code.  `user` is the `user` of the closure, `fetched` what the
request to `/auth/refresh` gives; the result is the returned value and the
session afterwards. -/
def refreshToken (other : JsVal → String) (user : Option User) (sess : Session)
    (fetched : FetchOutcome) : JsVal × Session :=
  if !(refreshTokenOf user).truthy then (.null, sess)
  else
    match user, fetched with
    | none, _ => (.null, sess)
    | _, .networkError => (.null, sess)
    | _, .response false _ => (.null, sess)
    | _, .response true (.error _) => (.null, sess)
    | some u, .response true (.ok data) =>
      match data.getProp "authToken", data.getProp "googleAccessToken" with
      | .ok authToken, .ok googleAccessToken =>
        match login other sess authToken u.userType u.username googleAccessToken
            u.googleRefreshToken .undefined .undefined with
        | (sess', .ok _) => (authToken, sess')
        | (sess', .error _) => (.null, sess')
      | _, _ => (.null, sess)

end Header

namespace Notifications

open AuthContext in
/-- The function `refreshToken` of the Notifications page: as in the header,
with `logout()` before every `return null`. -/
def refreshToken (other : JsVal → String) (user : Option User) (sess : Session)
    (fetched : FetchOutcome) : JsVal × Session :=
  if !(refreshTokenOf user).truthy then (.null, logout sess)
  else
    match user, fetched with
    | none, _ => (.null, logout sess)
    | _, .networkError => (.null, logout sess)
    | _, .response false _ => (.null, logout sess)
    | _, .response true (.error _) => (.null, logout sess)
    | some u, .response true (.ok data) =>
      match data.getProp "authToken", data.getProp "googleAccessToken" with
      | .ok authToken, .ok googleAccessToken =>
        match login other sess authToken u.userType u.username googleAccessToken
            u.googleRefreshToken .undefined .undefined with
        | (sess', .ok _) => (authToken, sess')
        | (sess', .error _) => (.null, logout sess')
      | _, _ => (.null, logout sess)

end Notifications

/-! ## ChatWindow: sending a message -/

namespace ChatWindow

/-- What `onSend` reads besides the chat state: the input text
`newMessage`, the `user` of the context, and the `username` and `userType`
entries of `localStorage`; and `Date.now()`, `new Date().toISOString()`. -/
structure SendInput where
  newMessage : String
  user : Option AuthContext.User
  storage : AuthContext.Storage
  now : Nat
  nowISO : String

/-- The expression `user?.username || localStorage.getItem('username')`. -/
def senderUsername (inp : SendInput) : JsVal :=
  (match inp.user with
   | some u => u.username
   | none => .undefined).or (AuthContext.getItem inp.storage "username")

/-- The expression
`user?.userType || localStorage.getItem('userType') || 'patient'`. -/
def senderType (inp : SendInput) : JsVal :=
  ((match inp.user with
    | some u => u.userType
    | none => .undefined).or (AuthContext.getItem inp.storage "userType")).or (.str "patient")

/-- The `message` of the object literal appended to `pendingMessages` when
the socket is not open. -/
def queuedMessage (inp : SendInput) (selectedRoom : ChatRoom) (content : String) :
    ChatPayload :=
  { room_id := selectedRoom.room_id,
    content := .str content,
    sender_username := senderUsername inp,
    sender_type := senderType inp,
    receiver_username := selectedRoom.other_username,
    receiver_type := selectedRoom.other_userType.or (.str "doctor"),
    message_type := .str "text" }

/-- The `message` of the object literal `msg` sent directly when the socket is
open, built from the locals `username` and `userType`. -/
def directMessage (inp : SendInput) (selectedRoom : ChatRoom) (content : String) :
    ChatPayload :=
  let username := senderUsername inp
  let userType := senderType inp
  { room_id := selectedRoom.room_id,
    content := .str content,
    sender_username := username,
    sender_type := userType,
    receiver_username := selectedRoom.other_username,
    receiver_type := selectedRoom.other_userType.or (.str "doctor"),
    message_type := .str "text" }

/-- The local echo appended to `messages` after a direct send. -/
def echoOf (inp : SendInput) (m : ChatPayload) : List (String × JsVal) :=
  [("id", .num inp.now), ("content", m.content), ("sender_username", m.sender_username),
   ("receiver_username", m.receiver_username), ("timestamp", .str inp.nowISO),
   ("room_id", m.room_id), ("sender_type", m.sender_type),
   ("receiver_type", m.receiver_type), ("message_type", m.message_type)]

/-- The handler `onSend`: the chat state and the input text afterwards. -/
def onSend (s : State) (inp : SendInput) : State × String :=
  let content := jsTrim inp.newMessage
  match s.selectedRoom with
  | none => ({ s with error := "Select a user and enter a message." }, inp.newMessage)
  | some selectedRoom =>
    if content = "" then
      ({ s with error := "Select a user and enter a message." }, inp.newMessage)
    else if s.wsReadyState ≠ some .OPEN then
      ({ s with
         pendingMessages := s.pendingMessages ++
           [.chat_message (queuedMessage inp selectedRoom content)],
         error := "Connecting to chat server, please wait..." }, inp.newMessage)
    else
      let msg := directMessage inp selectedRoom content
      match wsRefSend s (.chat_message msg) with
      | .ok s1 => ({ s1 with messages := s1.messages ++ [echoOf inp msg] }, "")
      | .error _ =>
        ({ s with error := "Failed to send message. Please try again." }, inp.newMessage)

end ChatWindow

namespace NotificationChannel

/-- The frames a socket of a reachable state has sent, for the user id `u`
of the closure: none while it is connecting, at least one once its heartbeat
runs, and always either none or `subscribe` followed by pings only. -/
def Socket.SentOk (u : JsVal) (sk : Socket) : Prop :=
  (sk.readyState = .CONNECTING → sk.sent = []) ∧
  (sk.heartbeat ≠ none → sk.sent ≠ []) ∧
  (sk.sent = [] ∨ ∃ n, sk.sent = .subscribe "notifications" u :: List.replicate n .ping)

end NotificationChannel

/-! ## Regular expressions of the source

A backtracking matcher for the constructs the regex literals of
`Notifications.js` use.  Characters are Unicode scalar values; none of the
patterns can match inside a surrogate pair, so matching on code units gives
the same result. -/

/-- Regular expressions: the empty pattern, one character of a class, a
sequence, `a*`, `a*?`, `a?` and a numbered capturing group. -/
inductive Regex where
  | eps
  | char (p : Char → Bool)
  | seq (a b : Regex)
  | star (a : Regex)
  | lazyStar (a : Regex)
  | opt (a : Regex)
  | group (i : Nat) (a : Regex)

namespace Regex

/-- Number of nodes. -/
def size : Regex → Nat
  | eps => 1
  | char _ => 1
  | seq a b => a.size + b.size + 1
  | star a => a.size + 1
  | lazyStar a => a.size + 1
  | opt a => a.size + 1
  | group _ a => a.size + 1

/-- The captures, by group number. -/
abbrev Captures := List (Option (List Char))

/-- Record the text of group `i`. -/
def setCapture (caps : Captures) (i : Nat) (text : List Char) : Captures :=
  (caps ++ List.replicate (i + 1 - caps.length) none).set i (some text)

/-- Match `r` at the start of `s` and hand the rest of the input and the
captures to the continuation `k`; alternatives are tried in the order of the
backtracking semantics (greedy: longest first, lazy: shortest first).  An
iteration of a star that consumes nothing is rejected.  `fuel` bounds the
nesting of calls. -/
def run {α : Type} : Nat → Regex → List Char → Captures →
    (List Char → Captures → Option α) → Option α
  | 0, _, _, _, _ => none
  | _ + 1, eps, s, caps, k => k s caps
  | _ + 1, char p, s, caps, k =>
    match s with
    | c :: rest => if p c then k rest caps else none
    | [] => none
  | fuel + 1, seq a b, s, caps, k =>
    run fuel a s caps (fun s1 caps1 => run fuel b s1 caps1 k)
  | fuel + 1, star a, s, caps, k =>
    match run fuel a s caps (fun s1 caps1 =>
        if s1.length < s.length then run fuel (star a) s1 caps1 k else none) with
    | some r => some r
    | none => k s caps
  | fuel + 1, lazyStar a, s, caps, k =>
    match k s caps with
    | some r => some r
    | none => run fuel a s caps (fun s1 caps1 =>
        if s1.length < s.length then run fuel (lazyStar a) s1 caps1 k else none)
  | fuel + 1, opt a, s, caps, k =>
    match run fuel a s caps k with
    | some r => some r
    | none => k s caps
  | fuel + 1, group i a, s, caps, k =>
    run fuel a s caps (fun s1 caps1 =>
      k s1 (setCapture caps1 i (s.take (s.length - s1.length))))

/-- A match of `r` that starts at the start of `s`: its captures. -/
def matchHere (r : Regex) (s : List Char) : Option Captures :=
  run (r.size + s.length + 1) r s [] (fun _ caps => some caps)

/-- The leftmost match of `r` in `s` (`String.prototype.match` without the
`g` flag): its captures. -/
def search (r : Regex) : List Char → Option Captures
  | [] => matchHere r []
  | c :: cs =>
    match matchHere r (c :: cs) with
    | some caps => some caps
    | none => search r cs

/-- The text of group `i` of a match. -/
def capture (caps : Captures) (i : Nat) : List Char :=
  ((caps.get? i).getD none).getD []

/-- A case-sensitive literal. -/
def lit : List Char → Regex
  | [] => eps
  | c :: cs => seq (char (fun x => x == c)) (lit cs)

/-- A literal under the `i` flag; the letters of the source's patterns are
ASCII, for which ignoring case is comparing lower-case forms. -/
def litI : List Char → Regex
  | [] => eps
  | c :: cs => seq (char (fun x => x.toLower == c.toLower)) (litI cs)

/-- The class `\d`. -/
def digit : Regex := char Char.isDigit

/-- The pattern `a+`. -/
def plus (a : Regex) : Regex := seq a (star a)

/-- The class `.` without the `s` flag: anything but a line terminator. -/
def dot : Regex :=
  char (fun c => !(c.toNat = 0x0A || c.toNat = 0x0D || c.toNat = 0x2028 || c.toNat = 0x2029))

/-- The class `.` under the `s` flag. -/
def dotAll : Regex := char (fun _ => true)

end Regex

/-- The class `\s`. -/
def Regex.space : Regex := Regex.char isJsWhitespace

/-! ## Numbers in texts -/

/-- The value of a string of decimal digits (`parseInt` on the text of a
`\d+` group). -/
def parseDigits (cs : List Char) : Nat :=
  cs.foldl (fun n c => 10 * n + (c.toNat - '0'.toNat)) 0

/-- The decimal numeral at the start of the text of a `[\d.]+` group, as
`parseFloat` reads it: the longest prefix of the form digits, optionally a
point and digits, with at least one digit.  The result is the numeral without
its point and the number of digits behind the point; `none` when there is no
such prefix. -/
def decimalParts (cs : List Char) : Option (Nat × Nat) :=
  let intPart := cs.takeWhile Char.isDigit
  let fracPart :=
    match cs.dropWhile Char.isDigit with
    | '.' :: more => more.takeWhile Char.isDigit
    | _ => []
  if intPart.isEmpty && fracPart.isEmpty then none
  else some (parseDigits (intPart ++ fracPart), fracPart.length)

/-- The function `parseFloat` on the text of a `[\d.]+` group, as an exact
rational; `none` stands for `NaN`. -/
def parseFloatDigits (cs : List Char) : Option ℚ :=
  (decimalParts cs).map (fun p => (p.1 : ℚ) / (10 : ℚ) ^ p.2)

/-! ## Notifications page and NotificationPopup: cleaning and classifying -/

/-- Optional property read `v?.k`, for the property names the handlers use:
`undefined` on `null` and `undefined`, the property otherwise. -/
def JsVal.optProp (v : JsVal) (k : String) : JsVal :=
  match v with
  | .obj _ props => (props.lookup k).getD .undefined
  | _ => .undefined

namespace Notifications

/-- The alternatives of `/📅 |📋 |💡 |🚨 |⚠️ |🤖 /g`, in source order: calendar,
clipboard, light bulb, rotating light, warning sign with variation selector,
robot, each followed by a space. -/
def markers : List (List Char) :=
  [[Char.ofNat 0x1F4C5, ' '], [Char.ofNat 0x1F4CB, ' '], [Char.ofNat 0x1F4A1, ' '],
   [Char.ofNat 0x1F6A8, ' '], [Char.ofNat 0x26A0, Char.ofNat 0xFE0F, ' '],
   [Char.ofNat 0x1F916, ' ']]

/-- The input behind the literal `m` at its start, if it starts with `m`. -/
def dropLit : List Char → List Char → Option (List Char)
  | [], l => some l
  | _ :: _, [] => none
  | a :: m, b :: l => if a = b then dropLit m l else none

/-- The input behind the marker at its start, if it starts with one; the
alternatives are tried in source order. -/
def dropMarker (l : List Char) : Option (List Char) :=
  markers.findSome? (fun m => dropLit m l)

/-- The call `.replace(/📅 |📋 |💡 |🚨 |⚠️ |🤖 /g, '')` on the characters left
to scan: a marker at the current position is skipped, any other character is
kept.  `fuel` bounds the number of steps. -/
def removeMarkersAux : Nat → List Char → List Char
  | 0, l => l
  | fuel + 1, l =>
    match dropMarker l with
    | some rest => removeMarkersAux fuel rest
    | none =>
      match l with
      | [] => []
      | c :: tl => c :: removeMarkersAux fuel tl

/-- The call `.replace(/📅 |📋 |💡 |🚨 |⚠️ |🤖 /g, '')`; every step consumes a
character, so the length of the input is fuel enough. -/
def removeMarkers (l : List Char) : List Char :=
  removeMarkersAux l.length l

/-- The expression
`data.message ? data.message.replace(/: string$/, '').replace(/📅 |.. /g, '').trim()
 : 'No message content'`; a truthy `message` that is not a string has no
`replace`. -/
def cleanMessage (message : JsVal) : Except JsError String :=
  if message.truthy then
    match message with
    | .str m => .ok (jsTrim (String.mk (removeMarkers (stripStringSuffix m).toList)))
    | _ => .error .typeError
  else .ok "No message content"

/-- The object `parseHealthAnalysis` returns when it finds an analysis. -/
structure HealthAnalysis where
  alertSummary : JsVal
  medicalExplanation : JsVal
  preventiveAdvice : JsVal
  rawData : JsVal

/-- What `detectHealthAnomalies` returns when it does not return `false`, by
its `type`. -/
inductive HealthAnomaly where
  | health_analysis (analysisData : HealthAnalysis)
  | heart_rate (value : Nat) (severity : String)
  | blood_pressure (systolic diastolic : Nat) (severity : String)
  | temperature (value : ℚ) (severity : String)
  | oxygen_saturation (value : Nat) (severity : String)
  | general_anomaly

/-- The field `severity`. -/
def HealthAnomaly.severity : HealthAnomaly → String
  | .health_analysis _ => "critical"
  | .heart_rate _ s => s
  | .blood_pressure _ _ s => s
  | .temperature _ s => s
  | .oxygen_saturation _ s => s
  | .general_anomaly => "warning"

/-- The pattern `a b c ..` of a list of patterns. -/
def cat : List Regex → Regex
  | [] => .eps
  | [a] => a
  | a :: rest => .seq a (cat rest)

/-- The literal `/Health Analysis:\s*({.*})/s`. -/
def healthAnalysisRe : Regex :=
  cat [Regex.lit "Health Analysis:".toList, .star Regex.space,
    .group 1 (cat [Regex.lit [Char.ofNat 0x7B], .star Regex.dotAll, Regex.lit [Char.ofNat 0x7D]])]

/-- The literal `/heart rate.*?(\d+)\s*bpm/i`. -/
def heartRateRe : Regex :=
  cat [Regex.litI "heart rate".toList, .lazyStar Regex.dot, .group 1 (Regex.plus Regex.digit),
    .star Regex.space, Regex.litI "bpm".toList]

/-- The literal `/blood pressure.*?(\d+)\/(\d+)/i`. -/
def bloodPressureRe : Regex :=
  cat [Regex.litI "blood pressure".toList, .lazyStar Regex.dot,
    .group 1 (Regex.plus Regex.digit), Regex.lit ['/'], .group 2 (Regex.plus Regex.digit)]

/-- The literal `/temperature.*?([\d.]+)°?[fc]/i`. -/
def temperatureRe : Regex :=
  cat [Regex.litI "temperature".toList, .lazyStar Regex.dot,
    .group 1 (Regex.plus (.char (fun c => c.isDigit || c == '.'))),
    .opt (Regex.lit [Char.ofNat 0xB0]),
    .char (fun c => c.toLower == 'f' || c.toLower == 'c')]

/-- The literal `/oxygen.*?(\d+)%/i`. -/
def oxygenRe : Regex :=
  cat [Regex.litI "oxygen".toList, .lazyStar Regex.dot, .group 1 (Regex.plus Regex.digit),
    Regex.lit ['%']]

/-- The literal `/spo2.*?(\d+)%/i`. -/
def spo2Re : Regex :=
  cat [Regex.litI "spo2".toList, .lazyStar Regex.dot, .group 1 (Regex.plus Regex.digit),
    Regex.lit ['%']]

/-- The method `includes` on character lists. -/
def includes : List Char → List Char → Bool
  | [], w => w.isEmpty
  | c :: cs, w => (dropLit w (c :: cs)).isSome || includes cs w

/-- The function `parseHealthAnalysis`; its own `try` turns every exception
into the result without analysis (`none`). -/
def parseHealthAnalysis (jsonParse : JsonParse) (message : String) : Option HealthAnalysis :=
  match healthAnalysisRe.search message.toList with
  | none => none
  | some caps =>
    let parsed : Except JsError HealthAnalysis := do
      let jsonData ← jsonParse (String.mk (Regex.capture caps 1))
      let alert_summary ← jsonData.getProp "alert_summary"
      let medical_explanation ← jsonData.getProp "medical_explanation"
      let preventive_advice ← jsonData.getProp "preventive_advice"
      pure { alertSummary := alert_summary.or (.str ""),
             medicalExplanation := medical_explanation.or (.str ""),
             preventiveAdvice := preventive_advice.or (.str ""),
             rawData := jsonData }
    match parsed with
    | .ok h => some h
    | .error _ => none

/-- The anomaly words of `detectHealthAnomalies`. -/
def anomalyKeywords : List String :=
  ["abnormal", "critical", "high", "low", "irregular", "alert", "warning", "concern"]

/-- The heart-rate test of `detectHealthAnomalies`. -/
def heartRateAnomaly (message : String) : Option HealthAnomaly :=
  match heartRateRe.search message.toList with
  | none => none
  | some caps =>
    let heartRate := parseDigits (Regex.capture caps 1)
    if heartRate < 50 ∨ heartRate > 120 then
      some (.heart_rate heartRate (if heartRate < 40 ∨ heartRate > 140 then "critical" else "warning"))
    else none

/-- The blood-pressure test of `detectHealthAnomalies`. -/
def bloodPressureAnomaly (message : String) : Option HealthAnomaly :=
  match bloodPressureRe.search message.toList with
  | none => none
  | some caps =>
    let systolic := parseDigits (Regex.capture caps 1)
    let diastolic := parseDigits (Regex.capture caps 2)
    if systolic > 140 ∨ systolic < 90 ∨ diastolic > 90 ∨ diastolic < 60 then
      some (.blood_pressure systolic diastolic
        (if systolic > 160 ∨ diastolic > 100 then "critical" else "warning"))
    else none

/-- The temperature test of `detectHealthAnomalies`; the arithmetic is exact,
the rounding of floating point is not modelled: a reading that differs from
a bound by less than the precision of a double (such as
`38.50000000000000000001`) is classified here by its exact value and in the
browser by the double `parseFloat` rounds it to. -/
def temperatureAnomaly (message : String) : Option HealthAnomaly :=
  match temperatureRe.search message.toList with
  | none => none
  | some caps =>
    match parseFloatDigits (Regex.capture caps 1) with
    | none => none
    | some temp =>
      let tempC : ℚ :=
        if includes (asciiLower message).toList ['f'] then (temp - 32) * 5 / 9 else temp
      if tempC > 38.5 ∨ tempC < 35.5 then
        some (.temperature temp (if tempC > 40 ∨ tempC < 35 then "critical" else "warning"))
      else none

/-- The oxygen test of `detectHealthAnomalies`. -/
def oxygenAnomaly (message : String) : Option HealthAnomaly :=
  match (oxygenRe.search message.toList).orElse (fun _ => spo2Re.search message.toList) with
  | none => none
  | some caps =>
    let oxygen := parseDigits (Regex.capture caps 1)
    if oxygen < 95 then
      some (.oxygen_saturation oxygen (if oxygen < 90 then "critical" else "warning"))
    else none

/-- The function `detectHealthAnomalies(message, type)` for a string
`message`; `none` stands for `false`. -/
def detectHealthAnomalies (jsonParse : JsonParse) (message : String) (type : JsVal) :
    Option HealthAnomaly :=
  if message = "" then none
  else
    match parseHealthAnalysis jsonParse message with
    | some analysis => some (.health_analysis analysis)
    | none =>
      if type.isStr "iot_data" then
        match heartRateAnomaly message with
        | some a => some a
        | none =>
          match bloodPressureAnomaly message with
          | some a => some a
          | none =>
            match temperatureAnomaly message with
            | some a => some a
            | none =>
              match oxygenAnomaly message with
              | some a => some a
              | none =>
                if anomalyKeywords.any
                    (fun keyword => includes (asciiLower message).toList keyword.toList) then
                  some .general_anomaly
                else none
      else none

end Notifications

/-! ## Notifications page and NotificationPopup: inbound notification frames -/

namespace Notifications

/-- What the browser supplies to `onmessage`, as for the header. -/
abbrev Env := Header.Env

/-- The fields of the object `notification` that the Notifications page and
`NotificationPopup` compute in the same way.  The display texts `message`
and `fullMessage` and the derived objects `healthAnalysis` and
`dailyTipData` differ between the two and are left out. -/
structure Decoded where
  id : JsVal
  title : String
  type : JsVal
  originalType : JsVal
  timestamp : JsVal
  doctor : String
  isAutomatic : Bool
  changeType : JsVal
  city : JsVal
  vitalsTimestamp : JsVal
  healthAnomaly : Option HealthAnomaly
  originalMessage : String

/-- The text `severity === 'critical' ? 'Critical' : 'Warning'`. -/
def severityWord (severity : String) : String :=
  if severity = "critical" then "Critical" else "Warning"

/-- The value of `notificationTitle` after the `if (healthAnomaly)` block. -/
def anomalyTitle : Option HealthAnomaly → String
  | none => ""
  | some (.health_analysis _) => "Critical Health Analysis Alert"
  | some (.heart_rate _ severity) => severityWord severity ++ ": Abnormal Heart Rate"
  | some (.blood_pressure _ _ severity) => severityWord severity ++ ": Blood Pressure Alert"
  | some (.temperature _ severity) => severityWord severity ++ ": Temperature Alert"
  | some (.oxygen_saturation _ severity) => severityWord severity ++ ": Low Oxygen Levels"
  | some .general_anomaly => "Health Alert: Vital Signs Monitoring"

/-- The title chosen from `data.notification_type` when `notificationTitle`
is empty. -/
def typeTitle (notification_type : JsVal) (isAutomaticUpdate : Bool) : String :=
  if notification_type.isStr "appointment_accepted" then "Appointment Accepted"
  else if notification_type.isStr "appointment_rejected" then "Appointment Rejected"
  else if notification_type.isStr "appointment_postponed" then "Appointment Postponed"
  else if notification_type.isStr "medical_report_created" then "New Medical Report"
  else if notification_type.isStr "health_analysis" then "Health Analysis Alert"
  else if notification_type.isStr "iot_data" then "IoT Data Update"
  else if notification_type.isStr "daily_tip" then
    (if isAutomaticUpdate then "Daily Tip Auto-Updated" else "Daily Health Tip Updated")
  else "Notification"

/-- The part of the `notification` branch both handlers share, for the parsed
frame `data`: clean the message, classify it, build the object. -/
def decode (env : Env) (data : JsVal) : Except JsError Decoded := do
  let message ← data.getProp "message"
  let cleanMessage ← cleanMessage message
  let notification_type ← data.getProp "notification_type"
  let healthAnomaly := detectHealthAnomalies env.jsonParse cleanMessage notification_type
  let notificationType :=
    match healthAnomaly with
    | some _ => JsVal.str "health_alert"
    | none => notification_type
  let notificationTitle := anomalyTitle healthAnomaly
  let metadata ← data.getProp "metadata"
  let isAutomaticUpdate := (metadata.optProp "trigger").isStr "automatic_vitals_update"
  let changeType := (metadata.optProp "change_type").or (.str "vitals/location change")
  let id ← data.getProp "id"
  let timestamp ← data.getProp "timestamp"
  pure
    { id := id.or (.str ("notif-" ++ toString env.now ++ "-" ++ env.random)),
      title :=
        if notificationTitle ≠ "" then notificationTitle
        else typeTitle notification_type isAutomaticUpdate,
      type := notificationType,
      originalType := notification_type,
      timestamp := timestamp.or (.str env.nowISO),
      doctor :=
        match message with
        | .str m =>
          if message.truthy then (matchDoctor m.toList).getD "Health Assistant"
          else "Health Assistant"
        | _ => "Health Assistant",
      isAutomatic := isAutomaticUpdate,
      changeType := changeType,
      city := (metadata.optProp "city").or (.str "Unknown Location"),
      vitalsTimestamp := metadata.optProp "vitals_timestamp",
      healthAnomaly := healthAnomaly,
      originalMessage := cleanMessage }

/-- An element of the `notifications` state of the page. -/
structure Notification extends Decoded where
  unread : Bool

/-- The `notifications` state of the page and the socket `ws` the handler
belongs to. -/
structure View where
  notifications : List Notification
  ws : NotificationChannel.Socket

/-- The updater passed to `setNotifications`: a new notification goes to the
front. -/
def addNotification (prev : List Notification) (notification : Notification) :
    List Notification :=
  if prev.any (fun notif => notif.id.strictEq notification.id) then prev
  else notification :: prev

/-- The body of the `try` block of `ws.onmessage` of the page. -/
def onmessageTry (env : Env) (v : View) (raw : String) : Except JsError View := do
  let data ← env.jsonParse raw
  let type ← data.getProp "type"
  if type.isStr "notification" then
    let d ← decode env data
    pure { v with notifications := addNotification v.notifications { toDecoded := d, unread := true } }
  else
    let error ← data.getProp "error"
    if error.truthy then pure { v with ws := v.ws.close }
    else pure v

/-- The handler `ws.onmessage` of the page: the `catch` block only logs. -/
def onmessage (env : Env) (v : View) (raw : String) : Except JsError View :=
  tryCatch (onmessageTry env v raw) (fun _ => pure v)

end Notifications

namespace NotificationPopup

/-- The `popups` state and the socket `ws` the handler belongs to. -/
structure View where
  popups : List Notifications.Decoded
  ws : NotificationChannel.Socket

/-- The body of the `try` block of `ws.onmessage` of the popup, up to the
sound it plays and the timer that removes the popup again. -/
def onmessageTry (env : Notifications.Env) (v : View) (raw : String) : Except JsError View := do
  let data ← env.jsonParse raw
  let type ← data.getProp "type"
  if type.isStr "notification" then
    let notification ← Notifications.decode env data
    pure { v with popups := v.popups ++ [notification] }
  else
    let error ← data.getProp "error"
    if error.truthy then pure { v with ws := v.ws.close }
    else pure v

/-- The handler `ws.onmessage` of the popup: the `catch` block only logs. -/
def onmessage (env : Notifications.Env) (v : View) (raw : String) : Except JsError View :=
  tryCatch (onmessageTry env v raw) (fun _ => pure v)

end NotificationPopup

/-! ## Sequences of notification frames -/

namespace Header

/-- The view after `onmessage` has run for one frame; `env` holds what
`Date.now()` and `Math.random()` answer during that call. -/
def receive (v : View) (frame : Env × String) : View :=
  match onmessage frame.1 v frame.2 with
  | .ok v' => v'
  | .error _ => v

/-- The view after the frames have arrived in this order. -/
def receiveAll (v : View) (frames : List (Env × String)) : View :=
  frames.foldl receive v

end Header

namespace Notifications

/-- The view after `onmessage` has run for one frame. -/
def receive (v : View) (frame : Env × String) : View :=
  match onmessage frame.1 v frame.2 with
  | .ok v' => v'
  | .error _ => v

/-- The view after the frames have arrived in this order. -/
def receiveAll (v : View) (frames : List (Env × String)) : View :=
  frames.foldl receive v

end Notifications

/-- The ids are pairwise different under `===`. -/
def DistinctIds (ids : List JsVal) : Prop :=
  ids.Pairwise (fun a b => a.strictEq b = false)

/-! ## What a cleaned message contains -/

namespace Notifications

/-- The characters `m` occur in `l` as one run. -/
def Contains (m l : List Char) : Prop :=
  ∃ pre post, l = pre ++ m ++ post

/-- The characters `l` end with `m`. -/
def EndsWith (m l : List Char) : Prop :=
  ∃ pre, l = pre ++ m

/-- One of the six markers occurs in `l`. -/
def HasMarker (l : List Char) : Prop :=
  ∃ m ∈ markers, Contains m l

/-- Somewhere in `l` a non-empty proper beginning `p` of a marker (its emoji,
or the bare warning sign) is directly followed by a marker. -/
def MarkerAfterEmoji (l : List Char) : Prop :=
  ∃ p q m, p ≠ [] ∧ q ≠ [] ∧ p ++ q ∈ markers ∧ m ∈ markers ∧ Contains (p ++ m) l

end Notifications

/-! ## AuthContext: reload, and the route guard -/

namespace AuthContext

/-- The function `initializeAuth` that runs when `AuthProvider` mounts: the
session afterwards and the path it navigates to, if any.  After a reload the
`user` state it starts from is `null`. -/
def initializeAuth (sess : Session) : Session × Option String :=
  let authToken := getItem sess.storage "authToken"
  let userType := getItem sess.storage "userType"
  let username := getItem sess.storage "username"
  let deviceToken := getItem sess.storage "device_token"
  let organizationName := getItem sess.storage "organizationName"
  let googleAccessToken := getItem sess.storage "googleAccessToken"
  let googleRefreshToken := getItem sess.storage "googleRefreshToken"
  if authToken.truthy && userType.truthy && username.truthy then
    let user : User :=
      { authToken := authToken, userType := userType, username := username,
        deviceToken := deviceToken.or .null,
        organizationName := organizationName.or .null,
        googleAccessToken := googleAccessToken.or .null,
        googleRefreshToken := googleRefreshToken.or .null }
    ({ sess with user := some user }, none)
  else
    ({ sess with storage := sessionKeys.foldl removeItem sess.storage }, some "/user/login")

/-- An optional string argument: left out, `null`, or a string. -/
def OptionalString (v : JsVal) : Prop :=
  v = .undefined ∨ v = .null ∨ ∃ s, v = .str s

end AuthContext

/-- What a route element renders: the nested routes (`Outlet`), or a
redirect (`Navigate`) to the path `target`. -/
inductive RouteElement where
  | outlet
  | navigate (target : String)
  deriving DecidableEq, Repr

/-- The component `PrivateRoute`, as a function of `localStorage`. -/
def PrivateRoute (storage : AuthContext.Storage) : RouteElement :=
  let demoMode := false
  let token := AuthContext.getItem storage "authToken"
  let userType := AuthContext.getItem storage "userType"
  if demoMode then .outlet
  else if token.truthy && userType.isStr "Patient" then .outlet
  else .navigate "/user/login"

/-! ## Notifications page: grouping by day -/

namespace Notifications

/-- What the browser supplies to `groupByDay`: the time value of `new Date()`,
the time value a date has after `setHours(0, 0, 0, 0)` (the start of its
local calendar day), and the time value of `new Date(x)` (`none` for an
invalid date). -/
structure DayEnv where
  now : Int
  startOfDay : Int → Int
  newDate : JsVal → Option Int

/-- The accumulator of the `reduce`. -/
structure Groups (α : Type) where
  today : List α
  yesterday : List α
  older : List α

/-- The value `diff = (today - date) / 86400000` for the timestamp `ts`;
`none` stands for `NaN`. -/
def dayDiff (env : DayEnv) (ts : JsVal) : Option ℚ :=
  let today := env.startOfDay env.now
  match env.newDate ts with
  | none => none
  | some t =>
    let date := env.startOfDay t
    some (((today - date : Int) : ℚ) / 86400000)

/-- One step of the `reduce`; every comparison with `NaN` is false. -/
def groupStep {α : Type} (env : DayEnv) (timestamp : α → JsVal) (acc : Groups α) (n : α) :
    Groups α :=
  match dayDiff env (timestamp n) with
  | none => { acc with older := acc.older ++ [n] }
  | some diff =>
    if diff < 1 then { acc with today := acc.today ++ [n] }
    else if diff < 2 then { acc with yesterday := acc.yesterday ++ [n] }
    else { acc with older := acc.older ++ [n] }

/-- The function `groupByDay`; of an element `n` it reads `n.timestamp` only,
given here by `timestamp`.  The local `yesterday` it computes with
`setDate(getDate() - 1)` is not used by the `reduce` and is left out. -/
def groupByDay {α : Type} (env : DayEnv) (timestamp : α → JsVal) (notifs : List α) :
    Groups α :=
  notifs.foldl (groupStep env timestamp) { today := [], yesterday := [], older := [] }

end Notifications

/-! ## Login: attempt accounting and lockout -/

namespace Login

/-- The constant `MAX_ATTEMPTS`. -/
def MAX_ATTEMPTS : Nat := 3

/-- The constant `LOCKOUT_DURATION`, in milliseconds. -/
def LOCKOUT_DURATION : Int := 5 * 60 * 1000

/-- The object stored under `login_attempts_<username>`, as the value its
JSON text encodes: `lockoutTime` is `null` (`none`) or an ISO date string,
given by its time value in milliseconds.  Entries are only ever written by
`saveLoginAttempts`. -/
structure LoginAttempts where
  attempts : Nat
  lockoutTime : Option Int
  deriving DecidableEq, Repr

/-- The `login_attempts_*` entries of `localStorage`, by key. -/
abbrev Store := List (String × LoginAttempts)

/-- The function `getLoginAttempts`. -/
def getLoginAttempts (store : Store) (username : String) : LoginAttempts :=
  match store.lookup ("login_attempts_" ++ username) with
  | some stored => stored
  | none => { attempts := 0, lockoutTime := none }

/-- The function `saveLoginAttempts(username, attempts, lockoutTime)`;
`localStorage.setItem` replaces the entry of the key. -/
def saveLoginAttempts (store : Store) (username : String) (attempts : Nat)
    (lockoutTime : Option Int) : Store :=
  store.filter (fun p => p.1 != "login_attempts_" ++ username) ++
    [("login_attempts_" ++ username, { attempts := attempts, lockoutTime := lockoutTime })]

/-- The function `formatTime`. -/
def formatTime (seconds : Int) : String :=
  let minutes := seconds / 60
  let secs := seconds % 60
  toString minutes ++ ":" ++ (if secs < 10 then "0" else "") ++ toString secs

/-- The property `length` of a string: its number of UTF-16 code units. -/
def jsLength (s : String) : Nat :=
  (s.toList.map (fun c => if c.toNat < 0x10000 then 1 else 2)).sum

/-- The `fieldErrors` state: for each of the two keys, absent (`none`) or
present with a message or with `undefined`. -/
structure FieldErrors where
  username : Option JsVal
  password : Option JsVal

/-- The test `Object.keys(errors).length === 0`. -/
def FieldErrors.isEmpty (errors : FieldErrors) : Bool :=
  errors.username.isNone && errors.password.isNone

/-- The function `validateField`, which copies the `fieldErrors` of the render
it belongs to: the object it passes to `setFieldErrors` and its result. -/
def validateField (fieldErrors : FieldErrors) (fieldName value : String) :
    FieldErrors × Bool :=
  let errors : FieldErrors :=
    if fieldName = "username" then
      if jsTrim value = "" then
        { fieldErrors with username := some (.str "Username is required") }
      else if jsLength value < 3 then
        { fieldErrors with username := some (.str "Username must be at least 3 characters") }
      else { fieldErrors with username := none }
    else if fieldName = "password" then
      if value = "" then
        { fieldErrors with password := some (.str "Password is required") }
      else if jsLength value < 6 then
        { fieldErrors with password := some (.str "Password must be at least 6 characters") }
      else { fieldErrors with password := none }
    else fieldErrors
  (errors, errors.isEmpty)

/-- State of the `Login` component that `handleLogin` and the lockout effect
read or write, with the `login_attempts_*` entries of `localStorage`.  The
animation flags and the toasts are left out. -/
structure State where
  username : String
  password : String
  error : String
  fieldErrors : FieldErrors
  lockoutRemaining : Option Int
  isLoading : Bool
  store : Store

/-- What the request to `/auth/login` gives: a rejected `fetch` (with the
message of the error), or a response with its `ok` flag and the result of
`response.json()` (the parsed body, or the message of what it throws). -/
inductive Reply where
  | rejected (message : String)
  | response (ok : Bool) (json : Except String JsVal)

/-- What else `handleLogin` depends on: `new Date()` at the lockout check,
`Date.now()` when the response is handled, the text `errorMsg` that the
`!response.ok` branch computes from the body (or the message of what that
computation throws), the message of a `TypeError`, and the message of what
the `login` of the context throws for the given `access_token`, `role`,
`username` and `device_token` (`none` when it returns). -/
structure Env where
  now : Int
  answered : Int
  errorMsg : JsVal → Except String String
  typeErrorMessage : String
  login : JsVal → JsVal → JsVal → JsVal → Option String

/-- What a call of `handleLogin` did: the state afterwards, whether the
request was sent, and the arguments of the `login` call if it was made. -/
structure Outcome where
  state : State
  sent : Bool
  loginCall : Option (JsVal × JsVal × JsVal × JsVal)

/-- The `catch` block of `handleLogin` for an error with message `message`. -/
def catchBlock (s : State) (message : String) : State :=
  if !Notifications.includes message.toList "Too many".toList then
    { s with error := if message ≠ "" then message else "Login failed. Please try again." }
  else s

/-- The `try` block of `handleLogin` once the request has been answered:
the state, the `login` call made, and the message of the error thrown, if
any.  `attempts` is the count read before the request was sent.  The first
property read of the body is `data.role`; once it has succeeded the later
reads of `data` cannot throw. -/
def afterReply (env : Env) (s : State) (attempts : Nat) (reply : Reply) :
    State × Option (JsVal × JsVal × JsVal × JsVal) × Option String :=
  match reply with
  | .rejected message => (s, none, some message)
  | .response _ (.error message) => (s, none, some message)
  | .response ok (.ok data) =>
    match data.getProp "role" with
    | .error _ => (s, none, some env.typeErrorMessage)
    | .ok role =>
      if !ok then
        match env.errorMsg data with
        | .error message => (s, none, some message)
        | .ok errorMsg =>
          let newAttempts := attempts + 1
          if newAttempts ≥ MAX_ATTEMPTS then
            let lockoutTime := env.answered + LOCKOUT_DURATION
            ({ s with
               store := saveLoginAttempts s.store s.username newAttempts (some lockoutTime),
               error := "Too many failed attempts. Account locked for 5 minutes.",
               lockoutRemaining := some 300 }, none, some errorMsg)
          else
            ({ s with
               store := saveLoginAttempts s.store s.username newAttempts none,
               error := errorMsg }, none, some errorMsg)
      else
        let access_token := (data.getProp "access_token").toOption.getD .undefined
        let username := (data.getProp "username").toOption.getD .undefined
        let device_token := (data.getProp "device_token").toOption.getD .undefined
        let s1 := { s with store := saveLoginAttempts s.store s.username 0 none }
        match env.login access_token role username device_token with
        | none => (s1, some (access_token, role, username, device_token), none)
        | some message =>
          ({ s1 with error := "Failed to process login. Please try again." },
           some (access_token, role, username, device_token), some message)

/-- The handler `handleLogin`. -/
def handleLogin (env : Env) (s : State) (reply : Reply) : Outcome :=
  if jsTrim s.username = "" ∨ jsTrim s.password = "" then
    { state := { s with error := "Please enter both username and password." },
      sent := false, loginCall := none }
  else
    let isUsernameValid := (validateField s.fieldErrors "username" s.username).2
    let passwordCheck := validateField s.fieldErrors "password" s.password
    let isPasswordValid := passwordCheck.2
    if !isUsernameValid || !isPasswordValid then
      { state := { s with fieldErrors := passwordCheck.1 }, sent := false, loginCall := none }
    else
      let s1 := { s with isLoading := true, error := "",
                         fieldErrors := { username := none, password := none } }
      let stored := getLoginAttempts s.store s.username
      match stored.lockoutTime with
      | some lockoutTime =>
        if lockoutTime > env.now then
          let remaining := (lockoutTime - env.now) / 1000
          { state := { s1 with
                       error := "Account locked. Try again in " ++ formatTime remaining ++ ".",
                       isLoading := false },
            sent := false, loginCall := none }
        else
          let r := afterReply env s1 stored.attempts reply
          { state := { (match r.2.2 with
                        | some message => catchBlock r.1 message
                        | none => r.1) with isLoading := false },
            sent := true, loginCall := r.2.1 }
      | none =>
        let r := afterReply env s1 stored.attempts reply
        { state := { (match r.2.2 with
                      | some message => catchBlock r.1 message
                      | none => r.1) with isLoading := false },
          sent := true, loginCall := r.2.1 }

/-- The closure of the interval callback the lockout effect installs: the
`username` and the `lockoutTime` of the run of the effect. -/
structure Countdown where
  username : String
  lockoutTime : Int

/-- The effect with the dependency `[username]`, run at time `now`: the state
and the interval it starts, if any. -/
def lockoutEffect (s : State) (now : Int) : State × Option Countdown :=
  if jsTrim s.username = "" then (s, none)
  else
    match (getLoginAttempts s.store s.username).lockoutTime with
    | some lockoutTime =>
      if lockoutTime > now then (s, some { username := s.username, lockoutTime := lockoutTime })
      else ({ s with lockoutRemaining := none }, none)
    | none => ({ s with lockoutRemaining := none }, none)

/-- One run of the interval callback at time `now`: the state, and whether
the interval goes on. -/
def countdownTick (s : State) (c : Countdown) (now : Int) : State × Bool :=
  let remaining := max 0 ((c.lockoutTime - now) / 1000)
  if remaining = 0 then
    ({ s with store := saveLoginAttempts s.store c.username 0 none, lockoutRemaining := none },
     false)
  else ({ s with lockoutRemaining := some remaining }, true)

end Login

/-! # Theorems -/

/-! ## ChatWindow: queue, reconnection, teardown -/

namespace ChatWindow

/-! ### Lemmas: the attempt counter and the failure run -/

theorem wsRefSend_reconnectAttempts (s s' : State) (m : Command)
    (h : wsRefSend s m = .ok s') : s'.reconnectAttempts = s.reconnectAttempts := by
  unfold wsRefSend at h
  split at h
  · cases h
  · split at h
    · cases h
    · split at h
      · cases h
      · cases h; rfl
      · cases h; rfl

theorem sendOrQueueMessage_reconnectAttempts (s : State) (m : Command) :
    (sendOrQueueMessage s m).reconnectAttempts = s.reconnectAttempts := by
  unfold sendOrQueueMessage
  split
  · split
    · next s' h => exact wsRefSend_reconnectAttempts s s' m h
    · rfl
  · rfl

theorem sendAll_reconnectAttempts (ms : List Command) (s : State) :
    (sendAll s ms).1.reconnectAttempts = s.reconnectAttempts := by
  induction ms generalizing s with
  | nil => rfl
  | cons m ms ih =>
    unfold sendAll
    split
    · rfl
    · next s' h => rw [ih s', wsRefSend_reconnectAttempts s s' m h]

theorem joinRooms_reconnectAttempts (joined : List JsVal) (rooms : List ChatRoom) (s : State) :
    (joinRooms joined s rooms).reconnectAttempts = s.reconnectAttempts := by
  induction rooms generalizing s with
  | nil => rfl
  | cons room rooms ih =>
    unfold joinRooms
    split
    · rw [ih]; exact sendOrQueueMessage_reconnectAttempts s _
    · exact ih s

theorem selectedRoomEffect_reconnectAttempts (s : State) :
    (selectedRoomEffect s).reconnectAttempts = s.reconnectAttempts := by
  unfold selectedRoomEffect
  split
  · rfl
  · split
    · split
      · simp only
        rw [sendOrQueueMessage_reconnectAttempts]
        split
        · exact sendOrQueueMessage_reconnectAttempts _ _
        · rfl
      · rfl
    · rfl

theorem step_other_reconnectAttempts (s : State) (ev : Event)
    (ho : ∀ j, ev ≠ .opened j) (hc : ∀ j, ev ≠ .closed j) :
    (step s ev).reconnectAttempts = s.reconnectAttempts := by
  cases ev with
  | effect token username =>
    simp only [step, effect, initWebSocket]
    split
    · split <;> rfl
    · rfl
  | cleanup =>
    simp only [step, cleanup]
    split
    · rfl
    · split
      · rfl
      · split <;> rfl
  | opened j => exact absurd rfl (ho j)
  | errored j =>
    simp only [step]
    split <;> rfl
  | closed j => exact absurd rfl (hc j)
  | timerFired j =>
    simp only [step, initWebSocket]
    split
    · split <;> rfl
    · rfl
  | send message => exact sendOrQueueMessage_reconnectAttempts s message
  | selectRoom room =>
    simp only [step]
    exact selectedRoomEffect_reconnectAttempts _

theorem onopen_reconnectAttempts (s : State) (sk : Socket) :
    (onopen s sk).reconnectAttempts = 0 := by
  unfold onopen
  have h1 := sendAll_reconnectAttempts sk.render.pendingMessages
    { s with reconnectAttempts := 0, error := "" }
  simp only
  split
  · next s2 e heq => rw [heq] at h1; exact h1
  · next s2 heq =>
    rw [heq] at h1
    rw [joinRooms_reconnectAttempts, sendOrQueueMessage_reconnectAttempts]
    exact h1

theorem failOnce_retrying (c : Nat) (s : State) (h : Retrying c s) (hc : c < 5) :
    Retrying (c + 1) (failOnce s) ∧
    (failOnce s).sockets.length = s.sockets.length + 1 := by
  obtain ⟨hcount, htimers, i, sk, hws, hsk, hlive, htok, husr, hothers⟩ := h
  have hi : i < s.sockets.length := (List.getElem?_eq_some.mp hsk).1
  have hlt : c < maxReconnect := by unfold maxReconnect; omega
  have hstep : failOnce s =
      { s with
        reconnectAttempts := c + 1,
        error := "Reconnecting to chat server (attempt " ++ toString (c + 1) ++ "/" ++
          toString maxReconnect ++ ")...",
        timers := [],
        sockets := s.sockets.set i { sk with readyState := .CLOSED } ++
          [⟨sk.token, sk.username, sk.render, .CONNECTING, []⟩],
        wsRef := some s.sockets.length } := by
    simp [failOnce, hws, step, hsk, hlive, onclose, State.setSocket, hlt, htimers,
      initWebSocket, htok, husr, hcount]
  rw [hstep]
  refine ⟨⟨rfl, rfl, s.sockets.length, ⟨sk.token, sk.username, sk.render, .CONNECTING, []⟩,
    rfl, ?_, by simp, htok, husr, ?_⟩, by simp⟩
  · simp
  · intro j sk' hj hne
    simp only at hj hne
    have hjlt : j < s.sockets.length := by
      by_contra hge
      have : (s.sockets.set i { sk with readyState := .CLOSED } ++
          [⟨sk.token, sk.username, sk.render, .CONNECTING, []⟩])[j]? = none ∨ j = s.sockets.length := by
        rcases Nat.lt_or_ge s.sockets.length j with h1 | h1
        · left; simp; omega
        · right; omega
      rcases this with h1 | h1
      · rw [h1] at hj; cases hj
      · exact hne h1
    rw [List.getElem?_append_left (by simpa using hjlt)] at hj
    rw [List.getElem?_set] at hj
    by_cases hij : i = j
    · subst hij
      simp [hjlt] at hj
      rw [← hj]
    · simp [hij] at hj
      exact hothers j sk' hj (fun h => hij h.symm)

theorem failOnce_givesUp (s : State) (h : Retrying 5 s) :
    GivenUp (failOnce s) ∧ (failOnce s).sockets.length = s.sockets.length := by
  obtain ⟨hcount, htimers, i, sk, hws, hsk, hlive, htok, husr, hothers⟩ := h
  have hi : i < s.sockets.length := (List.getElem?_eq_some.mp hsk).1
  have hge : ¬ s.reconnectAttempts < maxReconnect := by unfold maxReconnect; omega
  have hstep : failOnce s =
      { s with
        error := "Chat connection lost. Please refresh the page.",
        sockets := s.sockets.set i { sk with readyState := .CLOSED } } := by
    simp [failOnce, hws, step, hsk, hlive, onclose, State.setSocket, hge, htimers]
  rw [hstep]
  refine ⟨⟨hcount, htimers, rfl, ?_⟩, by simp⟩
  intro j sk' hj
  simp only at hj
  rw [List.getElem?_set] at hj
  by_cases hij : i = j
  · subst hij
    simp [hi] at hj
    rw [← hj]
  · simp [hij] at hj
    exact hothers j sk' hj (fun h => hij h.symm)

theorem failOnce_givenUp (s : State) (h : GivenUp s) : failOnce s = s := by
  obtain ⟨_, htimers, _, hall⟩ := h
  unfold failOnce
  cases hws : s.wsRef with
  | none => simp [step, htimers]
  | some i =>
    cases hsk : s.sockets[i]? with
    | none => simp [step, hsk, htimers]
    | some sk => simp [step, hsk, hall i sk hsk, htimers]

theorem failures_low (s : State) (h : Retrying 0 s) (k : Nat) (hk : k ≤ 5) :
    Retrying k (failures k s) ∧ (failures k s).sockets.length = s.sockets.length + k := by
  induction k with
  | zero => exact ⟨h, rfl⟩
  | succ k ih =>
    obtain ⟨h1, h2⟩ := ih (by omega)
    obtain ⟨h3, h4⟩ := failOnce_retrying k (failures k s) h1 (by omega)
    exact ⟨h3, by rw [failures, h4, h2]; omega⟩

theorem failures_high (s : State) (h : Retrying 0 s) (k : Nat) (hk : 5 < k) :
    GivenUp (failures k s) ∧ (failures k s).sockets.length = s.sockets.length + 5 := by
  induction k with
  | zero => omega
  | succ k ih =>
    by_cases h5 : k = 5
    · subst h5
      obtain ⟨h1, h2⟩ := failures_low s h 5 (le_refl 5)
      obtain ⟨h3, h4⟩ := failOnce_givesUp (failures 5 s) h1
      exact ⟨h3, by rw [failures, h4, h2]⟩
    · obtain ⟨h1, h2⟩ := ih (by omega)
      rw [failures, failOnce_givenUp _ h1]
      exact ⟨h1, h2⟩

/-! ### The claims -/

/-- C1 (defect exhibited): commands issued while the socket is connecting are
appended to `pendingMessages` in order, but `onopen` flushes the
`pendingMessages` of the render that created the socket (empty at mount) and
then clears the queue, so they are dropped without having been sent: the only
frame transmitted is `fetch_rooms`.  This holds for a direct
`sendOrQueueMessage` and for the two commands queued when the user picks a
room.  Conversely a command that was in the queue when the effect ran is
transmitted again by every socket that effect opens: twice in the last run. -/
theorem C1_queued_command_dropped_on_open :
    (run State.init
      [.effect (.str "t") (.str "u"), .send (.fetch_messages (.str "r1"))]).wsReadyState
        = some .CONNECTING ∧
    (run State.init
      [.effect (.str "t") (.str "u"), .send (.fetch_messages (.str "r1"))]).pendingMessages
        = [.fetch_messages (.str "r1")] ∧
    (run State.init
      [.effect (.str "t") (.str "u"), .send (.fetch_messages (.str "r1")),
       .opened 0]).wsReadyState = some .OPEN ∧
    (run State.init
      [.effect (.str "t") (.str "u"), .send (.fetch_messages (.str "r1")),
       .opened 0]).sockets.map Socket.sent = [[.fetch_rooms]] ∧
    (run State.init
      [.effect (.str "t") (.str "u"), .send (.fetch_messages (.str "r1")),
       .opened 0]).pendingMessages = [] ∧
    (run State.init
      [.effect (.str "t") (.str "u"),
       .selectRoom ⟨.str "r1", .str "dr", .str "doctor"⟩]).pendingMessages
        = [.join_room (.str "r1"), .fetch_messages (.str "r1")] ∧
    (run State.init
      [.effect (.str "t") (.str "u"), .selectRoom ⟨.str "r1", .str "dr", .str "doctor"⟩,
       .opened 0]).sockets.map Socket.sent = [[.fetch_rooms]] ∧
    (run State.init
      [.effect (.str "t") (.str "u"), .selectRoom ⟨.str "r1", .str "dr", .str "doctor"⟩,
       .opened 0]).pendingMessages = [] ∧
    (run State.init
      [.send (.fetch_messages (.str "r1")), .effect (.str "t") (.str "u"), .opened 0,
       .closed 0, .timerFired 0, .opened 1]).sockets.map Socket.sent =
      [[.fetch_messages (.str "r1"), .fetch_rooms],
       [.fetch_messages (.str "r1"), .fetch_rooms]] :=
  ⟨rfl, rfl, rfl, rfl, rfl, rfl, rfl, rfl, rfl⟩

/-- C2: every effective open resets the attempt counter to 0; a close below
the cap of 5 raises the counter by one and schedules one reconnect timer; a
close at the cap schedules nothing, keeps the counter and shows the
connection-lost text; no other event changes the counter.  Hence in a run of
`k` consecutive failed connections after an open the counter is `min k 5`,
exactly `min k 5` further sockets are constructed (the 5th by the close at
counter 4), no timer is left pending, and from the 6th failure on no socket is
connecting or open and the connection-lost text is shown. -/
theorem C2_reconnect_capped (s : State) (i : Nat) (sk : Socket)
    (hws : s.wsRef = some i) (hsk : s.sockets[i]? = some sk)
    (hlive : sk.readyState ≠ .CLOSED)
    (htok : sk.token.truthy = true) (husr : sk.username.truthy = true)
    (hothers : ∀ (j : Nat) (sk' : Socket), s.sockets[j]? = some sk' → j ≠ i →
      sk'.readyState = .CLOSED)
    (hcount : s.reconnectAttempts = 0) (htimers : s.timers = []) :
    (∀ (t : State) (j : Nat) (c : Socket), t.sockets[j]? = some c →
        c.readyState = .CONNECTING → (step t (.opened j)).reconnectAttempts = 0) ∧
    (∀ (t : State) (j : Nat) (c : Socket), t.sockets[j]? = some c →
        c.readyState ≠ .CLOSED →
        (t.reconnectAttempts < 5 →
          (step t (.closed j)).reconnectAttempts = t.reconnectAttempts + 1 ∧
          (step t (.closed j)).timers = t.timers ++
            [⟨reconnectDelay (t.reconnectAttempts + 1), c.token, c.username, c.render⟩]) ∧
        (5 ≤ t.reconnectAttempts →
          (step t (.closed j)).reconnectAttempts = t.reconnectAttempts ∧
          (step t (.closed j)).timers = t.timers ∧
          (step t (.closed j)).error = "Chat connection lost. Please refresh the page.")) ∧
    (∀ (t : State) (ev : Event), (∀ j, ev ≠ .opened j) → (∀ j, ev ≠ .closed j) →
        (step t ev).reconnectAttempts = t.reconnectAttempts) ∧
    ∀ k : Nat,
      (failures k s).reconnectAttempts = min k 5 ∧
      (failures k s).sockets.length = s.sockets.length + min k 5 ∧
      (failures k s).timers = [] ∧
      (5 < k → (failures k s).liveSockets = [] ∧
        (failures k s).error = "Chat connection lost. Please refresh the page.") := by
  have h0 : Retrying 0 s := ⟨hcount, htimers, i, sk, hws, hsk, hlive, htok, husr, hothers⟩
  refine ⟨?_, ?_, step_other_reconnectAttempts, ?_⟩
  · intro t j c hc hconn
    simp only [step, hc, hconn, if_true]
    exact onopen_reconnectAttempts _ _
  · intro t j c hc hl
    constructor
    · intro hlt
      have hlt' : t.reconnectAttempts < maxReconnect := hlt
      simp [step, hc, hl, onclose, State.setSocket, hlt']
    · intro hge
      have hge' : ¬ t.reconnectAttempts < maxReconnect := by unfold maxReconnect; omega
      simp [step, hc, hl, onclose, State.setSocket, hge']
  · intro k
    rcases Nat.lt_or_ge 5 k with hk | hk
    · obtain ⟨⟨g1, g2, g3, g4⟩, hlen⟩ := failures_high s h0 k hk
      refine ⟨by rw [g1]; omega, by rw [hlen]; omega, g2, fun _ => ⟨?_, g3⟩⟩
      unfold State.liveSockets
      rw [List.filter_eq_nil_iff]
      intro a ha
      obtain ⟨n, hn⟩ := List.mem_iff_getElem?.mp ha
      have := g4 n a hn
      simp [this]
    · obtain ⟨⟨g1, g2, _⟩, hlen⟩ := failures_low s h0 k hk
      refine ⟨by rw [g1]; omega, by rw [hlen]; omega, g2, fun h => by omega⟩

/-- Witness for `C2_reconnect_capped`: the run that starts at mount. -/
theorem C2_reconnect_capped_witness :
    (failures 5 (run State.init [.effect (.str "t") (.str "u")])).sockets.length = 6 ∧
    (failures 6 (run State.init [.effect (.str "t") (.str "u")])).sockets.length = 6 ∧
    (failures 6 (run State.init [.effect (.str "t") (.str "u")])).liveSockets = [] := by
  have h := (C2_reconnect_capped (run State.init [.effect (.str "t") (.str "u")]) 0
    ⟨.str "t", .str "u", ⟨[], [], [], none⟩, .CONNECTING, []⟩ rfl rfl (by decide) rfl rfl
    (by
      intro j sk' hj hne
      cases j with
      | zero => exact absurd rfl hne
      | succ j =>
        change ([⟨.str "t", .str "u", ⟨[], [], [], none⟩, .CONNECTING, []⟩] :
          List Socket)[j + 1]? = some sk' at hj
        simp at hj)
    rfl rfl).2.2.2
  exact ⟨(h 5).2.1, (h 6).2.1, ((h 6).2.2.2 (by decide)).1⟩

/-- C3 (refuted as stated): the timer scheduled by the first close of the
first socket has a delay of 2000 ms, not 10000 ms. -/
theorem C3_first_delay_is_not_10000 :
    (run State.init [.effect (.str "t") (.str "u"), .closed 0]).timers.map Timer.delay
        = [2000] ∧
    (run State.init [.effect (.str "t") (.str "u"), .closed 0]).timers.map Timer.delay
        ≠ [10000] := by
  constructor
  · rfl
  · decide

/-- C3 (amended): the close that raises the attempt counter to `n`, for `n`
from 1 to 5, schedules `initWebSocket` after `1000 * 2 ^ n` ms, that is after
2000, 4000, 8000, 16000 and 32000 ms. -/
theorem C3_delay_doubles (s : State) (i n : Nat) (sk : Socket)
    (hsk : s.sockets[i]? = some sk) (hlive : sk.readyState ≠ .CLOSED)
    (hn : 1 ≤ n ∧ n ≤ 5) (hc : s.reconnectAttempts + 1 = n) :
    (step s (.closed i)).timers
        = s.timers ++ [⟨1000 * 2 ^ n, sk.token, sk.username, sk.render⟩] ∧
    [1, 2, 3, 4, 5].map reconnectDelay = [2000, 4000, 8000, 16000, 32000] := by
  have hlt : s.reconnectAttempts < maxReconnect := by
    unfold maxReconnect; omega
  refine ⟨?_, by decide⟩
  simp [step, hsk, hlive, onclose, State.setSocket, hlt, reconnectDelay, hc]

/-- Witness for `C3_delay_doubles`: the second close of a run. -/
theorem C3_delay_doubles_witness :
    (step (run State.init [.effect (.str "t") (.str "u"), .closed 0, .timerFired 0])
        (.closed 1)).timers.map Timer.delay = [4000] := by
  have h := (C3_delay_doubles
    (run State.init [.effect (.str "t") (.str "u"), .closed 0, .timerFired 0]) 1 2
    ⟨.str "t", .str "u", ⟨[], [], [], none⟩, .CONNECTING, []⟩ rfl (by decide)
    (by decide) rfl).1
  rw [h]
  rfl

/-- C5 (defect exhibited): the cleanup neither cancels a pending reconnect
timer nor keeps a closed socket from reconnecting.  Torn down while a
reconnect is pending, the timer is still pending afterwards and constructs a
new socket when it fires; torn down while open, the close that follows
schedules a reconnect that constructs a new socket.  Running the cleanup twice
equals running it once. -/
theorem C5_teardown_leaves_reconnect :
    (run State.init [.effect (.str "t") (.str "u"), .closed 0, .cleanup]).timers.length = 1 ∧
    (run State.init [.effect (.str "t") (.str "u"), .closed 0, .cleanup,
      .timerFired 0]).liveSockets.length = 1 ∧
    (run State.init [.effect (.str "t") (.str "u"), .opened 0, .cleanup,
      .closed 0]).timers.length = 1 ∧
    (run State.init [.effect (.str "t") (.str "u"), .opened 0, .cleanup, .closed 0,
      .timerFired 0]).liveSockets.length = 1 ∧
    ∀ s : State, cleanup (cleanup s) = cleanup s := by
  refine ⟨rfl, rfl, rfl, rfl, ?_⟩
  intro s
  unfold cleanup
  cases hw : s.wsRef with
  | none => simp [hw]
  | some i =>
    cases hs : s.sockets[i]? with
    | none => simp [hw, hs]
    | some sk =>
      by_cases ho : sk.readyState = .OPEN
      · have hi : i < s.sockets.length := by
          rcases List.getElem?_eq_some.mp hs with ⟨h, _⟩
          exact h
        simp [hw, hs, ho, State.setSocket, List.getElem?_set, hi]
      · simp [hw, hs, ho]

/-- C6 (defect exhibited): when `user` changes while the first socket is
still connecting, the cleanup leaves that socket alone and the effect
constructs a second one: two chat sockets are connecting at once. -/
theorem C6_two_live_sockets :
    (run State.init [.effect (.str "t") (.str "u"), .cleanup,
      .effect (.str "t2") (.str "u")]).liveSockets.length = 2 ∧
    (run State.init [.effect (.str "t") (.str "u"), .cleanup,
      .effect (.str "t2") (.str "u")]).sockets.map Socket.readyState
        = [.CONNECTING, .CONNECTING] :=
  ⟨rfl, rfl⟩

end ChatWindow

/-! ## Notification channel: heartbeat and reconnection -/

namespace NotificationChannel

/-! ### Lemmas: socket invariants -/

theorem forall_mem_set {α : Type} (P : α → Prop) (l : List α) (i : Nat) (a : α)
    (hl : ∀ x ∈ l, P x) (ha : P a) : ∀ x ∈ l.set i a, P x := by
  intro x hx
  rcases List.mem_or_eq_of_mem_set hx with h | h
  · exact hl x h
  · rw [h]; exact ha

theorem forall_mem_concat {α : Type} (P : α → Prop) (l : List α) (a : α)
    (hl : ∀ x ∈ l, P x) (ha : P a) : ∀ x ∈ l ++ [a], P x := by
  intro x hx
  rcases List.mem_append.mp hx with h | h
  · exact hl x h
  · rw [List.mem_singleton.mp h]; exact ha

theorem close_consistent (sk : Socket) (h : sk.Consistent) : sk.close.Consistent := by
  unfold Socket.close
  obtain ⟨h1, h2⟩ := h
  split
  · exact ⟨h1, fun hc => by cases hc⟩
  · exact ⟨h1, fun hc => by cases hc⟩
  · exact ⟨h1, h2⟩

theorem connectWebSocket_consistent (s : State) (token : JsVal)
    (h : ∀ x ∈ s.sockets, x.Consistent) :
    ∀ x ∈ (connectWebSocket s token).1.sockets, x.Consistent := by
  unfold connectWebSocket
  split
  · exact h
  · exact forall_mem_concat _ _ _ h ⟨fun hc => absurd rfl hc, fun _ => rfl⟩

theorem connectWebSocket_some (s s2 : State) (token : JsVal) (i : Nat)
    (h : connectWebSocket s token = (s2, some i)) :
    i = s.sockets.length ∧
    s2 = { s with sockets := s.sockets ++ [⟨token, .CONNECTING, .log, none, []⟩] } := by
  unfold connectWebSocket at h
  split at h
  · cases h
  · cases h
    exact ⟨rfl, rfl⟩

theorem step_consistent (s : State) (ev : Event) (h : ∀ x ∈ s.sockets, x.Consistent) :
    ∀ x ∈ (step s ev).sockets, x.Consistent := by
  cases ev with
  | init refreshed =>
    exact connectWebSocket_consistent s _ h
  | opened i =>
    simp only [step]
    split
    · next sk hsk =>
      split
      · exact forall_mem_set _ _ _ _ h ⟨fun _ => rfl, fun hc => by cases hc⟩
      · exact h
    · exact h
  | closed i =>
    simp only [step]
    split
    · next sk hsk =>
      have hm : sk.Consistent := h sk (List.getElem?_mem hsk)
      split
      · exact h
      · have h1 : ({ sk with readyState := .CLOSED } : Socket).Consistent :=
          ⟨hm.1, fun hc => by cases hc⟩
        have hs1 := forall_mem_set _ _ i _ h h1
        unfold runOnclose
        split
        · exact hs1
        · exact forall_mem_set _ _ _ _ hs1 ⟨fun hc => absurd rfl hc, fun _ => rfl⟩
        · exact hs1
    · exact h
  | tick i =>
    simp only [step]
    split
    · next sk hsk =>
      have hm : sk.Consistent := h sk (List.getElem?_mem hsk)
      split
      · unfold heartbeatTick
        split
        · exact forall_mem_set _ _ _ _ h ⟨hm.1, hm.2⟩
        · exact h
      · exact h
    · exact h
  | timerFired t refreshed =>
    simp only [step]
    split
    · unfold attemptReconnect
      split
      · simp only
        split
        · next s2 i heq =>
          have hc := connectWebSocket_consistent
            { s with timers := s.timers.filter (fun x => x.id ≠ t),
                     reconnectAttempts := s.reconnectAttempts + 1 }
            (chooseToken s.user refreshed) h
          rw [heq] at hc
          split
          · next sk hsk =>
            obtain ⟨hi, hs2⟩ := connectWebSocket_some _ _ _ _ heq
            have hnew : sk = ⟨chooseToken s.user refreshed, .CONNECTING, .log, none, []⟩ := by
              subst hi hs2
              simpa using hsk.symm
            exact forall_mem_set _ _ _ _ hc
              ⟨fun hb => by rw [hnew] at hb; exact absurd rfl hb, fun _ => by rw [hnew]⟩
          · exact hc
        · next s2 heq =>
          have hc := connectWebSocket_consistent
            { s with timers := s.timers.filter (fun x => x.id ≠ t),
                     reconnectAttempts := s.reconnectAttempts + 1 }
            (chooseToken s.user refreshed) h
          rw [heq] at hc
          exact hc
      · exact h
    · exact h
  | serverError i =>
    simp only [step]
    split
    · next sk hsk =>
      exact forall_mem_set _ _ _ _ h (close_consistent sk (h sk (List.getElem?_mem hsk)))
    · exact h
  | cleanup =>
    simp only [step]
    unfold cleanup
    have h1 : ∀ x ∈ (match s.ws with
        | some i =>
          match s.sockets[i]? with
          | some sk => s.setSocket i sk.close
          | none => s
        | none => s).sockets, x.Consistent := by
      split
      · split
        · next sk hsk =>
          exact forall_mem_set _ _ _ _ h (close_consistent sk (h sk (List.getElem?_mem hsk)))
        · exact h
      · exact h
    simp only
    split
    · exact h1
    · exact h1

theorem run_consistent (evs : List Event) (s : State) (h : ∀ x ∈ s.sockets, x.Consistent) :
    ∀ x ∈ (run s evs).sockets, x.Consistent := by
  induction evs generalizing s with
  | nil => exact h
  | cons ev evs ih => exact ih (step s ev) (step_consistent s ev h)

theorem setSocket_other (s : State) (i j : Nat) (a : Socket) (hne : j ≠ i) :
    (s.setSocket j a).sockets[i]? = s.sockets[i]? := by
  simp [State.setSocket, List.getElem?_set_ne hne]

theorem setSocket_same (s : State) (i : Nat) (sk : Socket) (h : s.sockets[i]? = some sk) :
    (s.setSocket i sk).sockets[i]? = some sk := by
  have hi : i < s.sockets.length := (List.getElem?_eq_some.mp h).1
  simp [State.setSocket, hi]

theorem connectWebSocket_keeps (s : State) (token : JsVal) (i : Nat) (sk : Socket)
    (h : s.sockets[i]? = some sk) : (connectWebSocket s token).1.sockets[i]? = some sk := by
  have hi : i < s.sockets.length := (List.getElem?_eq_some.mp h).1
  unfold connectWebSocket
  split
  · exact h
  · simp only
    rw [List.getElem?_append_left hi]
    exact h

/-- A closed socket without heartbeat is never touched again. -/
theorem step_frozen (s : State) (ev : Event) (i : Nat) (sk : Socket)
    (h : s.sockets[i]? = some sk) (hc : sk.readyState = .CLOSED) (hb : sk.heartbeat = none) :
    (step s ev).sockets[i]? = some sk := by
  have hi : i < s.sockets.length := (List.getElem?_eq_some.mp h).1
  have hclose : sk.close = sk := by simp [Socket.close, hc]
  cases ev with
  | init refreshed => exact connectWebSocket_keeps s _ i sk h
  | opened j =>
    simp only [step]
    split
    · next sk' hsk' =>
      split
      · next hconn =>
        by_cases hji : j = i
        · subst hji
          rw [h] at hsk'
          cases hsk'
          rw [hc] at hconn
          cases hconn
        · unfold onopen
          rw [setSocket_other _ _ _ _ hji]
          exact h
      · exact h
    · exact h
  | closed j =>
    simp only [step]
    split
    · next sk' hsk' =>
      split
      · exact h
      · next hnc =>
        by_cases hji : j = i
        · subst hji
          rw [h] at hsk'
          cases hsk'
          exact absurd hc hnc
        · unfold runOnclose
          split
          · rw [setSocket_other _ _ _ _ hji]; exact h
          · rw [setSocket_other _ _ _ _ hji, setSocket_other _ _ _ _ hji]; exact h
          · unfold scheduleReconnect
            simp only
            rw [setSocket_other _ _ _ _ hji]; exact h
    · exact h
  | tick j =>
    simp only [step]
    split
    · next sk' hsk' =>
      split
      · next p hp =>
        by_cases hji : j = i
        · subst hji
          rw [h] at hsk'
          cases hsk'
          rw [hb] at hp
          cases hp
        · unfold heartbeatTick
          split
          · rw [setSocket_other _ _ _ _ hji]; exact h
          · exact h
      · exact h
    · exact h
  | timerFired t refreshed =>
    simp only [step]
    split
    · unfold attemptReconnect
      split
      · simp only
        split
        · next s2 j heq =>
          obtain ⟨hj, hs2⟩ := connectWebSocket_some _ _ _ _ heq
          have hji : j ≠ i := by rw [hj]; simp only; omega
          have hk : s2.sockets[i]? = some sk := by
            rw [hs2]; simp only
            rw [List.getElem?_append_left hi]; exact h
          split
          · rw [setSocket_other _ _ _ _ hji]; exact hk
          · exact hk
        · next s2 heq =>
          have hk := connectWebSocket_keeps
            { s with timers := s.timers.filter (fun x => x.id ≠ t),
                     reconnectAttempts := s.reconnectAttempts + 1 }
            (chooseToken s.user refreshed) i sk h
          rw [heq] at hk
          exact hk
      · exact h
    · exact h
  | serverError j =>
    simp only [step]
    split
    · next sk' hsk' =>
      by_cases hji : j = i
      · subst hji
        rw [h] at hsk'
        cases hsk'
        rw [hclose]
        exact setSocket_same _ _ _ h
      · rw [setSocket_other _ _ _ _ hji]; exact h
    · exact h
  | cleanup =>
    simp only [step]
    unfold cleanup
    have h1 : (match s.ws with
        | some j =>
          match s.sockets[j]? with
          | some sk => s.setSocket j sk.close
          | none => s
        | none => s).sockets[i]? = some sk := by
      split
      · next j _ =>
        split
        · next sk' hsk' =>
          by_cases hji : j = i
          · subst hji
            rw [h] at hsk'
            cases hsk'
            rw [hclose]
            exact setSocket_same _ _ _ h
          · rw [setSocket_other _ _ _ _ hji]; exact h
        · exact h
      · exact h
    simp only
    split
    · exact h1
    · exact h1

theorem run_frozen (evs : List Event) (s : State) (i : Nat) (sk : Socket)
    (h : s.sockets[i]? = some sk) (hc : sk.readyState = .CLOSED) (hb : sk.heartbeat = none) :
    (run s evs).sockets[i]? = some sk := by
  induction evs generalizing s with
  | nil => exact h
  | cons ev evs ih => exact ih (step s ev) (step_frozen s ev i sk h hc hb)

/-- The close event leaves the socket closed and without heartbeat. -/
theorem closed_stops_heartbeat (s : State) (i : Nat) (sk : Socket)
    (h : s.sockets[i]? = some sk) (hcons : sk.Consistent) (hl : sk.readyState ≠ .CLOSED) :
    (step s (.closed i)).sockets[i]? =
      some { sk with readyState := .CLOSED, heartbeat := none } := by
  have hi : i < s.sockets.length := (List.getElem?_eq_some.mp h).1
  simp only [step, h, hl, if_false]
  unfold runOnclose
  cases hb : sk.heartbeat with
  | none =>
    cases ho : sk.onclose <;> simp [State.setSocket, scheduleReconnect, hi, hb]
  | some p =>
    have ho : sk.onclose = .stopHeartbeat := hcons.1 (by rw [hb]; simp)
    simp [State.setSocket, hi, ho]

/-! ### The claims -/

/-- C4 (defect exhibited): a socket that reached Open and is then closed by
the transport only has its heartbeat stopped.  `initWebSocket` never installs
the reconnecting `onclose`, and `onopen` replaces whatever `onclose` was
installed by the heartbeat-clearing one, so the attempt counter stays 0 and no
timer is scheduled; the same holds for a socket made by `attemptReconnect`. -/
theorem C4_close_after_open_schedules_nothing :
    (run (State.init ⟨.str "t", .str "u"⟩) [.init .null, .opened 0, .closed 0]).sockets.map
      (fun c => (c.readyState, c.heartbeat)) = [(.CLOSED, none)] ∧
    (run (State.init ⟨.str "t", .str "u"⟩)
      [.init .null, .opened 0, .closed 0]).reconnectAttempts = 0 ∧
    (run (State.init ⟨.str "t", .str "u"⟩) [.init .null, .opened 0, .closed 0]).timers = [] ∧
    (run (State.init ⟨.str "t", .str "u"⟩)
      [.init .null, .opened 0, .closed 0]).reconnectTimeout = none ∧
    (run (attemptReconnect (State.init ⟨.str "t", .str "u"⟩) .null)
      [.opened 0, .closed 0]).sockets.map (fun c => (c.readyState, c.heartbeat))
        = [(.CLOSED, none)] ∧
    (run (attemptReconnect (State.init ⟨.str "t", .str "u"⟩) .null)
      [.opened 0, .closed 0]).reconnectAttempts = 1 ∧
    (run (attemptReconnect (State.init ⟨.str "t", .str "u"⟩) .null)
      [.opened 0, .closed 0]).timers = [] :=
  ⟨rfl, rfl, rfl, rfl, rfl, rfl, rfl⟩

/-- C7: in every reachable state of the effect and for every socket of it, a
heartbeat tick transmits `ping` exactly when the interval is running and the
socket is open and otherwise transmits nothing; a connecting socket has no
interval and `onopen` starts one with period 15000 ms; and once the close
event of a socket has fired its interval is cleared and, whatever happens
later, the socket stays without interval and transmits nothing more. -/
theorem C7_heartbeat (user : User) (evs : List Event) (i : Nat) (sk : Socket)
    (hsk : (run (State.init user) evs).sockets[i]? = some sk) :
    ((step (run (State.init user) evs) (.tick i)).sockets[i]?.map Socket.sent =
      some (if sk.heartbeat ≠ none ∧ sk.readyState = .OPEN then sk.sent ++ [.ping]
            else sk.sent)) ∧
    (sk.readyState = .CONNECTING →
      sk.heartbeat = none ∧
      (step (run (State.init user) evs) (.opened i)).sockets[i]?.map Socket.heartbeat =
        some (some 15000)) ∧
    (sk.readyState ≠ .CLOSED → ∀ evs' : List Event,
      (run (step (run (State.init user) evs) (.closed i)) evs').sockets[i]?.map
        (fun c => (c.readyState, c.heartbeat, c.sent)) = some (.CLOSED, none, sk.sent)) := by
  have hcons : sk.Consistent :=
    run_consistent evs (State.init user) (by intro x hx; cases hx) sk (List.getElem?_mem hsk)
  have hi : i < (run (State.init user) evs).sockets.length :=
    (List.getElem?_eq_some.mp hsk).1
  refine ⟨?_, ?_, ?_⟩
  · simp only [step, hsk]
    cases hb : sk.heartbeat with
    | none => simp [hsk]
    | some p =>
      by_cases ho : sk.readyState = .OPEN
      · simp [heartbeatTick, ho, State.setSocket, hi]
      · simp [heartbeatTick, ho, hsk]
  · intro hconn
    refine ⟨hcons.2 hconn, ?_⟩
    simp [step, hsk, hconn, onopen, State.setSocket, hi, HEARTBEAT_INTERVAL]
  · intro hl evs'
    have h1 := closed_stops_heartbeat _ i sk hsk hcons hl
    rw [run_frozen evs' _ i _ h1 rfl rfl]
    rfl

/-- Witness for `C7_heartbeat`: the socket of a header that has just opened. -/
theorem C7_heartbeat_witness :
    (step (run (State.init ⟨.str "t", .str "u"⟩) [.init .null, .opened 0])
        (.tick 0)).sockets[0]?.map Socket.sent =
      some [.subscribe "notifications" (.str "u"), .ping] ∧
    (run (step (run (State.init ⟨.str "t", .str "u"⟩) [.init .null, .opened 0]) (.closed 0))
        [.tick 0, .tick 0]).sockets[0]?.map (fun c => (c.readyState, c.heartbeat, c.sent)) =
      some (.CLOSED, none, [.subscribe "notifications" (.str "u")]) := by
  have h := C7_heartbeat ⟨.str "t", .str "u"⟩ [.init .null, .opened 0] 0
    ⟨.str "t", .OPEN, .stopHeartbeat, some 15000, [.subscribe "notifications" (.str "u")]⟩ rfl
  exact ⟨h.1, h.2.2 (by decide) [.tick 0, .tick 0]⟩

/-- C9 (refuted as stated): with no token in the session and a refresh that
answers `null`, `attemptReconnect` raises the attempt counter from 0 to 1. -/
theorem C9_missing_token_raises_counter :
    (State.init ⟨.null, .str "u"⟩).reconnectAttempts = 0 ∧
    (attemptReconnect (State.init ⟨.null, .str "u"⟩) .null).reconnectAttempts = 1 ∧
    (attemptReconnect (State.init ⟨.null, .str "u"⟩) .null).reconnectAttempts ≠
      (State.init ⟨.null, .str "u"⟩).reconnectAttempts := by
  refine ⟨rfl, rfl, ?_⟩
  decide

/-- C9 (amended): with no token in the session and a refresh that answers
`null`, `attemptReconnect` constructs no socket; below the cap of 5 it raises
the attempt counter by exactly one and schedules the next `attemptReconnect`
after 10000 ms, and at the cap it changes nothing. -/
theorem C9_missing_token_consumes_attempt (s : State)
    (h : s.user.authToken.truthy = false) :
    (attemptReconnect s .null).sockets = s.sockets ∧
    (s.reconnectAttempts < 5 →
      (attemptReconnect s .null).reconnectAttempts = s.reconnectAttempts + 1 ∧
      (attemptReconnect s .null).ws = none ∧
      (attemptReconnect s .null).timers = s.timers ++ [⟨s.nextTimerId, 10000⟩]) ∧
    (5 ≤ s.reconnectAttempts → attemptReconnect s .null = s) := by
  have hlt5 : MAX_RECONNECT_ATTEMPTS = 5 := rfl
  have hnull : JsVal.null.truthy = false := rfl
  refine ⟨?_, ?_, ?_⟩
  · by_cases hlt : s.reconnectAttempts < MAX_RECONNECT_ATTEMPTS
    · simp [attemptReconnect, hlt, connectWebSocket, chooseToken, h, hnull, scheduleReconnect]
    · simp [attemptReconnect, hlt]
  · intro hlt
    have hlt' : s.reconnectAttempts < MAX_RECONNECT_ATTEMPTS := by rw [hlt5]; exact hlt
    simp [attemptReconnect, hlt', connectWebSocket, chooseToken, h, hnull, scheduleReconnect,
      RECONNECT_INTERVAL]
  · intro hge
    have hge' : ¬ s.reconnectAttempts < MAX_RECONNECT_ATTEMPTS := by rw [hlt5]; omega
    simp [attemptReconnect, hge']

/-- Witness for `C9_missing_token_consumes_attempt`. -/
theorem C9_missing_token_consumes_attempt_witness :
    (attemptReconnect (State.init ⟨.null, .str "u"⟩) .null).timers = [⟨1, 10000⟩] :=
  ((C9_missing_token_consumes_attempt (State.init ⟨.null, .str "u"⟩) rfl).2.1
    (by decide)).2.2

end NotificationChannel

/-! ## Claims across channels -/


/-- C8: with a token that is `null`, `undefined` or the empty string,
`connectWebSocket` (Header, NotificationPopup, Notifications page) returns
`null` and `initWebSocket` and the effect of ChatWindow return, all without
constructing a socket. -/
theorem C8_missing_token_no_socket (token : JsVal)
    (h : token = .null ∨ token = .undefined ∨ token = .str "") :
    (∀ s : NotificationChannel.State,
      NotificationChannel.connectWebSocket s token = (s, none)) ∧
    (∀ (s : ChatWindow.State) (r : ChatWindow.Render) (username : JsVal),
      (ChatWindow.initWebSocket s r token username).sockets = s.sockets ∧
      (ChatWindow.initWebSocket s r token username).wsRef = s.wsRef ∧
      (ChatWindow.initWebSocket s r token username).timers = s.timers) ∧
    (∀ (s : ChatWindow.State) (username : JsVal),
      (ChatWindow.effect s token username).sockets = s.sockets) := by
  have ht : token.truthy = false := by
    rcases h with h | h | h <;> subst h <;> rfl
  refine ⟨?_, ?_, ?_⟩
  · intro s
    simp [NotificationChannel.connectWebSocket, ht]
  · intro s r username
    simp [ChatWindow.initWebSocket, ht]
  · intro s username
    simp [ChatWindow.effect, ht]

/-- Witness for `C8_missing_token_no_socket`: the empty token. -/
theorem C8_missing_token_no_socket_witness :
    (ChatWindow.initWebSocket ChatWindow.State.init ⟨[], [], [], none⟩ (.str "")
      (.str "u")).sockets = [] :=
  ((C8_missing_token_no_socket (.str "") (Or.inr (Or.inr rfl))).2.1
    ChatWindow.State.init ⟨[], [], [], none⟩ (.str "u")).1

/-- A `try` block whose `catch` block cannot throw returns normally. -/
theorem tryCatch_pure_ok {α : Type} (body : Except JsError α) (fallback : α) :
    ∃ a, tryCatch body (fun _ => pure fallback) = Except.ok a ∧
      (∀ e, body = .error e → a = fallback) := by
  cases body with
  | error e => exact ⟨fallback, rfl, fun _ _ => rfl⟩
  | ok a => exact ⟨a, rfl, fun e h => by cases h⟩

/-- C10: for every raw payload and whatever `JSON.parse` makes of it (a
`SyntaxError`, `null`, a number, a string, an object with missing or
wrongly-typed fields), `onmessage` of the header notification channel, of the
chat channel and of each real-time vitals view returns normally; and when
`JSON.parse` throws, the notification list and the socket of the header are
unchanged, the chat state is unchanged but for its error text (so the message
list and the sockets are unchanged), and the vitals state is unchanged but for
its error text (so the sample buffer and the socket state are unchanged). -/
theorem C10_onmessage_never_throws (raw : String) :
    (∀ (env : Header.Env) (v : Header.View),
      ∃ v', Header.onmessage env v raw = .ok v' ∧
        ((∃ e, env.jsonParse raw = .error e) → v' = v)) ∧
    (∀ (env : ChatWindow.Env) (s : ChatWindow.State) (sk : ChatWindow.Socket),
      ∃ s', ChatWindow.onmessage env s sk raw = .ok s' ∧
        ((∃ e, env.jsonParse raw = .error e) →
          s' = { s with error := "Error processing message" } ∧
          s'.messages = s.messages ∧ s'.sockets = s.sockets)) ∧
    (∀ (vital : Realtime.Vital) (env : Realtime.Env) (s : Realtime.State),
      ∃ s', Realtime.onmessage vital env s raw = .ok s' ∧
        ((∃ e, env.jsonParse raw = .error e) →
          s' = { s with error := "Failed to parse WebSocket data." } ∧
          s'.realtimeData = s.realtimeData ∧ s'.readyState = s.readyState)) := by
  refine ⟨?_, ?_, ?_⟩
  · intro env v
    obtain ⟨a, h1, h2⟩ := tryCatch_pure_ok (Header.onmessageTry env v raw) v
    refine ⟨a, h1, ?_⟩
    rintro ⟨e, he⟩
    exact h2 e (by unfold Header.onmessageTry; rw [he]; rfl)
  · intro env s sk
    obtain ⟨a, h1, h2⟩ := tryCatch_pure_ok (ChatWindow.onmessageTry env s sk raw)
      { s with error := "Error processing message" }
    refine ⟨a, h1, ?_⟩
    rintro ⟨e, he⟩
    have := h2 e (by unfold ChatWindow.onmessageTry; rw [he]; rfl)
    subst this
    exact ⟨rfl, rfl, rfl⟩
  · intro vital env s
    obtain ⟨a, h1, h2⟩ := tryCatch_pure_ok (Realtime.onmessageTry vital env s raw)
      { s with error := "Failed to parse WebSocket data." }
    refine ⟨a, h1, ?_⟩
    rintro ⟨e, he⟩
    have := h2 e (by unfold Realtime.onmessageTry; rw [he]; rfl)
    subst this
    exact ⟨rfl, rfl, rfl⟩

/-- Witness for `C10_onmessage_never_throws`: a header whose `JSON.parse`
rejects the payload keeps its one notification and its open socket. -/
theorem C10_onmessage_never_throws_witness :
    Header.onmessage ⟨fun _ => .error .syntaxError, 0, "r", "1970-01-01T00:00:00.000Z"⟩
      ⟨[⟨.str "n1", .str "Notification", .str "hello", .str "info", .str "t", .str "Unknown",
         true⟩],
       ⟨.str "t", .OPEN, .stopHeartbeat, some 15000, []⟩⟩ "\x7boops" =
    .ok ⟨[⟨.str "n1", .str "Notification", .str "hello", .str "info", .str "t", .str "Unknown",
         true⟩],
       ⟨.str "t", .OPEN, .stopHeartbeat, some 15000, []⟩⟩ := by
  obtain ⟨v', h1, h2⟩ := (C10_onmessage_never_throws "\x7boops").1
    ⟨fun _ => .error .syntaxError, 0, "r", "1970-01-01T00:00:00.000Z"⟩
    ⟨[⟨.str "n1", .str "Notification", .str "hello", .str "info", .str "t", .str "Unknown",
       true⟩],
     ⟨.str "t", .OPEN, .stopHeartbeat, some 15000, []⟩⟩
  rw [h1, h2 ⟨.syntaxError, rfl⟩]

/-- Frames that parse but are not objects of the expected shape are dropped
by the `catch` block: `null` in the header, a `chat_rooms` frame whose `rooms`
is a number in the chat, an accepted vitals frame without `data`. -/
theorem onmessage_wrongly_typed_examples :
    Header.onmessage ⟨fun _ => .ok .null, 0, "r", "now"⟩
      ⟨[], ⟨.str "t", .OPEN, .stopHeartbeat, some 15000, []⟩⟩ "null" =
      .ok ⟨[], ⟨.str "t", .OPEN, .stopHeartbeat, some 15000, []⟩⟩ ∧
    (ChatWindow.onmessage
      ⟨fun _ => .ok (.obj 0 [("type", .str "chat_rooms"), ("rooms", .num 3)]), 0, "now"⟩
      ChatWindow.State.init ⟨.str "t", .str "u", ⟨[], [], [], none⟩, .OPEN, []⟩
      "x").map (fun s => (s.error, s.chatRooms.length)) =
      .ok ("Error processing message", 0) ∧
    (Realtime.onmessage .heartRate
      ⟨fun _ => .ok (.obj 0 [("topic", .str "healthcare/iot"), ("message_type", .str "mqtt_data")]),
       fun _ => .ok none, fun _ => ""⟩
      ⟨none, [], "", true, .OPEN⟩ "x").map (fun s => (s.error, s.realtimeData.length)) =
      .ok ("Failed to parse WebSocket data.", 0) :=
  ⟨rfl, rfl, rfl⟩

/-! ## Inbound frames: unrecognised kinds and decode failures -/

/-- C11 (refuted as stated): an object whose `type` is not a recognised kind
but which carries a truthy `error` field makes the header handler call
`ws.close()`: the open socket is closing afterwards. -/
theorem C11_error_field_closes_socket :
    (Header.onmessage
      ⟨fun _ => .ok (.obj 0 [("type", .str "status"), ("error", .str "boom")]), 0, "r", "now"⟩
      ⟨[], ⟨.str "t", .OPEN, .stopHeartbeat, some 15000, []⟩⟩ "frame").map
        (fun v => (v.notifications.length, v.ws.readyState)) = .ok (0, .CLOSING) :=
  rfl

/-- C11 (amended): for every inbound JSON object whose `type` is not
`notification` (the one kind the header handler recognises), the handler does
not throw and leaves the notification list unchanged; it leaves the socket
untouched when the object has no truthy `error` field, and calls `ws.close()`
when it has one. -/
theorem C11_unrecognised_type (env : Header.Env) (v : Header.View) (raw : String)
    (ref : Nat) (props : List (String × JsVal))
    (hparse : env.jsonParse raw = .ok (.obj ref props))
    (htype : (propOf props "type").isStr "notification" = false) :
    ∃ v', Header.onmessage env v raw = .ok v' ∧
      v'.notifications = v.notifications ∧
      ((propOf props "error").truthy = false → v' = v) ∧
      ((propOf props "error").truthy = true → v' = { v with ws := v.ws.close }) := by
  have htype' : ((props.lookup "type").getD JsVal.undefined).isStr "notification" = false :=
    htype
  cases herr : (propOf props "error").truthy with
  | false =>
    have herr' : ((props.lookup "error").getD JsVal.undefined).truthy = false := herr
    refine ⟨v, ?_, rfl, fun _ => rfl, fun h => by cases h⟩
    simp [Header.onmessage, Header.onmessageTry, hparse, JsVal.getProp, htype', herr',
      tryCatch, tryCatchThe, MonadExceptOf.tryCatch, Except.tryCatch, bind, Except.bind, pure,
      Except.pure]
  | true =>
    have herr' : ((props.lookup "error").getD JsVal.undefined).truthy = true := herr
    refine ⟨{ v with ws := v.ws.close }, ?_, rfl, (fun h => by cases h), fun _ => rfl⟩
    simp [Header.onmessage, Header.onmessageTry, hparse, JsVal.getProp, htype', herr',
      tryCatch, tryCatchThe, MonadExceptOf.tryCatch, Except.tryCatch, bind, Except.bind, pure,
      Except.pure]

/-- Witness for `C11_unrecognised_type`: a `pong` frame changes nothing. -/
theorem C11_unrecognised_type_witness :
    ∃ v', Header.onmessage ⟨fun _ => .ok (.obj 0 [("type", .str "pong")]), 0, "r", "now"⟩
        ⟨[], ⟨.str "t", .OPEN, .stopHeartbeat, some 15000, []⟩⟩ "frame" = .ok v' ∧
      v'.notifications = [] ∧ v'.ws.readyState = .OPEN := by
  obtain ⟨v', h1, h2, h3, _⟩ := C11_unrecognised_type
    ⟨fun _ => .ok (.obj 0 [("type", .str "pong")]), 0, "r", "now"⟩
    ⟨[], ⟨.str "t", .OPEN, .stopHeartbeat, some 15000, []⟩⟩ "frame" 0 [("type", .str "pong")]
    rfl rfl
  refine ⟨v', h1, h2, ?_⟩
  rw [h3 rfl]

/-- C12 (refuted as stated): a payload `JSON.parse` rejects changes the error
text the chat view shows from empty to `Error processing message`, and the one
a vitals view shows to `Failed to parse WebSocket data.`. -/
theorem C12_decode_failure_is_shown :
    (ChatWindow.onmessage ⟨fun _ => .error .syntaxError, 0, "now"⟩ ChatWindow.State.init
      ⟨.str "t", .str "u", ⟨[], [], [], none⟩, .OPEN, []⟩ "oops").map (fun s => s.error)
        = .ok "Error processing message" ∧
    ChatWindow.State.init.error = "" ∧
    (Realtime.onmessage .heartRate ⟨fun _ => .error .syntaxError, fun _ => .ok none, fun _ => ""⟩
      Realtime.State.opened "oops").map (fun s => s.error)
        = .ok "Failed to parse WebSocket data." ∧
    Realtime.State.opened.error = "" :=
  ⟨rfl, rfl, rfl, rfl⟩

/-- C12 (amended): whenever the `try` block of `onmessage` throws, and in
particular whenever `JSON.parse` rejects the payload, the chat view sets its
user-visible error text to `Error processing message` and a vitals view sets
it to `Failed to parse WebSocket data.`; nothing else of their state
changes. -/
theorem C12_decode_failure_sets_error (raw : String) :
    (∀ (env : ChatWindow.Env) (s : ChatWindow.State) (sk : ChatWindow.Socket),
      (∃ e, ChatWindow.onmessageTry env s sk raw = .error e) →
      ChatWindow.onmessage env s sk raw = .ok { s with error := "Error processing message" }) ∧
    (∀ (vital : Realtime.Vital) (env : Realtime.Env) (s : Realtime.State),
      (∃ e, Realtime.onmessageTry vital env s raw = .error e) →
      Realtime.onmessage vital env s raw =
        .ok { s with error := "Failed to parse WebSocket data." }) ∧
    (∀ (env : ChatWindow.Env) (s : ChatWindow.State) (sk : ChatWindow.Socket) (e : JsError),
      env.jsonParse raw = .error e → ChatWindow.onmessageTry env s sk raw = .error e) ∧
    (∀ (vital : Realtime.Vital) (env : Realtime.Env) (s : Realtime.State) (e : JsError),
      env.jsonParse raw = .error e → Realtime.onmessageTry vital env s raw = .error e) := by
  refine ⟨?_, ?_, ?_, ?_⟩
  · rintro env s sk ⟨e, he⟩
    unfold ChatWindow.onmessage
    rw [he]
    rfl
  · rintro vital env s ⟨e, he⟩
    unfold Realtime.onmessage
    rw [he]
    rfl
  · intro env s sk e he
    unfold ChatWindow.onmessageTry
    rw [he]
    rfl
  · intro vital env s e he
    unfold Realtime.onmessageTry
    rw [he]
    rfl

/-- Witness for `C12_decode_failure_sets_error`: a chat frame that is not
JSON. -/
theorem C12_decode_failure_sets_error_witness :
    ChatWindow.onmessage ⟨fun _ => .error .syntaxError, 0, "now"⟩ ChatWindow.State.init
      ⟨.str "t", .str "u", ⟨[], [], [], none⟩, .OPEN, []⟩ "oops" =
    .ok { ChatWindow.State.init with error := "Error processing message" } :=
  (C12_decode_failure_sets_error "oops").1 ⟨fun _ => .error .syntaxError, 0, "now"⟩
    ChatWindow.State.init ⟨.str "t", .str "u", ⟨[], [], [], none⟩, .OPEN, []⟩
    ⟨.syntaxError, (C12_decode_failure_sets_error "oops").2.2.1 _ _ _ _ rfl⟩

/-! ## Real-time vitals views: the sample buffer -/

namespace Realtime

/-- What `onmessage` does to the buffer is decided by `sampleOfFrame`. -/
theorem receive_realtimeData (vital : Vital) (env : Env) (s : State) (raw : String) :
    (receive vital env s raw).realtimeData =
      match sampleOfFrame vital env raw with
      | some p => pushSample s.realtimeData p
      | none => s.realtimeData := by
  unfold receive onmessage onmessageTry sampleOfFrame
  cases hp : env.jsonParse raw with
  | error e => rfl
  | ok message =>
    cases ha : accepted vital message with
    | error e => simp [ha, bind, Except.bind, tryCatch, tryCatchThe, MonadExceptOf.tryCatch,
        Except.tryCatch, pure, Except.pure]
    | ok r =>
      cases r with
      | none => simp [ha, bind, Except.bind, tryCatch, tryCatchThe, MonadExceptOf.tryCatch,
          Except.tryCatch, pure, Except.pure]
      | some reading =>
        cases hd : message.getProp "data" with
        | error e => simp [ha, hd, bind, Except.bind, tryCatch, tryCatchThe,
            MonadExceptOf.tryCatch, Except.tryCatch, pure, Except.pure]
        | ok data =>
          cases ht : data.getProp "timestamp" with
          | error e => simp [ha, hd, ht, bind, Except.bind, tryCatch, tryCatchThe,
              MonadExceptOf.tryCatch, Except.tryCatch, pure, Except.pure]
          | ok timestamp =>
            cases hn : env.newDate timestamp with
            | error e => simp [ha, hd, ht, hn, bind, Except.bind, tryCatch, tryCatchThe,
                MonadExceptOf.tryCatch, Except.tryCatch, pure, Except.pure]
            | ok d =>
              cases d with
              | none => simp [ha, hd, ht, hn, bind, Except.bind, tryCatch, tryCatchThe,
                  MonadExceptOf.tryCatch, Except.tryCatch, pure, Except.pure]
              | some date =>
                cases hs : vital.sampleValues reading with
                | error e => simp [ha, hd, ht, hn, hs, bind, Except.bind, tryCatch,
                    tryCatchThe, MonadExceptOf.tryCatch, Except.tryCatch, pure, Except.pure]
                | ok values =>
                  cases hl : vital.latestValues reading with
                  | error e => simp [ha, hd, ht, hn, hs, hl, bind, Except.bind, tryCatch,
                      tryCatchThe, MonadExceptOf.tryCatch, Except.tryCatch, pure, Except.pure]
                  | ok lv => simp [ha, hd, ht, hn, hs, hl, bind, Except.bind, tryCatch,
                      tryCatchThe, MonadExceptOf.tryCatch, Except.tryCatch, pure, Except.pure]

/-- Keeping the last 20 after every append equals keeping the last 20 once. -/
theorem pushSample_lastTwenty (xs : List Sample) (p : Sample) :
    pushSample (xs.drop (xs.length - 20)) p = (xs ++ [p]).drop ((xs ++ [p]).length - 20) := by
  unfold pushSample
  simp only [List.length_append, List.length_drop, List.length_singleton]
  rcases Nat.lt_or_ge 20 xs.length with h | h
  · have h1 : xs.length - (xs.length - 20) + 1 - 20 = 1 := by omega
    rw [h1, ← List.drop_append_of_le_length (by omega : xs.length - 20 ≤ xs.length),
      List.drop_drop]
    congr 1
    omega
  · have h1 : xs.length - 20 = 0 := by omega
    simp [h1]

theorem receiveAll_realtimeData (vital : Vital) (env : Env) (raws : List String)
    (s : State) (xs : List Sample) (hs : s.realtimeData = xs.drop (xs.length - 20)) :
    (receiveAll vital env s raws).realtimeData =
      (xs ++ raws.filterMap (sampleOfFrame vital env)).drop
        ((xs ++ raws.filterMap (sampleOfFrame vital env)).length - 20) := by
  induction raws generalizing s xs with
  | nil => simpa [receiveAll] using hs
  | cons raw raws ih =>
    have hstep := receive_realtimeData vital env s raw
    simp only [receiveAll, List.foldl_cons] at ih ⊢
    cases hf : sampleOfFrame vital env raw with
    | none =>
      rw [hf] at hstep
      simp only at hstep
      simp only [List.filterMap_cons, hf]
      exact ih (receive vital env s raw) xs (by rw [hstep, hs])
    | some p =>
      rw [hf] at hstep
      simp only at hstep
      simp only [List.filterMap_cons, hf]
      have := ih (receive vital env s raw) (xs ++ [p])
        (by rw [hstep, hs, pushSample_lastTwenty])
      simpa [List.append_assoc] using this

/-- C16: in each of the four real-time vitals views, after the frames `raws`
have arrived in this order at a freshly opened view, the sample buffer holds
the last `min k 20` of the `k` samples those frames made the handler accept,
in arrival order; in particular it never holds more than 20. -/
theorem C16_buffer_is_last_twenty (vital : Vital) (env : Env) (raws : List String) :
    (receiveAll vital env State.opened raws).realtimeData =
      (raws.filterMap (sampleOfFrame vital env)).drop
        ((raws.filterMap (sampleOfFrame vital env)).length - 20) ∧
    (receiveAll vital env State.opened raws).realtimeData.length =
      min (raws.filterMap (sampleOfFrame vital env)).length 20 ∧
    (receiveAll vital env State.opened raws).realtimeData.length ≤ 20 := by
  have h := receiveAll_realtimeData vital env raws State.opened [] rfl
  simp only [List.nil_append] at h
  rw [h]
  refine ⟨rfl, ?_, ?_⟩ <;> simp only [List.length_drop] <;> omega

end Realtime

/-! ## Token refresh -/

namespace AuthContext

theorem lookup_removeItem_self (st : Storage) (k : String) :
    (removeItem st k).lookup k = none := by
  rw [List.lookup_eq_none_iff]
  intro p hp
  have h := (List.mem_filter.mp hp).2
  simp only [bne_iff_ne, ne_eq] at h ⊢
  exact fun e => h e.symm

theorem lookup_removeItem_none (st : Storage) (k k' : String) (h : st.lookup k = none) :
    (removeItem st k').lookup k = none :=
  List.Sublist.lookup_eq_none (List.filter_sublist st) h

theorem lookup_foldl_removeItem_none (keys : List String) (st : Storage) (k : String)
    (h : st.lookup k = none) : (keys.foldl removeItem st).lookup k = none := by
  induction keys generalizing st with
  | nil => exact h
  | cons k' keys ih => exact ih _ (lookup_removeItem_none st k k' h)

theorem lookup_foldl_removeItem (keys : List String) (st : Storage) (k : String)
    (h : k ∈ keys) : (keys.foldl removeItem st).lookup k = none := by
  induction keys generalizing st with
  | nil => cases h
  | cons k' keys ih =>
    rcases List.mem_cons.mp h with h1 | h1
    · subst h1
      exact lookup_foldl_removeItem_none keys _ k (lookup_removeItem_self st k)
    · exact ih _ h1

end AuthContext

open AuthContext in
/-- C17 (refuted as stated): on the Notifications page a failed refresh (here:
the request is rejected by the network) logs the user out: the user state
becomes `null` and the stored auth keys are removed. -/
theorem C17_page_refresh_failure_logs_out :
    (Notifications.refreshToken (fun _ => "")
      (some ⟨.str "t", .str "Patient", .str "u", .null, .null, .null, .str "r"⟩)
      ⟨some ⟨.str "t", .str "Patient", .str "u", .null, .null, .null, .str "r"⟩,
       [("authToken", "t"), ("userType", "Patient"), ("username", "u"),
        ("googleRefreshToken", "r")]⟩
      .networkError).2.storage = [] ∧
    (Notifications.refreshToken (fun _ => "")
      (some ⟨.str "t", .str "Patient", .str "u", .null, .null, .null, .str "r"⟩)
      ⟨some ⟨.str "t", .str "Patient", .str "u", .null, .null, .null, .str "r"⟩,
       [("authToken", "t"), ("userType", "Patient"), ("username", "u"),
        ("googleRefreshToken", "r")]⟩
      .networkError).2.user.isNone = true :=
  ⟨by decide, rfl⟩

open AuthContext in
/-- C17 (amended): when the refresh token is missing or the refresh call fails
(rejected request or non-OK status), `refreshToken` of the header and of
`NotificationPopup` returns `null` and leaves the session unchanged, while
`refreshToken` of the Notifications page returns `null` and logs out: the user
state becomes `null` and the seven stored session keys are removed. -/
theorem C17_refresh_failure (other : JsVal → String) (user : Option User) (sess : Session)
    (fetched : FetchOutcome)
    (h : (refreshTokenOf user).truthy = false ∨ fetched = .networkError ∨
      ∃ json, fetched = .response false json) :
    Header.refreshToken other user sess fetched = (.null, sess) ∧
    Notifications.refreshToken other user sess fetched = (.null, logout sess) ∧
    (logout sess).user = none ∧
    ∀ k ∈ sessionKeys, getItem (logout sess).storage k = .null := by
  refine ⟨?_, ?_, rfl, ?_⟩
  · unfold Header.refreshToken
    rcases h with h | h | ⟨json, h⟩
    · simp [h]
    · subst h
      cases user <;> simp
    · subst h
      cases user <;> simp
  · unfold Notifications.refreshToken
    rcases h with h | h | ⟨json, h⟩
    · simp [h]
    · subst h
      cases user <;> simp
    · subst h
      cases user <;> simp
  · intro k hk
    unfold getItem logout
    simp only
    rw [lookup_foldl_removeItem sessionKeys sess.storage k hk]

open AuthContext in
/-- Witness for `C17_refresh_failure`: a header whose refresh request gets a
non-OK answer keeps the stored token. -/
theorem C17_refresh_failure_witness :
    Header.refreshToken (fun _ => "")
      (some ⟨.str "t", .str "Patient", .str "u", .null, .null, .null, .str "r"⟩)
      ⟨none, [("authToken", "t")]⟩ (.response false (.ok .null)) =
    (.null, ⟨none, [("authToken", "t")]⟩) :=
  (C17_refresh_failure (fun _ => "")
    (some ⟨.str "t", .str "Patient", .str "u", .null, .null, .null, .str "r"⟩)
    ⟨none, [("authToken", "t")]⟩ (.response false (.ok .null))
    (Or.inr (Or.inr ⟨_, rfl⟩))).1

open AuthContext in
/-- C18 (refuted as stated): `refreshToken` destructures `authToken` from the
response body.  For an OK answer with the body `access_token: "t"` the token
it hands to `login` is `undefined`, `login` throws, and `refreshToken` returns
`null` with the session's bearer token still the old one.  Only a body with
the field `authToken` makes it return the new token and store it. -/
theorem C18_access_token_body_ignored :
    (Header.refreshToken (fun _ => "")
      (some ⟨.str "old", .str "Patient", .str "u", .null, .null, .null, .str "r"⟩)
      ⟨some ⟨.str "old", .str "Patient", .str "u", .null, .null, .null, .str "r"⟩,
       [("authToken", "old"), ("userType", "Patient"), ("username", "u"),
        ("googleRefreshToken", "r")]⟩
      (.response true (.ok (.obj 0 [("access_token", .str "t")])))).1 = .null ∧
    getItem (Header.refreshToken (fun _ => "")
      (some ⟨.str "old", .str "Patient", .str "u", .null, .null, .null, .str "r"⟩)
      ⟨some ⟨.str "old", .str "Patient", .str "u", .null, .null, .null, .str "r"⟩,
       [("authToken", "old"), ("userType", "Patient"), ("username", "u"),
        ("googleRefreshToken", "r")]⟩
      (.response true (.ok (.obj 0 [("access_token", .str "t")])))).2.storage "authToken"
        = .str "old" ∧
    (Header.refreshToken (fun _ => "")
      (some ⟨.str "old", .str "Patient", .str "u", .null, .null, .null, .str "r"⟩)
      ⟨some ⟨.str "old", .str "Patient", .str "u", .null, .null, .null, .str "r"⟩,
       [("authToken", "old"), ("userType", "Patient"), ("username", "u"),
        ("googleRefreshToken", "r")]⟩
      (.response true (.ok (.obj 0 [("access_token", .str "t")])))).2.user.map
        (fun u => u.authToken) = some (.str "old") ∧
    (Notifications.refreshToken (fun _ => "")
      (some ⟨.str "old", .str "Patient", .str "u", .null, .null, .null, .str "r"⟩)
      ⟨some ⟨.str "old", .str "Patient", .str "u", .null, .null, .null, .str "r"⟩,
       [("authToken", "old"), ("userType", "Patient"), ("username", "u"),
        ("googleRefreshToken", "r")]⟩
      (.response true (.ok (.obj 0 [("access_token", .str "t")])))).1 = .null ∧
    (Header.refreshToken (fun _ => "")
      (some ⟨.str "old", .str "Patient", .str "u", .null, .null, .null, .str "r"⟩)
      ⟨some ⟨.str "old", .str "Patient", .str "u", .null, .null, .null, .str "r"⟩,
       [("authToken", "old"), ("userType", "Patient"), ("username", "u"),
        ("googleRefreshToken", "r")]⟩
      (.response true (.ok (.obj 0 [("authToken", .str "t")])))).1 = .str "t" ∧
    getItem (Header.refreshToken (fun _ => "")
      (some ⟨.str "old", .str "Patient", .str "u", .null, .null, .null, .str "r"⟩)
      ⟨some ⟨.str "old", .str "Patient", .str "u", .null, .null, .null, .str "r"⟩,
       [("authToken", "old"), ("userType", "Patient"), ("username", "u"),
        ("googleRefreshToken", "r")]⟩
      (.response true (.ok (.obj 0 [("authToken", .str "t")])))).2.storage "authToken"
        = .str "t" :=
  ⟨rfl, rfl, rfl, rfl, rfl, rfl⟩

/-! ## Notification channel: the subscribe frame -/

namespace NotificationChannel

theorem connectWebSocket_user (s : State) (token : JsVal) :
    (connectWebSocket s token).1.user = s.user := by
  unfold connectWebSocket
  split <;> rfl

theorem attemptReconnect_user (s : State) (refreshed : JsVal) :
    (attemptReconnect s refreshed).user = s.user := by
  unfold attemptReconnect
  split
  · have hu := connectWebSocket_user { s with reconnectAttempts := s.reconnectAttempts + 1 }
      (chooseToken s.user refreshed)
    simp only
    split
    · next s2 i heq =>
      rw [heq] at hu
      simp only at hu
      split
      · exact hu
      · exact hu
    · next s2 heq =>
      rw [heq] at hu
      exact hu
  · rfl

/-- The `user` of the closure never changes. -/
theorem step_user (s : State) (ev : Event) : (step s ev).user = s.user := by
  cases ev with
  | timerFired t refreshed =>
    simp only [step]
    split
    · exact attemptReconnect_user _ _
    · rfl
  | init refreshed =>
    simp only [step, initWebSocket]
    exact connectWebSocket_user _ _
  | opened i =>
    simp only [step, onopen, State.setSocket]
    (repeat' split) <;> rfl
  | closed i =>
    simp only [step, runOnclose, scheduleReconnect, State.setSocket]
    (repeat' split) <;> rfl
  | tick i =>
    simp only [step, heartbeatTick, State.setSocket]
    (repeat' split) <;> rfl
  | serverError i =>
    simp only [step, State.setSocket]
    (repeat' split) <;> rfl
  | cleanup =>
    simp only [step, cleanup, State.setSocket]
    (repeat' split) <;> rfl

theorem run_user (evs : List Event) (s : State) : (run s evs).user = s.user := by
  induction evs generalizing s with
  | nil => rfl
  | cons ev evs ih =>
    have h := ih (step s ev)
    rw [step_user] at h
    exact h

end NotificationChannel

namespace NotificationChannel

theorem close_sentOk (u : JsVal) (sk : Socket) (h : sk.SentOk u) : sk.close.SentOk u := by
  unfold Socket.close
  obtain ⟨h1, h2, h3⟩ := h
  split
  · exact ⟨(fun hc => by cases hc), h2, h3⟩
  · exact ⟨(fun hc => by cases hc), h2, h3⟩
  · exact ⟨h1, h2, h3⟩

theorem connectWebSocket_sentOk (u : JsVal) (s : State) (token : JsVal)
    (h : ∀ x ∈ s.sockets, x.SentOk u) :
    ∀ x ∈ (connectWebSocket s token).1.sockets, x.SentOk u := by
  unfold connectWebSocket
  split
  · exact h
  · exact forall_mem_concat _ _ _ h ⟨fun _ => rfl, fun hc => absurd rfl hc, Or.inl rfl⟩

theorem step_sentOk (u : JsVal) (s : State) (ev : Event) (hu : s.user.username = u)
    (h : ∀ x ∈ s.sockets, x.SentOk u) : ∀ x ∈ (step s ev).sockets, x.SentOk u := by
  cases ev with
  | init refreshed =>
    exact connectWebSocket_sentOk u s _ h
  | opened i =>
    simp only [step]
    split
    · next sk hsk =>
      have hm : sk.SentOk u := h sk (List.getElem?_mem hsk)
      split
      · next hconn =>
        refine forall_mem_set _ _ _ _ h ⟨(fun hc => by cases hc), (fun _ => by simp), Or.inr ⟨0, ?_⟩⟩
        simp [hm.1 hconn, hu]
      · exact h
    · exact h
  | closed i =>
    simp only [step]
    split
    · next sk hsk =>
      have hm : sk.SentOk u := h sk (List.getElem?_mem hsk)
      split
      · exact h
      · have h1 : ({ sk with readyState := .CLOSED } : Socket).SentOk u :=
          ⟨(fun hc => by cases hc), hm.2.1, hm.2.2⟩
        have hs1 := forall_mem_set _ _ i _ h h1
        unfold runOnclose
        split
        · exact hs1
        · exact forall_mem_set _ _ _ _ hs1
            ⟨(fun hc => by cases hc), fun hc => absurd rfl hc, hm.2.2⟩
        · exact hs1
    · exact h
  | tick i =>
    simp only [step]
    split
    · next sk hsk =>
      have hm : sk.SentOk u := h sk (List.getElem?_mem hsk)
      split
      · next p hp =>
        unfold heartbeatTick
        split
        · next hopen =>
          have hne : sk.sent ≠ [] := hm.2.1 (by rw [hp]; simp)
          rcases hm.2.2 with h0 | ⟨n, hn⟩
          · exact absurd h0 hne
          · refine forall_mem_set _ _ _ _ h
              ⟨(fun hc => by rw [hopen] at hc; cases hc), (fun _ => by simp), Or.inr ⟨n + 1, ?_⟩⟩
            simp [hn, List.replicate_succ']
        · exact h
      · exact h
    · exact h
  | timerFired t refreshed =>
    simp only [step]
    split
    · unfold attemptReconnect
      split
      · simp only
        split
        · next s2 i heq =>
          have hc := connectWebSocket_sentOk u
            { s with timers := s.timers.filter (fun x => x.id ≠ t),
                     reconnectAttempts := s.reconnectAttempts + 1 }
            (chooseToken s.user refreshed) h
          rw [heq] at hc
          split
          · next sk hsk =>
            obtain ⟨hi, hs2⟩ := connectWebSocket_some _ _ _ _ heq
            have hnew : sk = ⟨chooseToken s.user refreshed, .CONNECTING, .log, none, []⟩ := by
              subst hi hs2
              simpa using hsk.symm
            refine forall_mem_set _ _ _ _ hc ⟨(fun _ => by rw [hnew]), fun hb => ?_, Or.inl ?_⟩
            · rw [hnew] at hb; exact absurd rfl hb
            · rw [hnew]
          · exact hc
        · next s2 heq =>
          have hc := connectWebSocket_sentOk u
            { s with timers := s.timers.filter (fun x => x.id ≠ t),
                     reconnectAttempts := s.reconnectAttempts + 1 }
            (chooseToken s.user refreshed) h
          rw [heq] at hc
          exact hc
      · exact h
    · exact h
  | serverError i =>
    simp only [step]
    split
    · next sk hsk =>
      exact forall_mem_set _ _ _ _ h (close_sentOk u sk (h sk (List.getElem?_mem hsk)))
    · exact h
  | cleanup =>
    simp only [step]
    unfold cleanup
    have h1 : ∀ x ∈ (match s.ws with
        | some i =>
          match s.sockets[i]? with
          | some sk => s.setSocket i sk.close
          | none => s
        | none => s).sockets, x.SentOk u := by
      split
      · split
        · next sk hsk =>
          exact forall_mem_set _ _ _ _ h (close_sentOk u sk (h sk (List.getElem?_mem hsk)))
        · exact h
      · exact h
    simp only
    split
    · exact h1
    · exact h1

theorem run_sentOk (u : JsVal) (evs : List Event) (s : State) (hu : s.user.username = u)
    (h : ∀ x ∈ s.sockets, x.SentOk u) : ∀ x ∈ (run s evs).sockets, x.SentOk u := by
  induction evs generalizing s with
  | nil => exact h
  | cons ev evs ih =>
    exact ih (step s ev) (by rw [step_user]; exact hu) (step_sentOk u s ev hu h)

/-- C19: in every reachable state of a notification channel and for every
socket of it, nothing has been sent while the socket is connecting; `onopen`
transmits as its first frame the object `type: "subscribe"`,
`channel: "notifications"`, `user_id: user.username` with the `username` of
the session's user; and all frames sent on the socket at any time are that
one followed by pings only, so no ping precedes it. -/
theorem C19_subscribe_first (user : User) (evs : List Event) (i : Nat) (sk : Socket)
    (hsk : (run (State.init user) evs).sockets[i]? = some sk) :
    (sk.readyState = .CONNECTING →
      sk.sent = [] ∧
      (step (run (State.init user) evs) (.opened i)).sockets[i]?.map Socket.sent =
        some [.subscribe "notifications" user.username]) ∧
    (sk.sent = [] ∨
      ∃ n, sk.sent = .subscribe "notifications" user.username :: List.replicate n .ping) ∧
    Command.fields (.subscribe "notifications" user.username) =
      [("type", .str "subscribe"), ("channel", .str "notifications"),
       ("user_id", user.username)] := by
  have hok : sk.SentOk user.username :=
    run_sentOk user.username evs (State.init user) rfl (by intro x hx; cases hx) sk
      (List.getElem?_mem hsk)
  have hi : i < (run (State.init user) evs).sockets.length :=
    (List.getElem?_eq_some.mp hsk).1
  have hu : (run (State.init user) evs).user = user := run_user evs (State.init user)
  refine ⟨?_, hok.2.2, rfl⟩
  intro hconn
  refine ⟨hok.1 hconn, ?_⟩
  simp [step, hsk, hconn, onopen, State.setSocket, hi, hok.1 hconn, hu]

/-- Witness for `C19_subscribe_first`: the first socket of a header opens. -/
theorem C19_subscribe_first_witness :
    (step (run (State.init ⟨.str "t", .str "u"⟩) [.init .null]) (.opened 0)).sockets[0]?.map
      Socket.sent = some [.subscribe "notifications" (.str "u")] :=
  ((C19_subscribe_first ⟨.str "t", .str "u"⟩ [.init .null] 0
    ⟨.str "t", .CONNECTING, .log, none, []⟩ rfl).1 rfl).2

end NotificationChannel

/-! ## ChatWindow: the command of `onSend` -/

namespace ChatWindow

/-- C20: for a selected room and an input text that is not blank, the command
`onSend` produces has `type: 'chat_message'` and a `message` with exactly the
seven fields `room_id`, `content`, `sender_username`, `sender_type`,
`receiver_username`, `receiver_type`, `message_type`, where `content` is the
trimmed input and `message_type` is `'text'`; the literal queued while the
socket is not open equals the literal sent directly; and `onSend` appends
that command to `pendingMessages` when the socket is not open and transmits it
on the socket when it is. -/
theorem C20_onSend_command (s : State) (inp : SendInput) (room : ChatRoom)
    (hroom : s.selectedRoom = some room) (hblank : jsTrim inp.newMessage ≠ "") :
    queuedMessage inp room (jsTrim inp.newMessage) =
      directMessage inp room (jsTrim inp.newMessage) ∧
    (directMessage inp room (jsTrim inp.newMessage)).content = .str (jsTrim inp.newMessage) ∧
    (directMessage inp room (jsTrim inp.newMessage)).message_type = .str "text" ∧
    (directMessage inp room (jsTrim inp.newMessage)).room_id = room.room_id ∧
    (Command.fields (.chat_message (directMessage inp room (jsTrim inp.newMessage)))).map
      Prod.fst = ["type", "message"] ∧
    (directMessage inp room (jsTrim inp.newMessage)).fields.map Prod.fst =
      ["room_id", "content", "sender_username", "sender_type", "receiver_username",
       "receiver_type", "message_type"] ∧
    (s.wsReadyState ≠ some .OPEN →
      (onSend s inp).1.pendingMessages = s.pendingMessages ++
        [.chat_message (directMessage inp room (jsTrim inp.newMessage))] ∧
      (onSend s inp).1.sockets = s.sockets) ∧
    (∀ (i : Nat) (sk : Socket), s.wsRef = some i → s.sockets[i]? = some sk →
      sk.readyState = .OPEN →
      (onSend s inp).1.sockets[i]?.map Socket.sent =
        some (sk.sent ++ [.chat_message (directMessage inp room (jsTrim inp.newMessage))]) ∧
      (onSend s inp).1.pendingMessages = s.pendingMessages) := by
  refine ⟨rfl, rfl, rfl, rfl, rfl, rfl, ?_, ?_⟩
  · intro hno
    simp [onSend, hroom, hblank, hno, queuedMessage, directMessage]
  · intro i sk hws hsk hopen
    have hi : i < s.sockets.length := (List.getElem?_eq_some.mp hsk).1
    have hrs : s.wsReadyState = some .OPEN := by
      simp [State.wsReadyState, hws, hsk, hopen]
    simp [onSend, hroom, hblank, hrs, wsRefSend, hws, hsk, hopen, State.setSocket, hi]

/-- Witness for `C20_onSend_command`: a message typed while the socket is
still connecting. -/
theorem C20_onSend_command_witness :
    (onSend
      { (run State.init [.effect (.str "t") (.str "u")]) with
        selectedRoom := some ⟨.str "r1", .str "dr", .undefined⟩ }
      ⟨"  hello ", none, [("username", "u")], 0, "now"⟩).1.pendingMessages =
    [.chat_message ⟨.str "r1", .str "hello", .str "u", .str "patient", .str "dr",
      .str "doctor", .str "text"⟩] :=
  ((C20_onSend_command
    { (run State.init [.effect (.str "t") (.str "u")]) with
      selectedRoom := some ⟨.str "r1", .str "dr", .undefined⟩ }
    ⟨"  hello ", none, [("username", "u")], 0, "now"⟩ ⟨.str "r1", .str "dr", .undefined⟩
    rfl (by decide)).2.2.2.2.2.2.1 (by decide)).1

end ChatWindow

/-! ## Notification frames: type and timestamp of the record -/

namespace Notifications

/-- On an object `data.k` is the own property. -/
theorem getProp_obj (ref : Nat) (props : List (String × JsVal)) (k : String) :
    (JsVal.obj ref props).getProp k = .ok (propOf props k) := rfl

/-- What `decode` computes for an object whose message can be cleaned. -/
theorem decode_obj (env : Env) (ref : Nat) (props : List (String × JsVal)) (clean : String)
    (hclean : cleanMessage (propOf props "message") = .ok clean) :
    ∃ d, decode env (.obj ref props) = .ok d ∧
      d.id = (propOf props "id").or (.str ("notif-" ++ toString env.now ++ "-" ++ env.random)) ∧
      d.originalMessage = clean ∧
      d.originalType = propOf props "notification_type" ∧
      d.healthAnomaly =
        detectHealthAnomalies env.jsonParse clean (propOf props "notification_type") ∧
      d.type =
        (match detectHealthAnomalies env.jsonParse clean (propOf props "notification_type") with
         | some _ => JsVal.str "health_alert"
         | none => propOf props "notification_type") ∧
      d.timestamp = (propOf props "timestamp").or (.str env.nowISO) := by
  simp only [decode, getProp_obj, hclean, bind, Except.bind, pure, Except.pure]
  exact ⟨_, rfl, rfl, rfl, rfl, rfl, rfl, rfl⟩

/-- A message that is not a string and not falsy cannot be cleaned. -/
theorem decode_obj_error (env : Env) (ref : Nat) (props : List (String × JsVal)) (e : JsError)
    (hclean : cleanMessage (propOf props "message") = .error e) :
    decode env (.obj ref props) = .error e := by
  simp only [decode, getProp_obj, hclean, bind, Except.bind]

/-- What the page does with a notification frame whose message can be
cleaned. -/
theorem onmessage_notification (env : Env) (v : View) (raw : String) (ref : Nat)
    (props : List (String × JsVal)) (d : Decoded)
    (hparse : env.jsonParse raw = .ok (.obj ref props))
    (htype : (propOf props "type").isStr "notification" = true)
    (hd : decode env (.obj ref props) = .ok d) :
    Notifications.onmessage env v raw =
      .ok { v with notifications :=
              addNotification v.notifications { toDecoded := d, unread := true } } := by
  have htype' : ((props.lookup "type").getD JsVal.undefined).isStr "notification" = true := htype
  simp [Notifications.onmessage, Notifications.onmessageTry, hparse, JsVal.getProp, htype', hd,
    tryCatch, tryCatchThe, MonadExceptOf.tryCatch, Except.tryCatch, bind, Except.bind, pure,
    Except.pure]

/-- A notification frame whose message cannot be cleaned is dropped by the
page. -/
theorem onmessage_notification_error (env : Env) (v : View) (raw : String) (ref : Nat)
    (props : List (String × JsVal)) (e : JsError)
    (hparse : env.jsonParse raw = .ok (.obj ref props))
    (htype : (propOf props "type").isStr "notification" = true)
    (hd : decode env (.obj ref props) = .error e) :
    Notifications.onmessage env v raw = .ok v := by
  have htype' : ((props.lookup "type").getD JsVal.undefined).isStr "notification" = true := htype
  simp [Notifications.onmessage, Notifications.onmessageTry, hparse, JsVal.getProp, htype', hd,
    tryCatch, tryCatchThe, MonadExceptOf.tryCatch, Except.tryCatch, bind, Except.bind, pure,
    Except.pure]

/-- C14 (refuted as stated): for the frame with `notification_type: "iot_data"`
and the message `Heart rate 150 bpm` the record both handlers build has the
`type` `health_alert`, not `iot_data`; the frame's type is kept in
`originalType`. -/
theorem C14_type_depends_on_message :
    (decode ⟨fun _ => .error .syntaxError, 0, "r", "now"⟩
      (.obj 0 [("type", .str "notification"), ("id", .str "n1"),
        ("notification_type", .str "iot_data"), ("message", .str "Heart rate 150 bpm"),
        ("timestamp", .str "2025-01-01T00:00:00Z")])).map
      (fun d => (d.type.isStr "health_alert", d.type.isStr "iot_data",
        d.originalType.isStr "iot_data")) = .ok (true, false, true) ∧
    (Notifications.onmessage
      ⟨fun _ => .ok (.obj 0 [("type", .str "notification"), ("id", .str "n1"),
        ("notification_type", .str "iot_data"), ("message", .str "Heart rate 150 bpm"),
        ("timestamp", .str "2025-01-01T00:00:00Z")]), 0, "r", "now"⟩
      ⟨[], ⟨.str "t", .OPEN, .stopHeartbeat, some 15000, []⟩⟩ "frame").map
      (fun v => v.notifications.map (fun n => n.type.isStr "iot_data")) = .ok [false] ∧
    (NotificationPopup.onmessage
      ⟨fun _ => .ok (.obj 0 [("type", .str "notification"), ("id", .str "n1"),
        ("notification_type", .str "iot_data"), ("message", .str "Heart rate 150 bpm"),
        ("timestamp", .str "2025-01-01T00:00:00Z")]), 0, "r", "now"⟩
      ⟨[], ⟨.str "t", .OPEN, .stopHeartbeat, some 15000, []⟩⟩ "frame").map
      (fun v => v.popups.map (fun n => n.type.isStr "iot_data")) = .ok [false] :=
  ⟨rfl, rfl, rfl⟩

/-- C14 (amended): for every notification frame whose message is a string or
missing, the record the Notifications page and `NotificationPopup` build from
it carries the frame's `notification_type` in `originalType`; its `type` is
the frame's `notification_type` unless `detectHealthAnomalies` reports an
anomaly for the cleaned message, in which case it is `health_alert`; and its
`timestamp` is the frame's timestamp whenever that is truthy.  The page
stores this record at the front of its list unless one with the same id is
there, the popup appends it. -/
theorem C14_type_and_timestamp (env : Env) (raw : String) (ref : Nat)
    (props : List (String × JsVal)) (clean : String)
    (hparse : env.jsonParse raw = .ok (.obj ref props))
    (htype : (propOf props "type").isStr "notification" = true)
    (hclean : cleanMessage (propOf props "message") = .ok clean) :
    ∃ d, decode env (.obj ref props) = .ok d ∧
      d.originalType = propOf props "notification_type" ∧
      (detectHealthAnomalies env.jsonParse clean (propOf props "notification_type") = none →
        d.type = propOf props "notification_type") ∧
      ((detectHealthAnomalies env.jsonParse clean (propOf props "notification_type")).isSome
          = true → d.type = .str "health_alert") ∧
      ((propOf props "timestamp").truthy = true → d.timestamp = propOf props "timestamp") ∧
      (∀ v : View, Notifications.onmessage env v raw =
        .ok { v with notifications :=
                addNotification v.notifications { toDecoded := d, unread := true } }) ∧
      (∀ v : NotificationPopup.View, NotificationPopup.onmessage env v raw =
        .ok { v with popups := v.popups ++ [d] }) := by
  obtain ⟨d, hd, _, _, hot, _, hty, hts⟩ := decode_obj env ref props clean hclean
  have htype' : ((props.lookup "type").getD JsVal.undefined).isStr "notification" = true := htype
  refine ⟨d, hd, hot, ?_, ?_, ?_, ?_, ?_⟩
  · intro hnone
    rw [hty, hnone]
  · intro hsome
    rw [hty]
    cases h : detectHealthAnomalies env.jsonParse clean (propOf props "notification_type") with
    | none => rw [h] at hsome; cases hsome
    | some a => rfl
  · intro htruthy
    rw [hts]
    simp [JsVal.or, htruthy]
  · intro v
    exact onmessage_notification env v raw ref props d hparse htype hd
  · intro v
    simp [NotificationPopup.onmessage, NotificationPopup.onmessageTry, hparse, JsVal.getProp,
      htype', hd, tryCatch, tryCatchThe, MonadExceptOf.tryCatch, Except.tryCatch, bind,
      Except.bind, pure, Except.pure]

/-- Witness for `C14_type_and_timestamp`: an appointment frame keeps its type
and its timestamp. -/
theorem C14_type_and_timestamp_witness :
    ∃ d, decode ⟨fun _ => .ok (.obj 0 [("type", .str "notification"), ("id", .str "n1"),
          ("notification_type", .str "appointment_accepted"),
          ("message", .str "Dr. Silva accepted"), ("timestamp", .str "T")]), 0, "r", "now"⟩
        (.obj 0 [("type", .str "notification"), ("id", .str "n1"),
          ("notification_type", .str "appointment_accepted"),
          ("message", .str "Dr. Silva accepted"), ("timestamp", .str "T")]) = .ok d ∧
      d.type = .str "appointment_accepted" ∧ d.timestamp = .str "T" := by
  obtain ⟨d, hd, _, h1, _, h2, _⟩ := C14_type_and_timestamp
    ⟨fun _ => .ok (.obj 0 [("type", .str "notification"), ("id", .str "n1"),
      ("notification_type", .str "appointment_accepted"),
      ("message", .str "Dr. Silva accepted"), ("timestamp", .str "T")]), 0, "r", "now"⟩
    "frame" 0 [("type", .str "notification"), ("id", .str "n1"),
      ("notification_type", .str "appointment_accepted"),
      ("message", .str "Dr. Silva accepted"), ("timestamp", .str "T")]
    "Dr. Silva accepted" rfl rfl rfl
  exact ⟨d, hd, h1 rfl, h2 rfl⟩

end Notifications

/-! ## Notification frames: one record per id -/

theorem JsVal.strictEq_self (a : JsVal) : a.strictEq a = true := by
  cases a <;> simp [JsVal.strictEq]

theorem JsVal.strictEq_comm (a b : JsVal) : a.strictEq b = b.strictEq a := by
  cases a <;> cases b <;> simp [JsVal.strictEq, eq_comm, Bool.beq_comm]

namespace Header

/-- What a successful `try` block can have done. -/
theorem onmessageTry_cases (env : Env) (v v' : View) (raw : String)
    (h : onmessageTry env v raw = .ok v') :
    v' = v ∨ v' = { v with ws := v.ws.close } ∨
      ∃ n, v' = { v with notifications := addNotification v.notifications n } := by
  unfold onmessageTry at h
  cases hp : env.jsonParse raw with
  | error e => rw [hp] at h; cases h
  | ok data =>
    cases ht : data.getProp "type" with
    | error e => simp [hp, ht, bind, Except.bind] at h
    | ok type =>
      by_cases hn : type.isStr "notification" = true
      · right; right
        simp only [hp, ht, hn, bind, Except.bind, if_true, pure, Except.pure] at h
        repeat' split at h
        all_goals first | (cases h; exact ⟨_, rfl⟩) | cases h
      · have hn' : type.isStr "notification" = false := by simpa using hn
        simp only [hp, ht, hn', bind, Except.bind, pure, Except.pure, Bool.false_eq_true,
          if_false] at h
        repeat' split at h
        all_goals first
          | (cases h; exact Or.inl rfl)
          | (cases h; exact Or.inr (Or.inl rfl))
          | cases h

/-- One frame leaves the list alone or passes one record to the updater. -/
theorem receive_notifications (v : View) (frame : Env × String) :
    (receive v frame).notifications = v.notifications ∨
      ∃ n, (receive v frame).notifications = addNotification v.notifications n := by
  unfold receive onmessage
  cases h : onmessageTry frame.1 v frame.2 with
  | error e => exact Or.inl rfl
  | ok v' =>
    rcases onmessageTry_cases frame.1 v v' frame.2 h with h1 | h1 | ⟨n, h1⟩
    · subst h1; exact Or.inl rfl
    · subst h1; exact Or.inl rfl
    · subst h1; exact Or.inr ⟨n, rfl⟩

theorem addNotification_distinct (prev : List Notification) (n : Notification)
    (h : DistinctIds (prev.map (fun r => r.id))) :
    DistinctIds ((addNotification prev n).map (fun r => r.id)) := by
  unfold addNotification
  split
  · exact h
  · next hany =>
    unfold DistinctIds at h ⊢
    rw [List.map_append, List.pairwise_append]
    refine ⟨h, by simp, ?_⟩
    intro a ha b hb
    simp only [List.map_cons, List.map_nil, List.mem_singleton] at hb
    subst hb
    obtain ⟨r, hr, rfl⟩ := List.mem_map.mp ha
    simp only [List.any_eq_true, not_exists, not_and, Bool.not_eq_true] at hany
    exact hany r hr

theorem addNotification_mem (prev : List Notification) (n r : Notification) (h : r ∈ prev) :
    r ∈ addNotification prev n := by
  unfold addNotification
  split
  · exact h
  · exact List.mem_append_left _ h

theorem receiveAll_distinct (frames : List (Env × String)) (v : View)
    (h : DistinctIds (v.notifications.map (fun r => r.id))) :
    DistinctIds ((receiveAll v frames).notifications.map (fun r => r.id)) := by
  induction frames generalizing v with
  | nil => exact h
  | cons f fs ih =>
    apply ih
    rcases receive_notifications v f with h1 | ⟨n, h1⟩
    · rw [h1]; exact h
    · rw [h1]; exact addNotification_distinct _ n h

theorem receiveAll_mem (frames : List (Env × String)) (v : View) (r : Notification)
    (h : r ∈ v.notifications) : r ∈ (receiveAll v frames).notifications := by
  induction frames generalizing v with
  | nil => exact h
  | cons f fs ih =>
    apply ih
    rcases receive_notifications v f with h1 | ⟨n, h1⟩
    · rw [h1]; exact h
    · rw [h1]; exact addNotification_mem _ n r h

/-- What the header does with a notification frame: it drops it when the
message is truthy and not a string, and otherwise passes a record with the
frame's id (or a generated one) to the updater. -/
theorem header_onmessage_notification (env : Env) (v : View) (raw : String) (ref : Nat)
    (props : List (String × JsVal))
    (hparse : env.jsonParse raw = .ok (.obj ref props))
    (htype : (propOf props "type").isStr "notification" = true) :
    (onmessage env v raw = .ok v ∧
      (propOf props "message").truthy = true ∧ ∀ m, propOf props "message" ≠ .str m) ∨
    ∃ n, onmessage env v raw =
        .ok { v with notifications := addNotification v.notifications n } ∧
      n.id = (propOf props "id").or (.str ("notif-" ++ toString env.now ++ "-" ++ env.random))
      := by
  have htype' : ((props.lookup "type").getD JsVal.undefined).isStr "notification" = true := htype
  have hgt : (JsVal.obj ref props).getProp "type" = .ok (propOf props "type") := rfl
  have hgi : (JsVal.obj ref props).getProp "id" = .ok (propOf props "id") := rfl
  have hgn : (JsVal.obj ref props).getProp "notification_type" =
      .ok (propOf props "notification_type") := rfl
  have hgs : (JsVal.obj ref props).getProp "timestamp" = .ok (propOf props "timestamp") := rfl
  generalize hm : propOf props "message" = message
  have hgm : (JsVal.obj ref props).getProp "message" = .ok message := by rw [← hm]; rfl
  by_cases ht : message.truthy = true
  · cases message with
    | str m =>
      right
      simp only [onmessage, onmessageTry, hparse, hgt, hgi, hgn, hgs, hgm, htype, ht, tryCatch,
        tryCatchThe, MonadExceptOf.tryCatch, Except.tryCatch, bind, Except.bind, pure,
        Except.pure, if_true]
      exact ⟨_, rfl, rfl⟩
    | undefined => cases ht
    | null => cases ht
    | bool b =>
      left
      refine ⟨?_, ht, fun m => by simp⟩
      simp only [onmessage, onmessageTry, hparse, hgt, hgm, htype, ht, tryCatch,
        tryCatchThe, MonadExceptOf.tryCatch, Except.tryCatch, bind, Except.bind, pure,
        Except.pure, if_true, throw, throwThe, MonadExceptOf.throw]
    | num q =>
      left
      refine ⟨?_, ht, fun m => by simp⟩
      simp only [onmessage, onmessageTry, hparse, hgt, hgm, htype, ht, tryCatch,
        tryCatchThe, MonadExceptOf.tryCatch, Except.tryCatch, bind, Except.bind, pure,
        Except.pure, if_true, throw, throwThe, MonadExceptOf.throw]
    | arr r items =>
      left
      refine ⟨?_, ht, fun m => by simp⟩
      simp only [onmessage, onmessageTry, hparse, hgt, hgm, htype, ht, tryCatch,
        tryCatchThe, MonadExceptOf.tryCatch, Except.tryCatch, bind, Except.bind, pure,
        Except.pure, if_true, throw, throwThe, MonadExceptOf.throw]
    | obj r ps =>
      left
      refine ⟨?_, ht, fun m => by simp⟩
      simp only [onmessage, onmessageTry, hparse, hgt, hgm, htype, ht, tryCatch,
        tryCatchThe, MonadExceptOf.tryCatch, Except.tryCatch, bind, Except.bind, pure,
        Except.pure, if_true, throw, throwThe, MonadExceptOf.throw]
  · right
    have hf : message.truthy = false := by simpa using ht
    simp only [onmessage, onmessageTry, hparse, hgt, hgi, hgn, hgs, hgm, htype, hf, tryCatch,
      tryCatchThe, MonadExceptOf.tryCatch, Except.tryCatch, bind, Except.bind, pure,
      Except.pure, if_true, Bool.false_eq_true, if_false]
    exact ⟨_, rfl, rfl⟩

theorem addNotification_absent (prev : List Notification) (n : Notification)
    (h : ∀ r ∈ prev, r.id.strictEq n.id = false) : addNotification prev n = prev ++ [n] := by
  unfold addNotification
  rw [if_neg]
  simp only [List.any_eq_true, not_exists, not_and, Bool.not_eq_true]
  exact h

theorem addNotification_present (prev : List Notification) (n : Notification)
    (h : ∃ r ∈ prev, r.id.strictEq n.id = true) : addNotification prev n = prev := by
  unfold addNotification
  rw [if_pos]
  simpa only [List.any_eq_true] using h

theorem addNotification_has (prev : List Notification) (n : Notification) :
    ∃ r ∈ addNotification prev n, r.id.strictEq n.id = true := by
  by_cases h : ∃ r ∈ prev, r.id.strictEq n.id = true
  · rw [addNotification_present prev n h]; exact h
  · rw [addNotification_absent prev n (by simpa using h)]
    exact ⟨n, by simp, JsVal.strictEq_self _⟩

/-- A notification frame with a truthy id and a message that is a string or
falsy passes one record with that id to the updater. -/
theorem receive_first (v : View) (env : Env) (raw : String) (ref : Nat)
    (props : List (String × JsVal))
    (hparse : env.jsonParse raw = .ok (.obj ref props))
    (htype : (propOf props "type").isStr "notification" = true)
    (hid : (propOf props "id").truthy = true)
    (hmsg : (propOf props "message").truthy = false ∨ ∃ m, propOf props "message" = .str m) :
    ∃ n, n.id = propOf props "id" ∧
      receive v (env, raw) = { v with notifications := addNotification v.notifications n } := by
  rcases header_onmessage_notification env v raw ref props hparse htype with ⟨_, h1, h2⟩ | ⟨n, h1, h2⟩
  · rcases hmsg with hf | ⟨m, hm⟩
    · rw [hf] at h1; cases h1
    · exact absurd hm (h2 m)
  · refine ⟨n, ?_, ?_⟩
    · rw [h2]; simp [JsVal.or, hid]
    · simp only [receive, h1]

/-- A notification frame whose id is already in the list changes nothing. -/
theorem receive_again (v : View) (env : Env) (raw : String) (ref : Nat)
    (props : List (String × JsVal))
    (hparse : env.jsonParse raw = .ok (.obj ref props))
    (htype : (propOf props "type").isStr "notification" = true)
    (hid : (propOf props "id").truthy = true)
    (h : ∃ r ∈ v.notifications, r.id.strictEq (propOf props "id") = true) :
    receive v (env, raw) = v := by
  rcases header_onmessage_notification env v raw ref props hparse htype with ⟨h1, _⟩ | ⟨n, h1, h2⟩
  · simp only [receive, h1]
  · have hn : n.id = propOf props "id" := by rw [h2]; simp [JsVal.or, hid]
    simp only [receive, h1]
    rw [addNotification_present v.notifications n (by rw [hn]; exact h)]

end Header

namespace Notifications

/-- What a successful `try` block of the page can have done. -/
theorem page_onmessageTry_cases (env : Env) (v v' : View) (raw : String)
    (h : onmessageTry env v raw = .ok v') :
    v' = v ∨ v' = { v with ws := v.ws.close } ∨
      ∃ n, v' = { v with notifications := addNotification v.notifications n } := by
  unfold onmessageTry at h
  cases hp : env.jsonParse raw with
  | error e => rw [hp] at h; cases h
  | ok data =>
    cases ht : data.getProp "type" with
    | error e => simp [hp, ht, bind, Except.bind] at h
    | ok type =>
      by_cases hn : type.isStr "notification" = true
      · right; right
        simp only [hp, ht, hn, bind, Except.bind, if_true, pure, Except.pure] at h
        repeat' split at h
        all_goals first | (cases h; exact ⟨_, rfl⟩) | cases h
      · have hn' : type.isStr "notification" = false := by simpa using hn
        simp only [hp, ht, hn', bind, Except.bind, pure, Except.pure, Bool.false_eq_true,
          if_false] at h
        repeat' split at h
        all_goals first
          | (cases h; exact Or.inl rfl)
          | (cases h; exact Or.inr (Or.inl rfl))
          | cases h

/-- One frame leaves the list of the page alone or passes one record to the
updater. -/
theorem page_receive_notifications (v : View) (frame : Env × String) :
    (receive v frame).notifications = v.notifications ∨
      ∃ n, (receive v frame).notifications = addNotification v.notifications n := by
  unfold receive onmessage
  cases h : onmessageTry frame.1 v frame.2 with
  | error e => exact Or.inl rfl
  | ok v' =>
    rcases page_onmessageTry_cases frame.1 v v' frame.2 h with h1 | h1 | ⟨n, h1⟩
    · subst h1; exact Or.inl rfl
    · subst h1; exact Or.inl rfl
    · subst h1; exact Or.inr ⟨n, rfl⟩

theorem page_addNotification_distinct (prev : List Notification) (n : Notification)
    (h : DistinctIds (prev.map (fun r => r.id))) :
    DistinctIds ((addNotification prev n).map (fun r => r.id)) := by
  unfold addNotification
  split
  · exact h
  · next hany =>
    unfold DistinctIds at h ⊢
    rw [List.map_cons, List.pairwise_cons]
    refine ⟨?_, h⟩
    intro a ha
    obtain ⟨r, hr, rfl⟩ := List.mem_map.mp ha
    simp only [List.any_eq_true, not_exists, not_and, Bool.not_eq_true] at hany
    rw [JsVal.strictEq_comm]
    exact hany r hr

theorem page_addNotification_mem (prev : List Notification) (n r : Notification) (h : r ∈ prev) :
    r ∈ addNotification prev n := by
  unfold addNotification
  split
  · exact h
  · exact List.mem_cons_of_mem _ h

theorem page_receiveAll_distinct (frames : List (Env × String)) (v : View)
    (h : DistinctIds (v.notifications.map (fun r => r.id))) :
    DistinctIds ((receiveAll v frames).notifications.map (fun r => r.id)) := by
  induction frames generalizing v with
  | nil => exact h
  | cons f fs ih =>
    apply ih
    rcases page_receive_notifications v f with h1 | ⟨n, h1⟩
    · rw [h1]; exact h
    · rw [h1]; exact page_addNotification_distinct _ n h

theorem page_receiveAll_mem (frames : List (Env × String)) (v : View) (r : Notification)
    (h : r ∈ v.notifications) : r ∈ (receiveAll v frames).notifications := by
  induction frames generalizing v with
  | nil => exact h
  | cons f fs ih =>
    apply ih
    rcases page_receive_notifications v f with h1 | ⟨n, h1⟩
    · rw [h1]; exact h
    · rw [h1]; exact page_addNotification_mem _ n r h

theorem page_addNotification_absent (prev : List Notification) (n : Notification)
    (h : ∀ r ∈ prev, r.id.strictEq n.id = false) : addNotification prev n = n :: prev := by
  unfold addNotification
  rw [if_neg]
  simp only [List.any_eq_true, not_exists, not_and, Bool.not_eq_true]
  exact h

theorem page_addNotification_present (prev : List Notification) (n : Notification)
    (h : ∃ r ∈ prev, r.id.strictEq n.id = true) : addNotification prev n = prev := by
  unfold addNotification
  rw [if_pos]
  simpa only [List.any_eq_true] using h

theorem page_addNotification_has (prev : List Notification) (n : Notification) :
    ∃ r ∈ addNotification prev n, r.id.strictEq n.id = true := by
  by_cases h : ∃ r ∈ prev, r.id.strictEq n.id = true
  · rw [page_addNotification_present prev n h]; exact h
  · rw [page_addNotification_absent prev n (by simpa using h)]
    exact ⟨n, by simp, JsVal.strictEq_self _⟩

/-- A message that is a string or falsy can be cleaned. -/
theorem cleanMessage_ok (message : JsVal)
    (hmsg : message.truthy = false ∨ ∃ m, message = .str m) :
    ∃ clean, cleanMessage message = .ok clean := by
  cases h : cleanMessage message with
  | ok clean => exact ⟨clean, rfl⟩
  | error e =>
    rcases hmsg with hf | ⟨m, rfl⟩
    · simp [cleanMessage, hf] at h
    · by_cases ht : (JsVal.str m).truthy = true
      · simp [cleanMessage, ht] at h
      · simp [cleanMessage, ht] at h

/-- A notification frame with a truthy id and a message that is a string or
falsy passes one record with that id to the updater of the page. -/
theorem page_receive_first (v : View) (env : Env) (raw : String) (ref : Nat)
    (props : List (String × JsVal))
    (hparse : env.jsonParse raw = .ok (.obj ref props))
    (htype : (propOf props "type").isStr "notification" = true)
    (hid : (propOf props "id").truthy = true)
    (hmsg : (propOf props "message").truthy = false ∨ ∃ m, propOf props "message" = .str m) :
    ∃ n, n.id = propOf props "id" ∧
      receive v (env, raw) = { v with notifications := addNotification v.notifications n } := by
  obtain ⟨clean, hclean⟩ := cleanMessage_ok _ hmsg
  obtain ⟨d, hd, hdid, _⟩ := decode_obj env ref props clean hclean
  refine ⟨{ toDecoded := d, unread := true }, ?_, ?_⟩
  · show d.id = _
    rw [hdid]; simp [JsVal.or, hid]
  · simp only [receive, onmessage_notification env v raw ref props d hparse htype hd]

/-- A notification frame whose id is already in the list of the page changes
nothing. -/
theorem page_receive_again (v : View) (env : Env) (raw : String) (ref : Nat)
    (props : List (String × JsVal))
    (hparse : env.jsonParse raw = .ok (.obj ref props))
    (htype : (propOf props "type").isStr "notification" = true)
    (hid : (propOf props "id").truthy = true)
    (h : ∃ r ∈ v.notifications, r.id.strictEq (propOf props "id") = true) :
    receive v (env, raw) = v := by
  cases hclean : cleanMessage (propOf props "message") with
  | error e =>
    simp only [receive, onmessage_notification_error env v raw ref props e hparse htype
      (decode_obj_error env ref props e hclean)]
  | ok clean =>
    obtain ⟨d, hd, hdid, _⟩ := decode_obj env ref props clean hclean
    have hn : d.id = propOf props "id" := by rw [hdid]; simp [JsVal.or, hid]
    simp only [receive, onmessage_notification env v raw ref props d hparse htype hd]
    have hex : ∃ r ∈ v.notifications, r.id.strictEq d.id = true := by rw [hn]; exact h
    rw [page_addNotification_present v.notifications _ hex]

end Notifications

/-- A notification frame whose message is truthy and not a string is dropped
by the header: `data.message.replace` throws and the `catch` only logs. -/
theorem header_receive_dropped (v : Header.View) (env : Header.Env) (raw : String) (ref : Nat)
    (props : List (String × JsVal))
    (hparse : env.jsonParse raw = .ok (.obj ref props))
    (htype : (propOf props "type").isStr "notification" = true)
    (ht : (propOf props "message").truthy = true)
    (hns : ∀ m, propOf props "message" ≠ .str m) :
    Header.receive v (env, raw) = v := by
  have hgt : (JsVal.obj ref props).getProp "type" = .ok (propOf props "type") := rfl
  generalize hm : propOf props "message" = message at ht hns
  have hgm : (JsVal.obj ref props).getProp "message" = .ok message := by rw [← hm]; rfl
  cases message with
  | str m => exact absurd rfl (hns m)
  | undefined => cases ht
  | null => cases ht
  | bool b =>
    simp only [Header.receive, Header.onmessage, Header.onmessageTry, hparse, hgt, hgm, htype,
      ht, tryCatch, tryCatchThe, MonadExceptOf.tryCatch, Except.tryCatch, bind, Except.bind,
      pure, Except.pure, if_true, throw, throwThe, MonadExceptOf.throw]
  | num q =>
    simp only [Header.receive, Header.onmessage, Header.onmessageTry, hparse, hgt, hgm, htype,
      ht, tryCatch, tryCatchThe, MonadExceptOf.tryCatch, Except.tryCatch, bind, Except.bind,
      pure, Except.pure, if_true, throw, throwThe, MonadExceptOf.throw]
  | arr r items =>
    simp only [Header.receive, Header.onmessage, Header.onmessageTry, hparse, hgt, hgm, htype,
      ht, tryCatch, tryCatchThe, MonadExceptOf.tryCatch, Except.tryCatch, bind, Except.bind,
      pure, Except.pure, if_true, throw, throwThe, MonadExceptOf.throw]
  | obj r ps =>
    simp only [Header.receive, Header.onmessage, Header.onmessageTry, hparse, hgt, hgm, htype,
      ht, tryCatch, tryCatchThe, MonadExceptOf.tryCatch, Except.tryCatch, bind, Except.bind,
      pure, Except.pure, if_true, throw, throwThe, MonadExceptOf.throw]

/-- A notification frame whose message is truthy and not a string is dropped
by the page. -/
theorem page_receive_dropped (v : Notifications.View) (env : Header.Env) (raw : String)
    (ref : Nat) (props : List (String × JsVal))
    (hparse : env.jsonParse raw = .ok (.obj ref props))
    (htype : (propOf props "type").isStr "notification" = true)
    (ht : (propOf props "message").truthy = true)
    (hns : ∀ m, propOf props "message" ≠ .str m) :
    Notifications.receive v (env, raw) = v := by
  have hclean : Notifications.cleanMessage (propOf props "message") = .error .typeError := by
    generalize propOf props "message" = message at ht hns
    cases message with
    | str m => exact absurd rfl (hns m)
    | undefined => cases ht
    | null => cases ht
    | bool b => simp only [Notifications.cleanMessage, ht, if_true]
    | num q => simp only [Notifications.cleanMessage, ht, if_true]
    | arr r items => simp only [Notifications.cleanMessage, ht, if_true]
    | obj r ps => simp only [Notifications.cleanMessage, ht, if_true]
  simp only [Notifications.receive,
    Notifications.onmessage_notification_error env v raw ref props _ hparse htype
      (Notifications.decode_obj_error env ref props _ hclean)]

/-- C15 (refuted as stated): a notification frame with id `n1` whose
`message` is the number 5 adds no record, neither to the Header list nor to
the list of the Notifications page: `data.message.replace` is not a function,
the handler throws inside its `try`, and the `catch` only logs. -/
theorem C15_non_string_message_adds_nothing :
    (Header.receive ⟨[], ⟨.str "t", .OPEN, .stopHeartbeat, some 15000, []⟩⟩
      (⟨fun _ => .ok (.obj 0 [("type", .str "notification"), ("id", .str "n1"),
        ("notification_type", .str "appointment_accepted"), ("message", .num 5)]),
        0, "r", "now"⟩, "frame")).notifications.length = 0 ∧
    (Notifications.receive ⟨[], ⟨.str "t", .OPEN, .stopHeartbeat, some 15000, []⟩⟩
      (⟨fun _ => .ok (.obj 0 [("type", .str "notification"), ("id", .str "n1"),
        ("notification_type", .str "appointment_accepted"), ("message", .num 5)]),
        0, "r", "now"⟩, "frame")).notifications.length = 0 ∧
    (Header.receive ⟨[], ⟨.str "t", .OPEN, .stopHeartbeat, some 15000, []⟩⟩
      (⟨fun _ => .ok (.obj 0 [("type", .str "notification"), ("id", .str "n1"),
        ("notification_type", .str "appointment_accepted"),
        ("message", .str "Dr. Silva accepted")]),
        0, "r", "now"⟩, "frame")).notifications.length = 1 := by
  refine ⟨?_, ?_, rfl⟩
  · rw [header_receive_dropped _ _ _ 0
      [("type", .str "notification"), ("id", .str "n1"),
        ("notification_type", .str "appointment_accepted"), ("message", .num 5)]
      rfl rfl (by decide) (fun m hm => by cases hm)]
    rfl
  · rw [page_receive_dropped _ _ _ 0
      [("type", .str "notification"), ("id", .str "n1"),
        ("notification_type", .str "appointment_accepted"), ("message", .num 5)]
      rfl rfl (by decide) (fun m hm => by cases hm)]
    rfl

/-- C15 (amended): in the Header and on the Notifications page the ids in the
list stay pairwise different under `===` whatever frames arrive, in any order
and with any content.  A notification frame that carries a truthy id `n1` and
a message that is a string or falsy adds exactly one record with id `n1`
when no record of the list has that id (at the end of the list in the Header,
at the front on the page), and once it has been received a notification frame
with id `n1` leaves the view unchanged, however many other frames arrived in
between.  A notification frame whose message is truthy and not a string
leaves both views as they are. -/
theorem C15_one_record_per_id (h : Header.View) (p : Notifications.View)
    (frames later : List (Header.Env × String)) (env env' : Header.Env) (raw raw' : String)
    (ref ref' : Nat) (props props' : List (String × JsVal))
    (hh : DistinctIds (h.notifications.map (fun r => r.id)))
    (hp : DistinctIds (p.notifications.map (fun r => r.id)))
    (hparse : env.jsonParse raw = .ok (.obj ref props))
    (htype : (propOf props "type").isStr "notification" = true)
    (hid : (propOf props "id").truthy = true)
    (hmsg : (propOf props "message").truthy = false ∨ ∃ m, propOf props "message" = .str m)
    (hparse' : env'.jsonParse raw' = .ok (.obj ref' props'))
    (htype' : (propOf props' "type").isStr "notification" = true)
    (hid' : propOf props' "id" = propOf props "id") :
    (DistinctIds ((Header.receiveAll h frames).notifications.map (fun r => r.id)) ∧
      ((∀ r ∈ h.notifications, r.id.strictEq (propOf props "id") = false) →
        ∃ r, r.id = propOf props "id" ∧
          Header.receive h (env, raw) = { h with notifications := h.notifications ++ [r] }) ∧
      Header.receive (Header.receiveAll (Header.receive h (env, raw)) later) (env', raw') =
        Header.receiveAll (Header.receive h (env, raw)) later) ∧
    (DistinctIds ((Notifications.receiveAll p frames).notifications.map (fun r => r.id)) ∧
      ((∀ r ∈ p.notifications, r.id.strictEq (propOf props "id") = false) →
        ∃ r, r.id = propOf props "id" ∧
          Notifications.receive p (env, raw) = { p with notifications := r :: p.notifications }) ∧
      Notifications.receive (Notifications.receiveAll (Notifications.receive p (env, raw)) later)
          (env', raw') =
        Notifications.receiveAll (Notifications.receive p (env, raw)) later) ∧
    (∀ (env2 : Header.Env) (raw2 : String) (ref2 : Nat) (props2 : List (String × JsVal))
        (hv : Header.View) (pv : Notifications.View),
      env2.jsonParse raw2 = .ok (.obj ref2 props2) →
      (propOf props2 "type").isStr "notification" = true →
      (propOf props2 "message").truthy = true →
      (∀ m, propOf props2 "message" ≠ .str m) →
      Header.receive hv (env2, raw2) = hv ∧ Notifications.receive pv (env2, raw2) = pv) := by
  refine ⟨⟨Header.receiveAll_distinct frames h hh, ?_, ?_⟩,
    ⟨Notifications.page_receiveAll_distinct frames p hp, ?_, ?_⟩,
    fun env2 raw2 ref2 props2 hv pv h1 h2 h3 h4 =>
      ⟨header_receive_dropped hv env2 raw2 ref2 props2 h1 h2 h3 h4,
       page_receive_dropped pv env2 raw2 ref2 props2 h1 h2 h3 h4⟩⟩
  · intro habs
    obtain ⟨n, hn, hr⟩ := Header.receive_first h env raw ref props hparse htype hid hmsg
    refine ⟨n, hn, ?_⟩
    rw [hr, Header.addNotification_absent h.notifications n (by rw [hn]; exact habs)]
  · obtain ⟨n, hn, hr⟩ := Header.receive_first h env raw ref props hparse htype hid hmsg
    obtain ⟨r, hr1, hr2⟩ := Header.addNotification_has h.notifications n
    apply Header.receive_again _ env' raw' ref' props' hparse' htype' (by rw [hid']; exact hid)
    refine ⟨r, Header.receiveAll_mem later _ r (by rw [hr]; exact hr1), ?_⟩
    rw [hid', ← hn]; exact hr2
  · intro habs
    obtain ⟨n, hn, hr⟩ := Notifications.page_receive_first p env raw ref props hparse htype hid hmsg
    refine ⟨n, hn, ?_⟩
    rw [hr, Notifications.page_addNotification_absent p.notifications n (by rw [hn]; exact habs)]
  · obtain ⟨n, hn, hr⟩ := Notifications.page_receive_first p env raw ref props hparse htype hid hmsg
    obtain ⟨r, hr1, hr2⟩ := Notifications.page_addNotification_has p.notifications n
    apply Notifications.page_receive_again _ env' raw' ref' props' hparse' htype'
      (by rw [hid']; exact hid)
    refine ⟨r, Notifications.page_receiveAll_mem later _ r (by rw [hr]; exact hr1), ?_⟩
    rw [hid', ← hn]; exact hr2

/-- Witness for `C15_one_record_per_id`: the frame of the scenario, received
twice by an empty Header list and an empty page list. -/
theorem C15_one_record_per_id_witness :
    Header.receive (Header.receiveAll (Header.receive
        ⟨[], ⟨.str "t", .OPEN, .stopHeartbeat, some 15000, []⟩⟩
        (⟨fun _ => .ok (.obj 0 [("type", .str "notification"), ("id", .str "n1"),
          ("notification_type", .str "appointment_accepted"),
          ("message", .str "Dr. Silva accepted")]), 0, "r", "now"⟩, "frame")) [])
        (⟨fun _ => .ok (.obj 0 [("type", .str "notification"), ("id", .str "n1"),
          ("notification_type", .str "appointment_accepted"),
          ("message", .str "Dr. Silva accepted")]), 0, "r", "now"⟩, "frame") =
      Header.receiveAll (Header.receive
        ⟨[], ⟨.str "t", .OPEN, .stopHeartbeat, some 15000, []⟩⟩
        (⟨fun _ => .ok (.obj 0 [("type", .str "notification"), ("id", .str "n1"),
          ("notification_type", .str "appointment_accepted"),
          ("message", .str "Dr. Silva accepted")]), 0, "r", "now"⟩, "frame")) [] :=
  (C15_one_record_per_id
    ⟨[], ⟨.str "t", .OPEN, .stopHeartbeat, some 15000, []⟩⟩
    ⟨[], ⟨.str "t", .OPEN, .stopHeartbeat, some 15000, []⟩⟩ [] []
    ⟨fun _ => .ok (.obj 0 [("type", .str "notification"), ("id", .str "n1"),
      ("notification_type", .str "appointment_accepted"),
      ("message", .str "Dr. Silva accepted")]), 0, "r", "now"⟩
    ⟨fun _ => .ok (.obj 0 [("type", .str "notification"), ("id", .str "n1"),
      ("notification_type", .str "appointment_accepted"),
      ("message", .str "Dr. Silva accepted")]), 0, "r", "now"⟩
    "frame" "frame" 0 0
    [("type", .str "notification"), ("id", .str "n1"),
      ("notification_type", .str "appointment_accepted"),
      ("message", .str "Dr. Silva accepted")]
    [("type", .str "notification"), ("id", .str "n1"),
      ("notification_type", .str "appointment_accepted"),
      ("message", .str "Dr. Silva accepted")]
    List.Pairwise.nil List.Pairwise.nil rfl rfl (by decide) (Or.inr ⟨"Dr. Silva accepted", rfl⟩)
    rfl rfl rfl).1.2.2

/-! ## Cleaning a message -/

namespace Notifications

theorem dropLit_some (m l rest : List Char) : dropLit m l = some rest ↔ l = m ++ rest := by
  induction m generalizing l with
  | nil => simp [dropLit, eq_comm]
  | cons a m ih =>
    cases l with
    | nil => simp [dropLit]
    | cons b l =>
      by_cases hab : a = b
      · subst hab; simp [dropLit, ih]
      · simp only [dropLit, hab, if_false, List.cons_append, List.cons.injEq, false_iff]
        constructor
        · intro h; cases h
        · rintro ⟨h, _⟩; exact absurd h.symm hab

/-- Every marker has at least two characters. -/
theorem two_le_length_of_mem_markers (m : List Char) (h : m ∈ markers) : 2 ≤ m.length := by
  simp only [markers, List.mem_cons, List.mem_singleton, List.not_mem_nil, or_false] at h
  rcases h with rfl | rfl | rfl | rfl | rfl | rfl <;> simp

theorem dropMarker_some (l rest : List Char) (h : dropMarker l = some rest) :
    ∃ m ∈ markers, l = m ++ rest := by
  obtain ⟨m, hm, hd⟩ := List.exists_of_findSome?_eq_some h
  exact ⟨m, hm, (dropLit_some m l rest).mp hd⟩

theorem dropMarker_none (l : List Char) (h : dropMarker l = none) (m rest : List Char)
    (hm : m ∈ markers) : l ≠ m ++ rest := by
  intro hl
  have := List.findSome?_eq_none_iff.mp h m hm
  rw [(dropLit_some m l rest).mpr hl] at this
  cases this

theorem dropMarker_length (l rest : List Char) (h : dropMarker l = some rest) :
    rest.length < l.length := by
  obtain ⟨m, hm, rfl⟩ := dropMarker_some l rest h
  have := two_le_length_of_mem_markers m hm
  simp only [List.length_append]
  omega

/-- Fuel beyond the length of the input changes nothing. -/
theorem removeMarkersAux_fuel (n : Nat) (l : List Char) (h : l.length ≤ n) :
    removeMarkersAux n l = removeMarkers l := by
  unfold removeMarkers
  induction n using Nat.strong_induction_on generalizing l with
  | _ n ih =>
    cases n with
    | zero =>
      have : l = [] := List.length_eq_zero.mp (Nat.le_zero.mp h)
      subst this; rfl
    | succ n =>
      cases l with
      | nil =>
        simp only [List.length_nil, removeMarkersAux]
        cases hd : dropMarker [] with
        | none => rfl
        | some rest => exact absurd (dropMarker_length _ _ hd) (by simp)
      | cons c tl =>
        simp only [List.length_cons, removeMarkersAux]
        cases hd : dropMarker (c :: tl) with
        | none =>
          simp only
          have h1 : tl.length ≤ n := by simpa using h
          have e1 := ih n (Nat.lt_succ_self n) tl h1
          by_cases hlt : tl.length = n
          · subst hlt; rfl
          · have e2 := ih tl.length (by omega) tl (le_refl _)
            rw [e1]
        | some rest =>
          simp only
          have hl := dropMarker_length _ _ hd
          simp only [List.length_cons] at hl h
          have e1 := ih n (Nat.lt_succ_self n) rest (by omega)
          by_cases hlt : tl.length = n
          · subst hlt; rfl
          · have e2 := ih tl.length (by omega) rest (by omega)
            rw [e1, e2]

theorem removeMarkers_nil : removeMarkers [] = [] := rfl

theorem removeMarkers_some (l rest : List Char) (h : dropMarker l = some rest) :
    removeMarkers l = removeMarkers rest := by
  have hl := dropMarker_length l rest h
  cases l with
  | nil => simp at hl
  | cons c tl =>
    show removeMarkersAux (tl.length + 1) (c :: tl) = _
    simp only [removeMarkersAux, h]
    exact removeMarkersAux_fuel _ _ (by simpa [Nat.lt_succ_iff] using hl)

theorem removeMarkers_none (c : Char) (tl : List Char) (h : dropMarker (c :: tl) = none) :
    removeMarkers (c :: tl) = c :: removeMarkers tl := by
  show removeMarkersAux (tl.length + 1) (c :: tl) = _
  simp only [removeMarkersAux, h]
  rfl

end Notifications
namespace Notifications

theorem MarkerAfterEmoji.append_left (pre l : List Char) (h : MarkerAfterEmoji l) :
    MarkerAfterEmoji (pre ++ l) := by
  obtain ⟨p, q, m, hp, hq, hpq, hm, a, b, rfl⟩ := h
  exact ⟨p, q, m, hp, hq, hpq, hm, pre ++ a, b, by simp [List.append_assoc]⟩

theorem MarkerAfterEmoji.append_right (l post : List Char) (h : MarkerAfterEmoji l) :
    MarkerAfterEmoji (l ++ post) := by
  obtain ⟨p, q, m, hp, hq, hpq, hm, a, b, rfl⟩ := h
  exact ⟨p, q, m, hp, hq, hpq, hm, a, b ++ post, by simp [List.append_assoc]⟩

theorem HasMarker.of_append (pre l post : List Char) (h : HasMarker l) :
    HasMarker (pre ++ l ++ post) := by
  obtain ⟨m, hm, a, b, rfl⟩ := h
  exact ⟨m, hm, pre ++ a, b ++ post, by simp [List.append_assoc]⟩

/-- If the output of the scan continues a kept beginning `p` of a marker with
the rest `q` of that marker, a marker was removed in between. -/
theorem startsWith_removeMarkers (n : Nat) :
    ∀ (l p q t : List Char), l.length ≤ n → p ++ q ∈ markers → q ≠ [] →
      (p ≠ [] → dropMarker (p ++ l) = none) → removeMarkers l = q ++ t →
      MarkerAfterEmoji (p ++ l) := by
  induction n with
  | zero =>
    intro l p q t hl _ hq _ hout
    have : l = [] := List.length_eq_zero.mp (Nat.le_zero.mp hl)
    subst this
    rw [removeMarkers_nil] at hout
    cases q with
    | nil => exact absurd rfl hq
    | cons c q => cases hout
  | succ n ih =>
    intro l p q t hl hpq hq hkept hout
    cases hd : dropMarker l with
    | some rest =>
      obtain ⟨m, hm, rfl⟩ := dropMarker_some l rest hd
      by_cases hp : p = []
      · subst hp
        rw [removeMarkers_some _ _ hd] at hout
        have hlen := two_le_length_of_mem_markers m hm
        have h1 : rest.length ≤ n := by
          simp only [List.length_append] at hl; omega
        have := ih rest [] q t h1 hpq hq (fun h => absurd rfl h) hout
        simpa using MarkerAfterEmoji.append_left m _ (by simpa using this)
      · exact ⟨p, q, m, hp, hq, hpq, hm, [], rest, by simp⟩
    | none =>
      cases l with
      | nil =>
        rw [removeMarkers_nil] at hout
        cases q with
        | nil => exact absurd rfl hq
        | cons c q => cases hout
      | cons c tl =>
        rw [removeMarkers_none c tl hd] at hout
        cases q with
        | nil => exact absurd rfl hq
        | cons c' q' =>
          simp only [List.cons_append, List.cons.injEq] at hout
          obtain ⟨hc, hout⟩ := hout
          subst hc
          have hkept' : dropMarker (p ++ c :: tl) = none := by
            by_cases hp : p = []
            · subst hp; simpa using hd
            · exact hkept hp
          by_cases hq' : q' = []
          · subst hq'
            exact absurd (by simp) (dropMarker_none _ hkept' (p ++ [c]) tl hpq)
          · have h1 : tl.length ≤ n := by simpa using hl
            have := ih tl (p ++ [c]) q' t h1 (by simpa using hpq) hq'
              (fun _ => by simpa using hkept') hout
            simpa using this

/-- A marker in the output of the scan comes from a marker that directly
followed the beginning of a marker in the input. -/
theorem hasMarker_removeMarkers (n : Nat) :
    ∀ l : List Char, l.length ≤ n → HasMarker (removeMarkers l) → MarkerAfterEmoji l := by
  induction n with
  | zero =>
    intro l hl h
    have : l = [] := List.length_eq_zero.mp (Nat.le_zero.mp hl)
    subst this
    obtain ⟨m, hm, a, b, hab⟩ := h
    have := two_le_length_of_mem_markers m hm
    have h2 := congrArg List.length hab
    simp [removeMarkers_nil] at h2
    omega
  | succ n ih =>
    intro l hl h
    obtain ⟨m, hm, a, b, hab⟩ := h
    cases a with
    | nil =>
      have hne : m ≠ [] := by
        intro h0; have := two_le_length_of_mem_markers m hm; simp [h0] at this
      simpa using startsWith_removeMarkers (n + 1) l [] m b hl (by simpa using hm) hne
        (fun h => absurd rfl h) (by simpa using hab)
    | cons a0 a =>
      cases hd : dropMarker l with
      | some rest =>
        obtain ⟨m', hm', rfl⟩ := dropMarker_some l rest hd
        rw [removeMarkers_some _ _ hd] at hab
        have hlen := two_le_length_of_mem_markers m' hm'
        have h1 : rest.length ≤ n := by
          simp only [List.length_append] at hl; omega
        exact MarkerAfterEmoji.append_left m' _ (ih rest h1 ⟨m, hm, a0 :: a, b, hab⟩)
      | none =>
        cases l with
        | nil => rw [removeMarkers_nil] at hab; cases hab
        | cons c tl =>
          rw [removeMarkers_none c tl hd] at hab
          simp only [List.cons_append, List.cons.injEq] at hab
          have h1 : tl.length ≤ n := by simpa using hl
          exact MarkerAfterEmoji.append_left [c] _ (ih tl h1 ⟨m, hm, a, b, hab.2⟩)

/-- Without a marker in the input the scan removes nothing. -/
theorem removeMarkers_of_not_hasMarker (l : List Char) (h : ¬ HasMarker l) :
    removeMarkers l = l := by
  induction l with
  | nil => rfl
  | cons c tl ih =>
    cases hd : dropMarker (c :: tl) with
    | some rest =>
      obtain ⟨m, hm, hl⟩ := dropMarker_some _ rest hd
      exact absurd ⟨m, hm, [], rest, by simpa using hl⟩ h
    | none =>
      rw [removeMarkers_none c tl hd, ih]
      intro ht
      exact h (by simpa using HasMarker.of_append [c] tl [] ht)

end Notifications
/-! ## Trimming and the `: string` artefact -/

/-- The result of `trim` is a run of the characters of its input. -/
theorem jsTrim_contains (s : String) :
    ∃ w1 w2, s.toList = w1 ++ (jsTrim s).toList ++ w2 := by
  refine ⟨s.toList.takeWhile isJsWhitespace,
    ((s.toList.dropWhile isJsWhitespace).reverse.takeWhile isJsWhitespace).reverse, ?_⟩
  have h1 := List.takeWhile_append_dropWhile isJsWhitespace s.toList
  have h2 := List.takeWhile_append_dropWhile isJsWhitespace
    (s.toList.dropWhile isJsWhitespace).reverse
  have h3 := congrArg List.reverse h2
  simp only [List.reverse_append, List.reverse_reverse] at h3
  show _ = _ ++ ((s.toList.dropWhile isJsWhitespace).reverse.dropWhile isJsWhitespace).reverse
    ++ _
  rw [List.append_assoc, h3, h1]

/-- The result of `trim` does not start with whitespace. -/
theorem jsTrim_head (s : String) (c : Char) (h : (jsTrim s).toList.head? = some c) :
    isJsWhitespace c = false := by
  change ((s.toList.dropWhile isJsWhitespace).reverse.dropWhile isJsWhitespace).reverse.head?
    = some c at h
  rw [List.head?_reverse] at h
  have h2 := List.takeWhile_append_dropWhile isJsWhitespace
    (s.toList.dropWhile isJsWhitespace).reverse
  have h3 : (s.toList.dropWhile isJsWhitespace).reverse.getLast? = some c := by
    rw [← h2, List.getLast?_append, h]; rfl
  rw [List.getLast?_reverse] at h3
  have h4 := List.head?_dropWhile_not isJsWhitespace s.toList
  rw [h3] at h4
  exact h4

/-- The result of `trim` does not end with whitespace. -/
theorem jsTrim_getLast (s : String) (c : Char) (h : (jsTrim s).toList.getLast? = some c) :
    isJsWhitespace c = false := by
  change ((s.toList.dropWhile isJsWhitespace).reverse.dropWhile isJsWhitespace).reverse.getLast?
    = some c at h
  rw [List.getLast?_reverse] at h
  have h4 := List.head?_dropWhile_not isJsWhitespace
    (s.toList.dropWhile isJsWhitespace).reverse
  rw [h] at h4
  exact h4

/-- The call `.replace(/: string$/, "")` removes the artefact from the end of
an input that ends with it and returns any other input as it is. -/
theorem stripStringSuffix_cases (s : String) :
    s.toList = (stripStringSuffix s).toList ++ ": string".toList ∨
      (stripStringSuffix s = s ∧ ∀ pre, s.toList ≠ pre ++ ": string".toList) := by
  unfold stripStringSuffix
  simp only
  split
  · next h =>
    left
    show s.toList = List.take _ s.toList ++ _
    conv_lhs => rw [← List.take_append_drop (s.toList.length - ": string".toList.length) s.toList]
    rw [h.1]
  · next h =>
    right
    refine ⟨rfl, ?_⟩
    intro pre hpre
    apply h
    rw [hpre]
    constructor
    · simp only [List.length_append, Nat.add_sub_cancel]
      exact List.drop_left pre _
    · simp

namespace Notifications

theorem HasMarker.exists_large (l : List Char) (h : HasMarker l) :
    ∃ c ∈ l, 0x26A0 ≤ c.toNat := by
  obtain ⟨m, hm, a, b, rfl⟩ := h
  have : ∃ c ∈ m, 0x26A0 ≤ c.toNat := by
    simp only [markers, List.mem_cons, List.mem_singleton, List.not_mem_nil, or_false] at hm
    rcases hm with rfl | rfl | rfl | rfl | rfl | rfl <;> decide
  obtain ⟨c, hc, hn⟩ := this
  exact ⟨c, by simp [hc], hn⟩

theorem not_hasMarker_noMessageContent : ¬ HasMarker "No message content".toList := by
  intro h
  obtain ⟨c, hc, hn⟩ := HasMarker.exists_large _ h
  revert c
  decide

theorem not_endsWith_noMessageContent :
    ¬ EndsWith ": string".toList "No message content".toList := by
  rintro ⟨pre, h⟩
  have hlen := congrArg List.length h
  have hd := List.drop_left pre ": string".toList
  rw [← h] at hd
  have h10 : pre.length = 10 := by
    simp only [List.length_append] at hlen
    have e1 : "No message content".toList.length = 18 := by decide
    have e2 : ": string".toList.length = 8 := by decide
    omega
  rw [h10] at hd
  revert hd
  decide

/-- The characters the page keeps of a string message. -/
theorem cleanMessage_str (m : String) :
    cleanMessage (.str m) =
      .ok (if m = "" then "No message content"
           else jsTrim (String.mk (removeMarkers (stripStringSuffix m).toList))) := by
  by_cases h : m = ""
  · subst h; rfl
  · simp [cleanMessage, JsVal.truthy, h]

end Notifications

namespace Notifications

theorem MarkerAfterEmoji.exists_large_char (l : List Char) (h : MarkerAfterEmoji l) :
    ∃ c ∈ l, 0x26A0 ≤ c.toNat := by
  obtain ⟨p, q, m, _, _, _, hm, a, b, rfl⟩ := h
  exact HasMarker.exists_large _ ⟨m, hm, a ++ p, b, by simp [List.append_assoc]⟩

/-- C13 (refuted as stated): the scan for markers runs once, so of a calendar
emoji directly followed by the marker `calendar emoji, space` and a second
space the cleaned message keeps `calendar emoji, space`, which is a marker;
and the artefact is looked for before the message is trimmed, so the message
`Done: string ` with a space at its end is cleaned to `Done: string`, as is
`Done: string: string`. -/
theorem C13_marker_and_artefact_survive :
    (decode ⟨fun _ => .error .syntaxError, 0, "r", "now"⟩
      (.obj 0 [("type", .str "notification"), ("id", .str "n1"),
        ("message", .str (String.mk
          [Char.ofNat 0x1F4C5, Char.ofNat 0x1F4C5, ' ', ' ', 'x']))])).map
      (fun d => d.originalMessage) = .ok (String.mk [Char.ofNat 0x1F4C5, ' ', 'x']) ∧
    HasMarker (String.mk [Char.ofNat 0x1F4C5, ' ', 'x']).toList ∧
    (decode ⟨fun _ => .error .syntaxError, 0, "r", "now"⟩
      (.obj 0 [("type", .str "notification"), ("id", .str "n1"),
        ("message", .str "Done: string ")])).map
      (fun d => d.originalMessage) = .ok "Done: string" ∧
    (decode ⟨fun _ => .error .syntaxError, 0, "r", "now"⟩
      (.obj 0 [("type", .str "notification"), ("id", .str "n1"),
        ("message", .str "Done: string: string")])).map
      (fun d => d.originalMessage) = .ok "Done: string" ∧
    EndsWith ": string".toList "Done: string".toList :=
  ⟨rfl, ⟨[Char.ofNat 0x1F4C5, ' '], by simp [markers], [], ['x'], rfl⟩, rfl, rfl,
    ⟨"Done".toList, rfl⟩⟩

/-- C13 (amended): for every notification frame with a string `message` the
page stores as `originalMessage` the message with one `: string` removed
from its very end, then every marker found in one scan from left to right
removed, then trimmed (`No message content` for the empty string).  It
never starts or ends with whitespace.  It contains none of the six markers
provided that nowhere in the message a marker directly follows the emoji of
a marker.  It does not end with `: string` provided that the message
contains no marker and contains `: string` nowhere but at its very end. -/
theorem C13_cleaned_message (env : Env) (v : View) (raw : String) (ref : Nat)
    (props : List (String × JsVal)) (m : String)
    (hparse : env.jsonParse raw = .ok (.obj ref props))
    (htype : (propOf props "type").isStr "notification" = true)
    (hm : propOf props "message" = .str m) :
    ∃ d, decode env (.obj ref props) = .ok d ∧
      Notifications.onmessage env v raw =
        .ok { v with notifications :=
                addNotification v.notifications { toDecoded := d, unread := true } } ∧
      d.originalMessage =
        (if m = "" then "No message content"
         else jsTrim (String.mk (removeMarkers (stripStringSuffix m).toList))) ∧
      (∀ c, d.originalMessage.toList.head? = some c → isJsWhitespace c = false) ∧
      (∀ c, d.originalMessage.toList.getLast? = some c → isJsWhitespace c = false) ∧
      (¬ MarkerAfterEmoji m.toList → ¬ HasMarker d.originalMessage.toList) ∧
      (¬ HasMarker m.toList →
        (∀ pre post, m.toList = pre ++ ": string".toList ++ post → post = []) →
        ¬ EndsWith ": string".toList d.originalMessage.toList) := by
  have hclean := cleanMessage_str m
  rw [← hm] at hclean
  obtain ⟨d, hd, _, horig, _⟩ := decode_obj env ref props _ hclean
  refine ⟨d, hd, onmessage_notification env v raw ref props d hparse htype hd, horig, ?_⟩
  rw [horig]
  by_cases h0 : m = ""
  · subst h0
    simp only [if_true]
    exact ⟨by decide, by decide, fun _ => not_hasMarker_noMessageContent,
      fun _ _ => not_endsWith_noMessageContent⟩
  · simp only [h0, if_false]
    refine ⟨jsTrim_head _, jsTrim_getLast _, ?_, ?_⟩
    · intro hbad hmk
      apply hbad
      obtain ⟨w1, w2, hw⟩ := jsTrim_contains (String.mk (removeMarkers (stripStringSuffix m).toList))
      have h1 : HasMarker (removeMarkers (stripStringSuffix m).toList) := by
        have := HasMarker.of_append w1 _ w2 hmk
        rw [← hw] at this
        exact this
      have h2 := hasMarker_removeMarkers _ _ (le_refl _) h1
      rcases stripStringSuffix_cases m with hs | ⟨hs, _⟩
      · rw [hs]; exact MarkerAfterEmoji.append_right _ _ h2
      · rw [hs] at h2; exact h2
    · intro hno honly ⟨u, hu⟩
      have hno' : ¬ HasMarker (stripStringSuffix m).toList := by
        intro h
        apply hno
        rcases stripStringSuffix_cases m with hs | ⟨hs, _⟩
        · rw [hs]; simpa using HasMarker.of_append [] _ ": string".toList h
        · rw [hs] at h; exact h
      rw [removeMarkers_of_not_hasMarker _ hno'] at hu
      obtain ⟨w1, w2, hw⟩ := jsTrim_contains (String.mk (stripStringSuffix m).toList)
      rw [hu] at hw
      change (stripStringSuffix m).toList = _ at hw
      rcases stripStringSuffix_cases m with hs | ⟨hs, hnot⟩
      · have := honly (w1 ++ u) (w2 ++ ": string".toList)
          (by rw [hs, hw]; simp [List.append_assoc])
        simp at this
      · rw [hs] at hw
        have hw2 := honly (w1 ++ u) w2 (by rw [hw]; simp [List.append_assoc])
        subst hw2
        exact hnot (w1 ++ u) (by rw [hw]; simp [List.append_assoc])

/-- Witness for `C13_cleaned_message`: an appointment message with a space in
front and the artefact at its end. -/
theorem C13_cleaned_message_witness :
    ∃ d, decode ⟨fun _ => .ok (.obj 0 [("type", .str "notification"), ("id", .str "n1"),
          ("message", .str " Dr. Silva accepted: string")]), 0, "r", "now"⟩
        (.obj 0 [("type", .str "notification"), ("id", .str "n1"),
          ("message", .str " Dr. Silva accepted: string")]) = .ok d ∧
      d.originalMessage = "Dr. Silva accepted" ∧ ¬ HasMarker d.originalMessage.toList := by
  obtain ⟨d, hd, _, h1, _, _, h2, _⟩ := C13_cleaned_message
    ⟨fun _ => .ok (.obj 0 [("type", .str "notification"), ("id", .str "n1"),
      ("message", .str " Dr. Silva accepted: string")]), 0, "r", "now"⟩
    ⟨[], ⟨.str "t", .OPEN, .stopHeartbeat, some 15000, []⟩⟩
    "frame" 0 [("type", .str "notification"), ("id", .str "n1"),
      ("message", .str " Dr. Silva accepted: string")]
    " Dr. Silva accepted: string" rfl rfl rfl
  refine ⟨d, hd, by rw [h1]; rfl, h2 ?_⟩
  intro h
  obtain ⟨c, hc, hn⟩ := MarkerAfterEmoji.exists_large_char _ h
  revert c
  decide

end Notifications

/-! ## AuthContext: logout, login, reload -/

namespace AuthContext

theorem lookup_removeItem_ne (st : Storage) (k k' : String) (h : k ≠ k') :
    (removeItem st k').lookup k = st.lookup k := by
  unfold removeItem
  induction st with
  | nil => rfl
  | cons p st ih =>
    obtain ⟨a, b⟩ := p
    by_cases hak : a = k'
    · subst hak
      have hka : (k == a) = false := by simpa using h
      simp [List.filter_cons, List.lookup_cons, hka, ih]
    · by_cases hk : k = a
      · subst hk
        simp [List.filter_cons, List.lookup_cons, hak]
      · have hka : (k == a) = false := by simpa using hk
        simp [List.filter_cons, List.lookup_cons, hak, hka, ih]

theorem lookup_foldl_removeItem_ne (keys : List String) (st : Storage) (k : String)
    (h : k ∉ keys) : (keys.foldl removeItem st).lookup k = st.lookup k := by
  induction keys generalizing st with
  | nil => rfl
  | cons k' keys ih =>
    simp only [List.mem_cons, not_or] at h
    rw [List.foldl_cons, ih _ h.2, lookup_removeItem_ne st k k' h.1]

theorem foldl_removeItem_eq_filter (keys : List String) (st : Storage) :
    keys.foldl removeItem st = st.filter (fun p => !keys.contains p.1) := by
  induction keys generalizing st with
  | nil => simp
  | cons k keys ih =>
    rw [List.foldl_cons, ih]
    unfold removeItem
    rw [List.filter_filter]
    congr 1
    funext p
    by_cases h : p.1 = k
    · simp [h]
    · have h' : (p.1 == k) = false := by simpa using h
      simp [h, h', Bool.and_comm]

theorem getItem_setItem_self (st : Storage) (k v : String) :
    getItem (setItem st k v) k = .str v := by
  unfold getItem setItem
  rw [List.lookup_append, lookup_removeItem_self]
  simp [List.lookup_cons]

theorem getItem_setItem_ne (st : Storage) (k k' v : String) (h : k ≠ k') :
    getItem (setItem st k' v) k = getItem st k := by
  unfold getItem setItem
  have hkk : (k == k') = false := by simpa using h
  rw [List.lookup_append, lookup_removeItem_ne st k k' h]
  cases st.lookup k <;> simp [List.lookup_cons, hkk]

theorem getItem_setItemIf_self (other : JsVal → String) (st : Storage) (k : String)
    (v : JsVal) :
    getItem (setItemIf other st k v) k =
      if v.truthy then .str (toJsString other v) else getItem st k := by
  unfold setItemIf
  split
  · exact getItem_setItem_self _ _ _
  · rfl

theorem getItem_setItemIf_ne (other : JsVal → String) (st : Storage) (k k' : String)
    (v : JsVal) (h : k ≠ k') : getItem (setItemIf other st k' v) k = getItem st k := by
  unfold setItemIf
  split
  · exact getItem_setItem_ne _ _ _ _ h
  · rfl

theorem getItem_foldl_removeItem (st : Storage) (k : String) (h : k ∈ sessionKeys) :
    getItem (sessionKeys.foldl removeItem st) k = .null := by
  unfold getItem
  rw [lookup_foldl_removeItem sessionKeys st k h]

/-- C21: from any session state, after `logout` the in-memory user is `null`,
none of the seven session keys is in `localStorage`, and every other key has
the value it had: the storage is the old one without the entries of the
seven keys, in the old order. -/
theorem C21_logout_clears_session (sess : Session) :
    (logout sess).user = none ∧
    (∀ k ∈ sessionKeys, getItem (logout sess).storage k = .null) ∧
    (∀ k, k ∉ sessionKeys → getItem (logout sess).storage k = getItem sess.storage k) ∧
    (logout sess).storage = sess.storage.filter (fun p => !sessionKeys.contains p.1) ∧
    sessionKeys = ["authToken", "userType", "username", "device_token", "organizationName",
      "googleAccessToken", "googleRefreshToken"] := by
  refine ⟨rfl, ?_, ?_, foldl_removeItem_eq_filter _ _, rfl⟩
  · intro k hk
    exact getItem_foldl_removeItem sess.storage k hk
  · intro k hk
    unfold getItem logout
    simp only
    rw [lookup_foldl_removeItem_ne sessionKeys sess.storage k hk]

end AuthContext

namespace AuthContext

/-- The one thing `normalizeUserType` throws is a `TypeError`. -/
theorem normalizeUserType_error (userType : JsVal) (e : Thrown)
    (h : normalizeUserType userType = .error e) : e = .typeError := by
  cases userType with
  | str s =>
    simp only [normalizeUserType] at h
    split at h <;> cases h
  | undefined => cases h; rfl
  | null => cases h; rfl
  | bool b => cases h; rfl
  | num q => cases h; rfl
  | arr r items => cases h; rfl
  | obj r props => cases h; rfl

/-- C23: `login` throws `Missing required login data: authToken, userType, or
username` exactly when `authToken`, `userType` or `username` is falsy, and
when one of them is falsy it returns with `localStorage` and the user state
as they were. -/
theorem C23_missing_login_data (other : JsVal → String) (sess : Session)
    (authToken userType username organizationName googleAccessToken googleRefreshToken
      deviceToken : JsVal) :
    ((login other sess authToken userType username organizationName googleAccessToken
        googleRefreshToken deviceToken).2 =
        .error (.error "Missing required login data: authToken, userType, or username") ↔
      (authToken.truthy = false ∨ userType.truthy = false ∨ username.truthy = false)) ∧
    ((authToken.truthy = false ∨ userType.truthy = false ∨ username.truthy = false) →
      (login other sess authToken userType username organizationName googleAccessToken
        googleRefreshToken deviceToken).1 = sess) := by
  by_cases h : (!authToken.truthy || !userType.truthy || !username.truthy) = true
  · have h' : authToken.truthy = false ∨ userType.truthy = false ∨ username.truthy = false := by
      simpa [or_assoc] using h
    refine ⟨⟨fun _ => h', fun _ => ?_⟩, fun _ => ?_⟩
    · simp only [login, h, if_true]
    · simp only [login, h, if_true]
  · have h' : ¬ (authToken.truthy = false ∨ userType.truthy = false ∨ username.truthy = false) := by
      simpa [or_assoc] using h
    refine ⟨⟨fun hthrow => ?_, fun hf => absurd hf h'⟩, fun hf => absurd hf h'⟩
    exfalso
    have hc := Bool.eq_false_iff.mpr h
    simp only [login, hc, Bool.false_eq_true, if_false] at hthrow
    cases hn : normalizeUserType userType with
    | error e =>
      rw [hn] at hthrow
      have he := normalizeUserType_error userType e hn
      subst he
      simp at hthrow
    | ok n =>
      rw [hn] at hthrow
      simp only at hthrow
      split at hthrow
      · simp at hthrow
      · simp at hthrow

end AuthContext

namespace AuthContext

/-- What the seven writes of `login` leave under each session key, when none
of the keys was there before. -/
theorem getItem_login_storage (other : JsVal → String) (st0 : Storage) (a t u : String)
    (org gat grt dev : JsVal) (h0 : ∀ k ∈ sessionKeys, getItem st0 k = .null) :
    getItem (setItemIf other (setItemIf other (setItemIf other (setItemIf other
        (setItem (setItem (setItem st0 "authToken" a) "userType" t) "username" u)
        "organizationName" org) "googleAccessToken" gat) "googleRefreshToken" grt)
        "device_token" dev) "authToken" = .str a ∧
    getItem (setItemIf other (setItemIf other (setItemIf other (setItemIf other
        (setItem (setItem (setItem st0 "authToken" a) "userType" t) "username" u)
        "organizationName" org) "googleAccessToken" gat) "googleRefreshToken" grt)
        "device_token" dev) "userType" = .str t ∧
    getItem (setItemIf other (setItemIf other (setItemIf other (setItemIf other
        (setItem (setItem (setItem st0 "authToken" a) "userType" t) "username" u)
        "organizationName" org) "googleAccessToken" gat) "googleRefreshToken" grt)
        "device_token" dev) "username" = .str u ∧
    getItem (setItemIf other (setItemIf other (setItemIf other (setItemIf other
        (setItem (setItem (setItem st0 "authToken" a) "userType" t) "username" u)
        "organizationName" org) "googleAccessToken" gat) "googleRefreshToken" grt)
        "device_token" dev) "organizationName" =
      (if org.truthy then .str (toJsString other org) else .null) ∧
    getItem (setItemIf other (setItemIf other (setItemIf other (setItemIf other
        (setItem (setItem (setItem st0 "authToken" a) "userType" t) "username" u)
        "organizationName" org) "googleAccessToken" gat) "googleRefreshToken" grt)
        "device_token" dev) "googleAccessToken" =
      (if gat.truthy then .str (toJsString other gat) else .null) ∧
    getItem (setItemIf other (setItemIf other (setItemIf other (setItemIf other
        (setItem (setItem (setItem st0 "authToken" a) "userType" t) "username" u)
        "organizationName" org) "googleAccessToken" gat) "googleRefreshToken" grt)
        "device_token" dev) "googleRefreshToken" =
      (if grt.truthy then .str (toJsString other grt) else .null) ∧
    getItem (setItemIf other (setItemIf other (setItemIf other (setItemIf other
        (setItem (setItem (setItem st0 "authToken" a) "userType" t) "username" u)
        "organizationName" org) "googleAccessToken" gat) "googleRefreshToken" grt)
        "device_token" dev) "device_token" =
      (if dev.truthy then .str (toJsString other dev) else .null) := by
  refine ⟨?_, ?_, ?_, ?_, ?_, ?_, ?_⟩
  · rw [getItem_setItemIf_ne _ _ _ _ _ (by decide), getItem_setItemIf_ne _ _ _ _ _ (by decide),
      getItem_setItemIf_ne _ _ _ _ _ (by decide), getItem_setItemIf_ne _ _ _ _ _ (by decide),
      getItem_setItem_ne _ _ _ _ (by decide), getItem_setItem_ne _ _ _ _ (by decide),
      getItem_setItem_self]
  · rw [getItem_setItemIf_ne _ _ _ _ _ (by decide), getItem_setItemIf_ne _ _ _ _ _ (by decide),
      getItem_setItemIf_ne _ _ _ _ _ (by decide), getItem_setItemIf_ne _ _ _ _ _ (by decide),
      getItem_setItem_ne _ _ _ _ (by decide), getItem_setItem_self]
  · rw [getItem_setItemIf_ne _ _ _ _ _ (by decide), getItem_setItemIf_ne _ _ _ _ _ (by decide),
      getItem_setItemIf_ne _ _ _ _ _ (by decide), getItem_setItemIf_ne _ _ _ _ _ (by decide),
      getItem_setItem_self]
  · rw [getItem_setItemIf_ne _ _ _ _ _ (by decide), getItem_setItemIf_ne _ _ _ _ _ (by decide),
      getItem_setItemIf_ne _ _ _ _ _ (by decide), getItem_setItemIf_self,
      getItem_setItem_ne _ _ _ _ (by decide), getItem_setItem_ne _ _ _ _ (by decide),
      getItem_setItem_ne _ _ _ _ (by decide), h0 _ (by decide)]
  · rw [getItem_setItemIf_ne _ _ _ _ _ (by decide), getItem_setItemIf_ne _ _ _ _ _ (by decide),
      getItem_setItemIf_self, getItem_setItemIf_ne _ _ _ _ _ (by decide),
      getItem_setItem_ne _ _ _ _ (by decide), getItem_setItem_ne _ _ _ _ (by decide),
      getItem_setItem_ne _ _ _ _ (by decide), h0 _ (by decide)]
  · rw [getItem_setItemIf_ne _ _ _ _ _ (by decide), getItem_setItemIf_self,
      getItem_setItemIf_ne _ _ _ _ _ (by decide), getItem_setItemIf_ne _ _ _ _ _ (by decide),
      getItem_setItem_ne _ _ _ _ (by decide), getItem_setItem_ne _ _ _ _ (by decide),
      getItem_setItem_ne _ _ _ _ (by decide), h0 _ (by decide)]
  · rw [getItem_setItemIf_self, getItem_setItemIf_ne _ _ _ _ _ (by decide),
      getItem_setItemIf_ne _ _ _ _ _ (by decide), getItem_setItemIf_ne _ _ _ _ _ (by decide),
      getItem_setItem_ne _ _ _ _ (by decide), getItem_setItem_ne _ _ _ _ (by decide),
      getItem_setItem_ne _ _ _ _ (by decide), h0 _ (by decide)]

/-- The normalised user type of a non-empty string is a non-empty string. -/
theorem normalizeUserType_str (t : String) (ht : t ≠ "") :
    ∃ n, normalizeUserType (.str t) = .ok (.str n) ∧ n ≠ "" ∧
      (n = "Patient" ∨ n = t) := by
  by_cases h : (asciiLower t == "patient") = true
  · exact ⟨"Patient", by simp only [normalizeUserType, h, if_true], by decide, Or.inl rfl⟩
  · exact ⟨t, by simp only [normalizeUserType, h, Bool.false_eq_true, if_false], ht, Or.inr rfl⟩

/-- What `login` does when its three required arguments are non-empty
strings: it succeeds, and the storage holds the session. -/
theorem login_strings (other : JsVal → String) (sess : Session) (a t u n : String)
    (org gat grt dev : JsVal) (ha : a ≠ "") (ht : t ≠ "") (hu : u ≠ "")
    (hn : normalizeUserType (.str t) = .ok (.str n)) :
    ∃ st, login other sess (.str a) (.str t) (.str u) org gat grt dev =
        ({ user := some
             { authToken := .str a, userType := .str n, username := .str u,
               deviceToken := (orNull dev).or .null,
               organizationName := (orNull org).or .null,
               googleAccessToken := (orNull gat).or .null,
               googleRefreshToken := (orNull grt).or .null },
           storage := st },
         .ok (if (JsVal.str n).isStr "Patient" then "/user/dashboard" else "/doctor/dashboard")) ∧
      getItem st "authToken" = .str a ∧ getItem st "userType" = .str n ∧
      getItem st "username" = .str u ∧
      getItem st "organizationName" =
        (if (orNull org).truthy then .str (toJsString other (orNull org)) else .null) ∧
      getItem st "googleAccessToken" =
        (if (orNull gat).truthy then .str (toJsString other (orNull gat)) else .null) ∧
      getItem st "googleRefreshToken" =
        (if (orNull grt).truthy then .str (toJsString other (orNull grt)) else .null) ∧
      getItem st "device_token" =
        (if (orNull dev).truthy then .str (toJsString other (orNull dev)) else .null) ∧
      ∀ k, k ∉ sessionKeys → getItem st k = getItem sess.storage k := by
  have hst := getItem_login_storage other (sessionKeys.foldl removeItem sess.storage) a n u
    (orNull org) (orNull gat) (orNull grt) (orNull dev)
    (fun k hk => getItem_foldl_removeItem sess.storage k hk)
  obtain ⟨h1, h2, h3, h4, h5, h6, h7⟩ := hst
  refine ⟨_, ?_, h1, h2, h3, h4, h5, h6, h7, ?_⟩
  · have hta : (JsVal.str a).truthy = true := by simp [JsVal.truthy, ha]
    have htt : (JsVal.str t).truthy = true := by simp [JsVal.truthy, ht]
    have htu : (JsVal.str u).truthy = true := by simp [JsVal.truthy, hu]
    simp only [login, hta, htt, htu, hn, toJsString, h1, JsVal.strictEq, beq_self_eq_true,
      Bool.not_true, Bool.or_self, Bool.false_eq_true, if_false]
  · intro k hk
    have hk' : ∀ k' ∈ sessionKeys, k ≠ k' := fun k' hk' e => hk (e ▸ hk')
    rw [getItem_setItemIf_ne _ _ _ _ _ (hk' _ (by decide)),
      getItem_setItemIf_ne _ _ _ _ _ (hk' _ (by decide)),
      getItem_setItemIf_ne _ _ _ _ _ (hk' _ (by decide)),
      getItem_setItemIf_ne _ _ _ _ _ (hk' _ (by decide)),
      getItem_setItem_ne _ _ _ _ (hk' _ (by decide)),
      getItem_setItem_ne _ _ _ _ (hk' _ (by decide)),
      getItem_setItem_ne _ _ _ _ (hk' _ (by decide))]
    unfold getItem
    rw [lookup_foldl_removeItem_ne sessionKeys sess.storage k hk]

/-- Storing an optional string and reading it back with `|| null` gives what
`|| null` makes of the argument itself. -/
theorem optionalString_round_trip (other : JsVal → String) (v : JsVal)
    (h : OptionalString v) :
    (if (orNull v).truthy then JsVal.str (toJsString other (orNull v)) else JsVal.null).or .null =
      (orNull v).or .null := by
  rcases h with rfl | rfl | ⟨s, rfl⟩
  · rfl
  · rfl
  · by_cases hs : s = ""
    · subst hs; rfl
    · simp [orNull, JsVal.truthy, hs, toJsString, JsVal.or]

/-- C28: for non-empty strings `authToken`, `userType`, `username` and
optional strings in the other four places, `login` succeeds, and the user
object it puts in state is the one `initializeAuth` rebuilds from
`localStorage` after a reload (user state `null`, same storage), which then
navigates nowhere and leaves the storage as it is. -/
theorem C28_login_reload_round_trip (other : JsVal → String) (sess : Session)
    (a t u : String) (org gat grt dev : JsVal)
    (ha : a ≠ "") (ht : t ≠ "") (hu : u ≠ "")
    (horg : OptionalString org) (hgat : OptionalString gat) (hgrt : OptionalString grt)
    (hdev : OptionalString dev) :
    ∃ usr path,
      (login other sess (.str a) (.str t) (.str u) org gat grt dev).2 = .ok path ∧
      (login other sess (.str a) (.str t) (.str u) org gat grt dev).1.user = some usr ∧
      initializeAuth
          { user := none,
            storage := (login other sess (.str a) (.str t) (.str u) org gat grt dev).1.storage } =
        ({ user := some usr,
           storage := (login other sess (.str a) (.str t) (.str u) org gat grt dev).1.storage },
         none) := by
  obtain ⟨n, hn, hne, _⟩ := normalizeUserType_str t ht
  obtain ⟨st, hl, h1, h2, h3, h4, h5, h6, h7, _⟩ :=
    login_strings other sess a t u n org gat grt dev ha ht hu hn
  rw [hl]
  refine ⟨_, _, rfl, rfl, ?_⟩
  have hta : (JsVal.str a).truthy = true := by simp [JsVal.truthy, ha]
  have htn : (JsVal.str n).truthy = true := by simp [JsVal.truthy, hne]
  have htu : (JsVal.str u).truthy = true := by simp [JsVal.truthy, hu]
  simp only [initializeAuth, h1, h2, h3, h4, h5, h6, h7, hta, htn, htu, Bool.and_self, if_true,
    optionalString_round_trip other _ horg, optionalString_round_trip other _ hgat,
    optionalString_round_trip other _ hgrt, optionalString_round_trip other _ hdev]

/-- Witness for `C28_login_reload_round_trip`: a patient who logs in with a
device token. -/
theorem C28_login_reload_round_trip_witness :
    (initializeAuth
      { user := none,
        storage := (login (fun _ => "") ⟨none, []⟩ (.str "tok") (.str "patient") (.str "u")
          .null .null .null (.str "d1")).1.storage }).1.user =
    (login (fun _ => "") ⟨none, []⟩ (.str "tok") (.str "patient") (.str "u")
      .null .null .null (.str "d1")).1.user := by
  obtain ⟨usr, path, _, h2, h3⟩ := C28_login_reload_round_trip (fun _ => "") ⟨none, []⟩
    "tok" "patient" "u" .null .null .null (.str "d1") (by decide) (by decide) (by decide)
    (Or.inr (Or.inl rfl)) (Or.inr (Or.inl rfl)) (Or.inr (Or.inl rfl)) (Or.inr (Or.inr ⟨_, rfl⟩))
  rw [h3, h2]

end AuthContext

namespace AuthContext

theorem toJsString_str (other : JsVal → String) (s : String) :
    toJsString other (.str s) = s := rfl

/-- Normalising twice is normalising once. -/
theorem normalizeUserType_idem (x y : JsVal) (h : normalizeUserType x = .ok y) :
    normalizeUserType y = .ok y := by
  cases x with
  | str s =>
    by_cases hs : (asciiLower s == "patient") = true
    · simp only [normalizeUserType, hs, if_true] at h
      cases h
      rfl
    · simp only [normalizeUserType, hs, Bool.false_eq_true, if_false] at h
      cases h
      simp only [normalizeUserType, hs, Bool.false_eq_true, if_false]
  | undefined => cases h
  | null => cases h
  | bool b => cases h
  | num q => cases h
  | arr r items => cases h
  | obj r props => cases h

end AuthContext

open AuthContext in
/-- C29: when `login` succeeds for a `userType` that is `patient` in some
letter case, `localStorage` holds the `userType` `Patient` (as does the user
state), the redirect it schedules goes to `/user/dashboard`, and
`PrivateRoute` renders the nested routes for the storage `login` leaves.
Normalising `Patient` gives `Patient`, and normalising any normalised value
gives the same value. -/
theorem C29_patient_login (other : JsVal → String) (sess : Session) (t path : String)
    (authToken username organizationName googleAccessToken googleRefreshToken
      deviceToken : JsVal)
    (hcase : asciiLower t = "patient")
    (hok : (login other sess authToken (.str t) username organizationName googleAccessToken
      googleRefreshToken deviceToken).2 = .ok path) :
    getItem (login other sess authToken (.str t) username organizationName googleAccessToken
      googleRefreshToken deviceToken).1.storage "userType" = .str "Patient" ∧
    (login other sess authToken (.str t) username organizationName googleAccessToken
      googleRefreshToken deviceToken).1.user.map (fun usr => usr.userType) =
        some (.str "Patient") ∧
    path = "/user/dashboard" ∧
    PrivateRoute (login other sess authToken (.str t) username organizationName
      googleAccessToken googleRefreshToken deviceToken).1.storage = .outlet ∧
    normalizeUserType (.str "Patient") = .ok (.str "Patient") ∧
    ∀ x y, normalizeUserType x = .ok y → normalizeUserType y = .ok y := by
  have hn : normalizeUserType (.str t) = .ok (.str "Patient") := by
    simp [normalizeUserType, hcase]
  obtain ⟨h1, h2, _⟩ := getItem_login_storage other (sessionKeys.foldl removeItem sess.storage)
    (toJsString other authToken) "Patient" (toJsString other username)
    (orNull organizationName) (orNull googleAccessToken) (orNull googleRefreshToken)
    (orNull deviceToken) (fun k hk => getItem_foldl_removeItem sess.storage k hk)
  by_cases hc : (!authToken.truthy || !(JsVal.str t).truthy || !username.truthy) = true
  · simp only [login, hc, if_true] at hok
    cases hok
  · have hc' := Bool.eq_false_iff.mpr hc
    have hta : authToken.truthy = true := by
      cases h : authToken.truthy
      · simp [h] at hc'
      · rfl
    by_cases hs : (JsVal.str (toJsString other authToken)).strictEq authToken = true
    · have hauth : authToken = .str (toJsString other authToken) := by
        cases authToken <;> simp [JsVal.strictEq, toJsString] at hs ⊢
      have htok : (JsVal.str (toJsString other authToken)).truthy = true := by
        rw [← hauth]; exact hta
      simp only [login, hc', hn, toJsString_str, h1, hs, Bool.not_true, Bool.false_eq_true, if_false]
        at hok ⊢
      refine ⟨h2, rfl, ?_, ?_, rfl, normalizeUserType_idem⟩
      · have := Except.ok.inj hok
        rw [← this]
        rfl
      · simp only [PrivateRoute, h1, h2, htok, JsVal.isStr, beq_self_eq_true, Bool.and_self,
          Bool.false_eq_true, if_false, if_true]
    · have hs' := Bool.eq_false_iff.mpr hs
      simp only [login, hc', hn, toJsString_str, h1, hs', Bool.not_false, if_true,
        Bool.false_eq_true, if_false] at hok
      cases hok

/-- Witness for `C29_patient_login`: the role `PATIENT` in capitals. -/
theorem C29_patient_login_witness :
    PrivateRoute (AuthContext.login (fun _ => "") ⟨none, []⟩ (.str "tok") (.str "PATIENT")
      (.str "u") .null .null .null (.str "d1")).1.storage = .outlet :=
  (C29_patient_login (fun _ => "") ⟨none, []⟩ "PATIENT" "/user/dashboard" (.str "tok")
    (.str "u") .null .null .null (.str "d1") (by decide) rfl).2.2.2.1

/-! ## RealtimeHeartRate: both shapes of `heart_rate` -/

namespace Realtime

/-- The value `x.value !== undefined ? x.value : x` picks from a number is the
number, and from an object with a `value` that is not `undefined` the
`value`. -/
theorem valueOrSelf_cases (reading v : JsVal)
    (hv : (∃ q, reading = .num q ∧ v = .num q) ∨
      (∃ o oprops, reading = .obj o oprops ∧ propOf oprops "value" = v ∧ v ≠ .undefined)) :
    valueOrSelf reading = .ok v := by
  rcases hv with ⟨q, rfl, rfl⟩ | ⟨o, oprops, rfl, hval, hne⟩
  · rfl
  · have hval' : (oprops.lookup "value").getD JsVal.undefined = v := hval
    have hs : v.strictEq .undefined = false := by
      cases v <;> simp [JsVal.strictEq] at hne ⊢
    simp [valueOrSelf, JsVal.getProp, hval', hs, bind, Except.bind, pure, Except.pure]

/-- C22: in `RealtimeHeartRate`, for every accepted frame (topic
`healthcare/iot`, type `mqtt_data`, truthy `data.heart_rate`) with a valid
timestamp whose `heart_rate` is the number `v` or an object with `value: v`,
the handler appends a sample with `heartrate: v` and sets the latest reading
to `heartrate: v` with the frame's timestamp; nothing else of the state
changes. -/
theorem C22_heart_rate_value (env : Env) (s : State) (raw : String) (r d : Nat)
    (props dprops : List (String × JsVal)) (reading v : JsVal) (date : Int)
    (hparse : env.jsonParse raw = .ok (.obj r props))
    (htopic : (propOf props "topic").isStr "healthcare/iot" = true)
    (htype : (propOf props "message_type").isStr "mqtt_data" = true)
    (hdata : propOf props "data" = .obj d dprops)
    (hreading : propOf dprops "heart_rate" = reading)
    (htruthy : reading.truthy = true)
    (hdate : env.newDate (propOf dprops "timestamp") = .ok (some date))
    (hv : (∃ q, reading = .num q ∧ v = .num q) ∨
      (∃ o oprops, reading = .obj o oprops ∧ propOf oprops "value" = v ∧ v ≠ .undefined)) :
    onmessage .heartRate env s raw =
      .ok { s with
            latest := some ⟨[("heartrate", v)], propOf dprops "timestamp"⟩,
            realtimeData := pushSample s.realtimeData
              ⟨date, env.toLocaleString date, [("heartrate", v)]⟩ } := by
  have hvs := valueOrSelf_cases reading v hv
  have htopic' : ((props.lookup "topic").getD JsVal.undefined).isStr "healthcare/iot" = true :=
    htopic
  have htype' : ((props.lookup "message_type").getD JsVal.undefined).isStr "mqtt_data" = true :=
    htype
  have hdata' : (props.lookup "data").getD JsVal.undefined = .obj d dprops := hdata
  have hreading' : (dprops.lookup "heart_rate").getD JsVal.undefined = reading := hreading
  have hdate' : env.newDate ((dprops.lookup "timestamp").getD JsVal.undefined) =
      .ok (some date) := hdate
  simp [onmessage, onmessageTry, accepted, Vital.key, Vital.sampleValues, Vital.latestValues,
    hparse, JsVal.getProp, htopic', htype', hdata', hreading', htruthy, hdate', hvs, propOf,
    tryCatch, tryCatchThe, MonadExceptOf.tryCatch, Except.tryCatch, bind, Except.bind, pure,
    Except.pure]

/-- Witness for `C22_heart_rate_value`: a frame with `heart_rate: 72`. -/
theorem C22_heart_rate_value_witness :
    (onmessage .heartRate
      ⟨fun _ => .ok (.obj 0 [("topic", .str "healthcare/iot"), ("message_type", .str "mqtt_data"),
          ("data", .obj 1 [("heart_rate", .num 72), ("timestamp", .str "T")])]),
        fun _ => .ok (some 1000), fun _ => "12:00:00"⟩
      State.opened "frame").map (fun s => s.realtimeData.map (fun p => p.values)) =
    .ok [[("heartrate", .num 72)]] := by
  rw [C22_heart_rate_value
    ⟨fun _ => .ok (.obj 0 [("topic", .str "healthcare/iot"), ("message_type", .str "mqtt_data"),
        ("data", .obj 1 [("heart_rate", .num 72), ("timestamp", .str "T")])]),
      fun _ => .ok (some 1000), fun _ => "12:00:00"⟩
    State.opened "frame" 0 1
    [("topic", .str "healthcare/iot"), ("message_type", .str "mqtt_data"),
      ("data", .obj 1 [("heart_rate", .num 72), ("timestamp", .str "T")])]
    [("heart_rate", .num 72), ("timestamp", .str "T")] (.num 72) (.num 72) 1000
    rfl rfl rfl rfl rfl (by decide) rfl (Or.inl ⟨72, rfl, rfl⟩)]
  rfl

end Realtime

/-! ## Notification handlers: the `error` field -/

namespace NotificationPopup

/-- What the popup does with a notification frame whose message can be
cleaned. -/
theorem popup_onmessage_notification (env : Notifications.Env) (v : View) (raw : String)
    (ref : Nat) (props : List (String × JsVal)) (d : Notifications.Decoded)
    (hparse : env.jsonParse raw = .ok (.obj ref props))
    (htype : (propOf props "type").isStr "notification" = true)
    (hd : Notifications.decode env (.obj ref props) = .ok d) :
    onmessage env v raw = .ok { v with popups := v.popups ++ [d] } := by
  have htype' : ((props.lookup "type").getD JsVal.undefined).isStr "notification" = true := htype
  simp [onmessage, onmessageTry, hparse, JsVal.getProp, htype', hd, tryCatch, tryCatchThe,
    MonadExceptOf.tryCatch, Except.tryCatch, bind, Except.bind, pure, Except.pure]

/-- A notification frame whose message cannot be cleaned is dropped by the
popup. -/
theorem popup_onmessage_notification_error (env : Notifications.Env) (v : View)
    (raw : String) (ref : Nat) (props : List (String × JsVal)) (e : JsError)
    (hparse : env.jsonParse raw = .ok (.obj ref props))
    (htype : (propOf props "type").isStr "notification" = true)
    (hd : Notifications.decode env (.obj ref props) = .error e) :
    onmessage env v raw = .ok v := by
  have htype' : ((props.lookup "type").getD JsVal.undefined).isStr "notification" = true := htype
  simp [onmessage, onmessageTry, hparse, JsVal.getProp, htype', hd, tryCatch, tryCatchThe,
    MonadExceptOf.tryCatch, Except.tryCatch, bind, Except.bind, pure, Except.pure]

end NotificationPopup

/-- C25: in the three notification handlers (header, Notifications page,
popup), a JSON object whose `type` is not `notification` and whose `error`
field is truthy makes the handler call `ws.close()` and change nothing else.
An object of type `notification` takes the notification branch whatever its
`error` field is: the socket is left as it is, and when its message is a
string or falsy a record built from the frame goes to the updater of the
header and of the page and to the end of the popup list. -/
theorem C25_error_field (env : Header.Env) (raw : String) (ref : Nat)
    (props : List (String × JsVal))
    (hparse : env.jsonParse raw = .ok (.obj ref props)) :
    ((propOf props "type").isStr "notification" = false →
      (propOf props "error").truthy = true →
      (∀ v : Header.View, Header.onmessage env v raw = .ok { v with ws := v.ws.close }) ∧
      (∀ v : Notifications.View,
        Notifications.onmessage env v raw = .ok { v with ws := v.ws.close }) ∧
      (∀ v : NotificationPopup.View,
        NotificationPopup.onmessage env v raw = .ok { v with ws := v.ws.close })) ∧
    ((propOf props "type").isStr "notification" = true →
      (∀ v : Header.View, ∃ v', Header.onmessage env v raw = .ok v' ∧ v'.ws = v.ws) ∧
      (∀ v : Notifications.View,
        ∃ v', Notifications.onmessage env v raw = .ok v' ∧ v'.ws = v.ws) ∧
      (∀ v : NotificationPopup.View,
        ∃ v', NotificationPopup.onmessage env v raw = .ok v' ∧ v'.ws = v.ws) ∧
      (((propOf props "message").truthy = false ∨ ∃ m, propOf props "message" = .str m) →
        (∀ v : Header.View, ∃ n, Header.onmessage env v raw =
          .ok { v with notifications := Header.addNotification v.notifications n }) ∧
        ∃ d, Notifications.decode env (.obj ref props) = .ok d ∧
          (∀ v : Notifications.View, Notifications.onmessage env v raw =
            .ok { v with notifications :=
                    Notifications.addNotification v.notifications ⟨d, true⟩ }) ∧
          (∀ v : NotificationPopup.View, NotificationPopup.onmessage env v raw =
            .ok { v with popups := v.popups ++ [d] }))) := by
  constructor
  · intro htype herr
    have htype' : ((props.lookup "type").getD JsVal.undefined).isStr "notification" = false :=
      htype
    have herr' : ((props.lookup "error").getD JsVal.undefined).truthy = true := herr
    refine ⟨fun v => ?_, fun v => ?_, fun v => ?_⟩
    · simp [Header.onmessage, Header.onmessageTry, hparse, JsVal.getProp, htype', herr',
        tryCatch, tryCatchThe, MonadExceptOf.tryCatch, Except.tryCatch, bind, Except.bind,
        pure, Except.pure]
    · simp [Notifications.onmessage, Notifications.onmessageTry, hparse, JsVal.getProp, htype',
        herr', tryCatch, tryCatchThe, MonadExceptOf.tryCatch, Except.tryCatch, bind,
        Except.bind, pure, Except.pure]
    · simp [NotificationPopup.onmessage, NotificationPopup.onmessageTry, hparse, JsVal.getProp,
        htype', herr', tryCatch, tryCatchThe, MonadExceptOf.tryCatch, Except.tryCatch, bind,
        Except.bind, pure, Except.pure]
  · intro htype
    refine ⟨fun v => ?_, fun v => ?_, fun v => ?_, fun hmsg => ⟨fun v => ?_, ?_⟩⟩
    · rcases Header.header_onmessage_notification env v raw ref props hparse htype with
        ⟨h1, _⟩ | ⟨n, h1, _⟩
      · exact ⟨v, h1, rfl⟩
      · exact ⟨_, h1, rfl⟩
    · cases hd : Notifications.decode env (.obj ref props) with
      | error e =>
        exact ⟨v, Notifications.onmessage_notification_error env v raw ref props e hparse
          htype hd, rfl⟩
      | ok d =>
        exact ⟨_, Notifications.onmessage_notification env v raw ref props d hparse htype hd,
          rfl⟩
    · cases hd : Notifications.decode env (.obj ref props) with
      | error e =>
        exact ⟨v, NotificationPopup.popup_onmessage_notification_error env v raw ref props e
          hparse htype hd, rfl⟩
      | ok d =>
        exact ⟨_, NotificationPopup.popup_onmessage_notification env v raw ref props d hparse
          htype hd, rfl⟩
    · rcases Header.header_onmessage_notification env v raw ref props hparse htype with
        ⟨_, h1, h2⟩ | ⟨n, h1, _⟩
      · rcases hmsg with hf | ⟨m, hm⟩
        · rw [hf] at h1; cases h1
        · exact absurd hm (h2 m)
      · exact ⟨n, h1⟩
    · obtain ⟨clean, hclean⟩ := Notifications.cleanMessage_ok _ hmsg
      obtain ⟨d, hd, _⟩ := Notifications.decode_obj env ref props clean hclean
      exact ⟨d, hd,
        fun v => Notifications.onmessage_notification env v raw ref props d hparse htype hd,
        fun v => NotificationPopup.popup_onmessage_notification env v raw ref props d hparse
          htype hd⟩

/-- Witness for `C25_error_field`: a notification that also carries an
`error` field is added to the header list and the socket stays open. -/
theorem C25_error_field_witness :
    ∃ v', Header.onmessage
        ⟨fun _ => .ok (.obj 0 [("type", .str "notification"), ("id", .str "n1"),
          ("message", .str "Dr. Silva accepted"), ("error", .str "boom")]), 0, "r", "now"⟩
        ⟨[], ⟨.str "t", .OPEN, .stopHeartbeat, some 15000, []⟩⟩ "frame" = .ok v' ∧
      v'.ws = ⟨.str "t", .OPEN, .stopHeartbeat, some 15000, []⟩ :=
  ((C25_error_field
    ⟨fun _ => .ok (.obj 0 [("type", .str "notification"), ("id", .str "n1"),
      ("message", .str "Dr. Silva accepted"), ("error", .str "boom")]), 0, "r", "now"⟩
    "frame" 0 [("type", .str "notification"), ("id", .str "n1"),
      ("message", .str "Dr. Silva accepted"), ("error", .str "boom")] rfl).2 rfl).1
    ⟨[], ⟨.str "t", .OPEN, .stopHeartbeat, some 15000, []⟩⟩

/-! ## detectHealthAnomalies: temperatures -/

namespace Notifications

/-- Without the letter `f` in the message, a reading between 35.5 and 38.5 is
no temperature anomaly. -/
theorem temperatureAnomaly_celsius_normal (message : String) (caps : Regex.Captures) (temp : ℚ)
    (hs : temperatureRe.search message.toList = some caps)
    (hp : parseFloatDigits (Regex.capture caps 1) = some temp)
    (hlo : 35.5 ≤ temp) (hhi : temp ≤ 38.5)
    (hf : includes (asciiLower message).toList ['f'] = false) :
    temperatureAnomaly message = none := by
  have h1 : ¬ (temp > 38.5 ∨ temp < 35.5) := by
    rintro (h | h)
    · exact absurd hhi (not_le.mpr h)
    · exact absurd hlo (not_le.mpr h)
  simp only [temperatureAnomaly, hs, hp, hf, Bool.false_eq_true, if_false, h1]

/-- With the letter `f` anywhere in the message, the reading is converted
from Fahrenheit before it is compared. -/
theorem temperatureAnomaly_with_f (message : String) (caps : Regex.Captures) (temp : ℚ)
    (hs : temperatureRe.search message.toList = some caps)
    (hp : parseFloatDigits (Regex.capture caps 1) = some temp)
    (hf : includes (asciiLower message).toList ['f'] = true) :
    temperatureAnomaly message =
      if (temp - 32) * 5 / 9 > 38.5 ∨ (temp - 32) * 5 / 9 < 35.5 then
        some (.temperature temp
          (if (temp - 32) * 5 / 9 > 40 ∨ (temp - 32) * 5 / 9 < 35 then "critical" else "warning"))
      else none := by
  simp only [temperatureAnomaly, hs, hp, hf, if_true]

/-- C26 (defect exhibited): for the `iot_data` message
`Body temperature of 37.0°C` `detectHealthAnomalies` reports a critical
temperature anomaly: the word `of` contains an `f`, so the reading is taken
for Fahrenheit and compared as 2.8 degrees.  The same reading in a message
without the letter `f` is no anomaly, as is every reading between 35.5 and
38.5 in such a message. -/
theorem C26_celsius_read_as_fahrenheit :
    detectHealthAnomalies (fun _ => .error .syntaxError) "Body temperature of 37.0°C"
      (.str "iot_data") = some (.temperature 37 "critical") ∧
    detectHealthAnomalies (fun _ => .error .syntaxError) "Body temperature 37.0°C"
      (.str "iot_data") = none ∧
    (∀ (message : String) (caps : Regex.Captures) (temp : ℚ),
      temperatureRe.search message.toList = some caps →
      parseFloatDigits (Regex.capture caps 1) = some temp →
      35.5 ≤ temp → temp ≤ 38.5 →
      (includes (asciiLower message).toList ['f'] = false → temperatureAnomaly message = none) ∧
      (includes (asciiLower message).toList ['f'] = true →
        temperatureAnomaly message = some (.temperature temp "critical"))) := by
  have hparts : decimalParts "37.0".toList = some (370, 1) := by decide
  have hfloat : parseFloatDigits "37.0".toList = some 37 := by
    simp only [parseFloatDigits, hparts, Option.map_some']
    norm_num
  refine ⟨?_, ?_, ?_⟩
  · have hs : temperatureRe.search "Body temperature of 37.0°C".toList =
        some [none, some "37.0".toList] := by rfl
    have hf : includes (asciiLower "Body temperature of 37.0°C").toList ['f'] = true := by rfl
    have ht := temperatureAnomaly_with_f "Body temperature of 37.0°C" _ 37 hs hfloat hf
    have hne : ("Body temperature of 37.0°C" : String) ≠ "" := by decide
    have h1 : parseHealthAnalysis (fun _ => .error .syntaxError) "Body temperature of 37.0°C"
        = none := by rfl
    have h2 : heartRateAnomaly "Body temperature of 37.0°C" = none := by rfl
    have h3 : bloodPressureAnomaly "Body temperature of 37.0°C" = none := by rfl
    have h4 : (JsVal.str "iot_data").isStr "iot_data" = true := by rfl
    simp only [detectHealthAnomalies, hne, if_false, h1, h2, h3, h4, if_true, ht]
    norm_num
  · have hs : temperatureRe.search "Body temperature 37.0°C".toList =
        some [none, some "37.0".toList] := by rfl
    have hf : includes (asciiLower "Body temperature 37.0°C").toList ['f'] = false := by rfl
    have ht := temperatureAnomaly_celsius_normal "Body temperature 37.0°C" _ 37 hs hfloat
      (by norm_num) (by norm_num) hf
    have hne : ("Body temperature 37.0°C" : String) ≠ "" := by decide
    have h1 : parseHealthAnalysis (fun _ => .error .syntaxError) "Body temperature 37.0°C"
        = none := by rfl
    have h2 : heartRateAnomaly "Body temperature 37.0°C" = none := by rfl
    have h3 : bloodPressureAnomaly "Body temperature 37.0°C" = none := by rfl
    have h4 : (JsVal.str "iot_data").isStr "iot_data" = true := by rfl
    have h5 : oxygenAnomaly "Body temperature 37.0°C" = none := by rfl
    have h6 : anomalyKeywords.any
        (fun keyword => includes (asciiLower "Body temperature 37.0°C").toList keyword.toList)
        = false := by rfl
    simp only [detectHealthAnomalies, hne, if_false, h1, h2, h3, h4, h5, h6, if_true, ht,
      Bool.false_eq_true]
  · intro message caps temp hs hp hlo hhi
    refine ⟨temperatureAnomaly_celsius_normal message caps temp hs hp hlo hhi, fun hf => ?_⟩
    rw [temperatureAnomaly_with_f message caps temp hs hp hf]
    have h1 : (temp - 32) * 5 / 9 < 35 := by
      have : temp ≤ 38.5 := hhi
      norm_num at this ⊢
      linarith
    have h2 : (temp - 32) * 5 / 9 > 38.5 ∨ (temp - 32) * 5 / 9 < 35.5 := by
      right
      have : (35 : ℚ) < 35.5 := by norm_num
      exact lt_trans h1 this
    simp only [h2, if_true, h1, or_true]

end Notifications

/-! ## Token refresh: what becomes of the refresh token -/

namespace AuthContext

/-- What a successful `login` call with five arguments, as `refreshToken`
makes it, leaves in the session: the fourth argument lands in
`organizationName`, the fifth in `googleAccessToken`, and
`googleRefreshToken` is `null`. -/
theorem login_five_arguments (other : JsVal → String) (sess sess' : Session) (path : String)
    (authToken userType username fourth fifth : JsVal)
    (h : login other sess authToken userType username fourth fifth .undefined .undefined =
      (sess', .ok path)) :
    sess'.user.map (fun u => u.googleRefreshToken) = some .null ∧
    sess'.user.map (fun u => u.googleAccessToken) = some (fifth.or .null) ∧
    sess'.user.map (fun u => u.organizationName) = some (fourth.or .null) ∧
    getItem sess'.storage "googleRefreshToken" = .null := by
  have hor : ∀ v : JsVal, (orNull v).or .null = v.or .null := by
    intro v; cases v <;> rfl
  unfold login at h
  simp only at h
  split at h
  · cases h
  · split at h
    · cases h
    · next n hn =>
      split at h
      · cases h
      · obtain ⟨_, _, _, _, _, h6, _⟩ := getItem_login_storage other
          (sessionKeys.foldl removeItem sess.storage) (toJsString other authToken)
          (toJsString other n) (toJsString other username) (orNull fourth) (orNull fifth)
          (orNull .undefined) (orNull .undefined)
          (fun k hk => getItem_foldl_removeItem sess.storage k hk)
        cases h
        exact ⟨rfl, by simp only [Option.map_some', hor], by simp only [Option.map_some', hor],
          h6⟩

end AuthContext

open AuthContext in
/-- C27 (refuted as stated): `refreshToken` calls
`login(authToken, user.userType, user.username, googleAccessToken,
user.googleRefreshToken)`, so the refresh token lands in the parameter
`googleAccessToken` and `googleRefreshToken` takes its default `null`.  After
the successful refresh of the example the user state has
`googleRefreshToken: null`, the key `googleRefreshToken` is gone from
`localStorage`, the old refresh token `r` is stored as `googleAccessToken`,
and the next `refreshToken` returns `null` for want of a refresh token.  The
same holds after every successful refresh. -/
theorem C27_refresh_token_lost :
    (Header.refreshToken (fun _ => "")
      (some ⟨.str "old", .str "Patient", .str "u", .null, .null, .str "g0", .str "r"⟩)
      ⟨some ⟨.str "old", .str "Patient", .str "u", .null, .null, .str "g0", .str "r"⟩,
       [("authToken", "old"), ("userType", "Patient"), ("username", "u"),
        ("googleAccessToken", "g0"), ("googleRefreshToken", "r")]⟩
      (.response true (.ok (.obj 0 [("authToken", .str "t"), ("googleAccessToken", .str "g1")]))))
      = (.str "t",
         ⟨some ⟨.str "t", .str "Patient", .str "u", .null, .str "g1", .str "r", .null⟩,
          [("authToken", "t"), ("userType", "Patient"), ("username", "u"),
           ("organizationName", "g1"), ("googleAccessToken", "r")]⟩) ∧
    Header.refreshToken (fun _ => "")
      (some ⟨.str "t", .str "Patient", .str "u", .null, .str "g1", .str "r", .null⟩)
      ⟨some ⟨.str "t", .str "Patient", .str "u", .null, .str "g1", .str "r", .null⟩,
       [("authToken", "t"), ("userType", "Patient"), ("username", "u"),
        ("organizationName", "g1"), ("googleAccessToken", "r")]⟩
      (.response true (.ok (.obj 0 [("authToken", .str "t2"), ("googleAccessToken", .str "g2")])))
      = (.null,
         ⟨some ⟨.str "t", .str "Patient", .str "u", .null, .str "g1", .str "r", .null⟩,
          [("authToken", "t"), ("userType", "Patient"), ("username", "u"),
           ("organizationName", "g1"), ("googleAccessToken", "r")]⟩) ∧
    (∀ (other : JsVal → String) (u : User) (sess sess' : Session) (path : String)
        (authToken googleAccessToken : JsVal),
      login other sess authToken u.userType u.username googleAccessToken u.googleRefreshToken
        .undefined .undefined = (sess', .ok path) →
      sess'.user.map (fun usr => usr.googleRefreshToken) = some .null ∧
      sess'.user.map (fun usr => usr.googleAccessToken) = some (u.googleRefreshToken.or .null) ∧
      getItem sess'.storage "googleRefreshToken" = .null) := by
  refine ⟨rfl, rfl, ?_⟩
  intro other u sess sess' path authToken googleAccessToken h
  obtain ⟨h1, h2, _, h4⟩ := login_five_arguments other sess sess' path authToken u.userType
    u.username googleAccessToken u.googleRefreshToken h
  exact ⟨h1, h2, h4⟩

/-! ## Notifications page: grouping by day -/

namespace Notifications

/-- The groups are the elements whose `diff` is below 1, from 1 to below 2,
and the rest, each in input order. -/
theorem foldl_groupStep {α : Type} (env : DayEnv) (timestamp : α → JsVal) (notifs : List α)
    (acc : Groups α) :
    notifs.foldl (groupStep env timestamp) acc =
      { today := acc.today ++ notifs.filter (fun n =>
          match dayDiff env (timestamp n) with
          | some diff => decide (diff < 1)
          | none => false),
        yesterday := acc.yesterday ++ notifs.filter (fun n =>
          match dayDiff env (timestamp n) with
          | some diff => !decide (diff < 1) && decide (diff < 2)
          | none => false),
        older := acc.older ++ notifs.filter (fun n =>
          match dayDiff env (timestamp n) with
          | some diff => !decide (diff < 1) && !decide (diff < 2)
          | none => true) } := by
  induction notifs generalizing acc with
  | nil => simp
  | cons n ns ih =>
    rw [List.foldl_cons, ih]
    unfold groupStep
    cases hd : dayDiff env (timestamp n) with
    | none => simp [List.filter_cons, hd]
    | some diff =>
      by_cases h1 : diff < 1
      · simp [List.filter_cons, hd, h1]
      · by_cases h2 : diff < 2
        · simp [List.filter_cons, hd, h1, h2]
        · simp [List.filter_cons, hd, h1, h2]

/-- Where every local day lasts 24 hours, `diff` is below 1 exactly for the
days from today on, and from 1 to below 2 exactly for the day before. -/
theorem dayDiff_regular (env : DayEnv) (ts : JsVal) (t : Int) (k : Int)
    (ht : env.newDate ts = some t)
    (hk : env.startOfDay env.now - env.startOfDay t = 86400000 * k) :
    ∃ diff, dayDiff env ts = some diff ∧
      (diff < 1 ↔ env.startOfDay env.now ≤ env.startOfDay t) ∧
      ((¬ diff < 1 ∧ diff < 2) ↔ env.startOfDay t = env.startOfDay env.now - 86400000) := by
  refine ⟨(k : ℚ), ?_, ?_, ?_⟩
  · simp only [dayDiff, ht, hk]
    push_cast
    congr 1
    field_simp
  · have : ((k : ℚ) < 1) ↔ k < 1 := by exact_mod_cast Iff.rfl
    rw [this]
    constructor <;> intro h <;> omega
  · have h1 : ((k : ℚ) < 1) ↔ k < 1 := by exact_mod_cast Iff.rfl
    have h2 : ((k : ℚ) < 2) ↔ k < 2 := by exact_mod_cast Iff.rfl
    rw [h1, h2]
    constructor <;> intro h <;> omega

theorem dayDiff_eq (env : DayEnv) (ts : JsVal) (t : Int) (h : env.newDate ts = some t) :
    dayDiff env ts =
      some (((env.startOfDay env.now - env.startOfDay t : Int) : ℚ) / 86400000) := by
  simp only [dayDiff, h]

/-- Less than 24 hours between the two starts of day: `today`. -/
theorem groupStep_today {α : Type} (env : DayEnv) (timestamp : α → JsVal) (acc : Groups α)
    (n : α) (t : Int) (h : env.newDate (timestamp n) = some t)
    (hd : env.startOfDay env.now - env.startOfDay t < 86400000) :
    groupStep env timestamp acc n = { acc with today := acc.today ++ [n] } := by
  have h1 : (((env.startOfDay env.now - env.startOfDay t : Int) : ℚ) / 86400000) < 1 := by
    rw [div_lt_one (by norm_num)]
    exact_mod_cast hd
  simp only [groupStep, dayDiff_eq env _ t h, h1, if_true]

/-- From 24 to less than 48 hours between the two starts of day:
`yesterday`. -/
theorem groupStep_yesterday {α : Type} (env : DayEnv) (timestamp : α → JsVal) (acc : Groups α)
    (n : α) (t : Int) (h : env.newDate (timestamp n) = some t)
    (hd1 : 86400000 ≤ env.startOfDay env.now - env.startOfDay t)
    (hd2 : env.startOfDay env.now - env.startOfDay t < 2 * 86400000) :
    groupStep env timestamp acc n = { acc with yesterday := acc.yesterday ++ [n] } := by
  have h1 : ¬ (((env.startOfDay env.now - env.startOfDay t : Int) : ℚ) / 86400000) < 1 := by
    rw [div_lt_one (by norm_num), not_lt]
    exact_mod_cast hd1
  have h2 : (((env.startOfDay env.now - env.startOfDay t : Int) : ℚ) / 86400000) < 2 := by
    rw [div_lt_iff₀ (by norm_num)]
    exact_mod_cast hd2
  simp only [groupStep, dayDiff_eq env _ t h, h1, h2, if_true, if_false]

/-- C30 (defect exhibited): `groupByDay` does split its input into three
groups that keep the input order (each element is in exactly one of them),
and where the starts of the local days are a whole number of 24 hours apart
the groups are the calendar days the claim names.  But it compares elapsed
milliseconds, not calendar days.  In a zone that moved its clocks forward on
the day before today (Berlin on Monday 31 March 2025, 10:00 local time) that
day has 23 hours: the notification of Sunday 13:00, whose day starts where
the day before today starts, is put under `today`, and the one of Saturday
12:00 under `yesterday`. -/
theorem C30_day_groups_across_clock_change :
    (∀ (α : Type) (env : DayEnv) (timestamp : α → JsVal) (notifs : List α),
      (groupByDay env timestamp notifs).today = notifs.filter (fun n =>
          match dayDiff env (timestamp n) with
          | some diff => decide (diff < 1)
          | none => false) ∧
      (groupByDay env timestamp notifs).yesterday = notifs.filter (fun n =>
          match dayDiff env (timestamp n) with
          | some diff => !decide (diff < 1) && decide (diff < 2)
          | none => false) ∧
      (groupByDay env timestamp notifs).older = notifs.filter (fun n =>
          match dayDiff env (timestamp n) with
          | some diff => !decide (diff < 1) && !decide (diff < 2)
          | none => true)) ∧
    (∀ (env : DayEnv) (ts : JsVal) (t k : Int), env.newDate ts = some t →
      env.startOfDay env.now - env.startOfDay t = 86400000 * k →
      ∃ diff, dayDiff env ts = some diff ∧
        (diff < 1 ↔ env.startOfDay env.now ≤ env.startOfDay t) ∧
        ((¬ diff < 1 ∧ diff < 2) ↔
          env.startOfDay t = env.startOfDay env.now - 86400000)) ∧
    groupByDay
        ⟨1743408000000,
         fun t => if t < 1743372000000 then
                    1743289200000 - 86400000 * ((1743289200000 - t + 86399999) / 86400000)
                  else 1743372000000 + 86400000 * ((t - 1743372000000) / 86400000),
         fun v => match v with
                  | .str "2025-03-31T05:46:40.000Z" => some 1743400000000
                  | .str "2025-03-30T11:00:00.000Z" => some 1743332400000
                  | .str "2025-03-29T11:00:00.000Z" => some 1743246000000
                  | _ => none⟩
        (fun ts : String => JsVal.str ts)
        ["2025-03-31T05:46:40.000Z", "2025-03-30T11:00:00.000Z",
         "2025-03-29T11:00:00.000Z"] =
      ⟨["2025-03-31T05:46:40.000Z", "2025-03-30T11:00:00.000Z"],
       ["2025-03-29T11:00:00.000Z"], []⟩ ∧
    (fun t : Int => if t < 1743372000000 then
        1743289200000 - 86400000 * ((1743289200000 - t + 86399999) / 86400000)
      else 1743372000000 + 86400000 * ((t - 1743372000000) / 86400000)) 1743408000000
      = 1743372000000 ∧
    (fun t : Int => if t < 1743372000000 then
        1743289200000 - 86400000 * ((1743289200000 - t + 86399999) / 86400000)
      else 1743372000000 + 86400000 * ((t - 1743372000000) / 86400000)) 1743332400000
      = (fun t : Int => if t < 1743372000000 then
        1743289200000 - 86400000 * ((1743289200000 - t + 86399999) / 86400000)
      else 1743372000000 + 86400000 * ((t - 1743372000000) / 86400000)) (1743372000000 - 1) ∧
    (fun t : Int => if t < 1743372000000 then
        1743289200000 - 86400000 * ((1743289200000 - t + 86399999) / 86400000)
      else 1743372000000 + 86400000 * ((t - 1743372000000) / 86400000)) 1743246000000
      = (fun t : Int => if t < 1743372000000 then
        1743289200000 - 86400000 * ((1743289200000 - t + 86399999) / 86400000)
      else 1743372000000 + 86400000 * ((t - 1743372000000) / 86400000)) (1743289200000 - 1)
      := by
  refine ⟨?_, ?_, ?_, by decide, by decide, by decide⟩
  · intro α env timestamp notifs
    unfold groupByDay
    rw [foldl_groupStep]
    exact ⟨by simp, by simp, by simp⟩
  · intro env ts t k ht hk
    exact dayDiff_regular env ts t k ht hk
  · unfold groupByDay
    simp only [List.foldl_cons, List.foldl_nil]
    rw [groupStep_yesterday _ _ _ _ 1743246000000 rfl (by decide) (by decide),
      groupStep_today _ _ _ _ 1743332400000 rfl (by decide),
      groupStep_today _ _ _ _ 1743400000000 rfl (by decide)]
    rfl

end Notifications

/-! ## Login: lockout -/

namespace Login

theorem getLoginAttempts_saveLoginAttempts (store : Store) (username : String) (attempts : Nat)
    (lockoutTime : Option Int) :
    getLoginAttempts (saveLoginAttempts store username attempts lockoutTime) username =
      { attempts := attempts, lockoutTime := lockoutTime } := by
  unfold getLoginAttempts saveLoginAttempts
  have h : (store.filter (fun p => p.1 != "login_attempts_" ++ username)).lookup
      ("login_attempts_" ++ username) = none := by
    rw [List.lookup_eq_none_iff]
    intro p hp
    have h := (List.mem_filter.mp hp).2
    simp only [bne_iff_ne, ne_eq] at h ⊢
    exact fun e => h e.symm
  rw [List.lookup_append, h]
  simp [List.lookup_cons]

/-- While the stored lockout lies in the future, `handleLogin` sends no
request and leaves the stored entry alone, whatever the form holds. -/
theorem handleLogin_locked (env : Env) (s : State) (reply : Reply) (lockoutTime : Int)
    (hstored : (getLoginAttempts s.store s.username).lockoutTime = some lockoutTime)
    (hnow : env.now < lockoutTime) :
    (handleLogin env s reply).sent = false ∧ (handleLogin env s reply).loginCall = none ∧
    (handleLogin env s reply).state.store = s.store := by
  unfold handleLogin
  simp only [hstored]
  split
  · exact ⟨rfl, rfl, rfl⟩
  · split
    · exact ⟨rfl, rfl, rfl⟩
    · exact ⟨rfl, rfl, rfl⟩

/-- While the stored lockout lies in the future, a form that passes the
checks gets the `Account locked` text. -/
theorem handleLogin_locked_error (env : Env) (s : State) (reply : Reply) (lockoutTime : Int)
    (hu : jsTrim s.username ≠ "") (hp : jsTrim s.password ≠ "")
    (hvu : (validateField s.fieldErrors "username" s.username).2 = true)
    (hvp : (validateField s.fieldErrors "password" s.password).2 = true)
    (hstored : (getLoginAttempts s.store s.username).lockoutTime = some lockoutTime)
    (hnow : env.now < lockoutTime) :
    (handleLogin env s reply).state.error =
      "Account locked. Try again in " ++ formatTime ((lockoutTime - env.now) / 1000) ++ "." := by
  unfold handleLogin
  simp only [hstored, hu, hp, hvu, hvp, or_self, if_false, Bool.not_true, Bool.or_self,
    Bool.false_eq_true]
  rw [if_pos (by exact hnow)]

/-- A failed response that is counted: the stored count goes up by one, and
from the third on a lockout of five minutes from now is stored with it. -/
theorem handleLogin_failure (env : Env) (s : State) (data role : JsVal) (errorMsg : String)
    (hu : jsTrim s.username ≠ "") (hp : jsTrim s.password ≠ "")
    (hvu : (validateField s.fieldErrors "username" s.username).2 = true)
    (hvp : (validateField s.fieldErrors "password" s.password).2 = true)
    (hfree : ∀ l, (getLoginAttempts s.store s.username).lockoutTime = some l → l ≤ env.now)
    (hrole : data.getProp "role" = .ok role)
    (hmsg : env.errorMsg data = .ok errorMsg) :
    (handleLogin env s (.response false (.ok data))).sent = true ∧
    getLoginAttempts (handleLogin env s (.response false (.ok data))).state.store s.username =
      { attempts := (getLoginAttempts s.store s.username).attempts + 1,
        lockoutTime :=
          if (getLoginAttempts s.store s.username).attempts + 1 ≥ MAX_ATTEMPTS then
            some (env.answered + LOCKOUT_DURATION)
          else none } := by
  unfold handleLogin
  simp only [hu, hp, hvu, hvp, or_self, if_false, Bool.not_true, Bool.or_self,
    Bool.false_eq_true]
  cases hl : (getLoginAttempts s.store s.username).lockoutTime with
  | none =>
    simp only [afterReply, hrole, hmsg, Bool.not_false, if_true]
    by_cases h3 : (getLoginAttempts s.store s.username).attempts + 1 ≥ MAX_ATTEMPTS
    · simp only [h3, if_true, catchBlock]
      refine ⟨by first | rfl | trivial, ?_⟩
      split <;> exact getLoginAttempts_saveLoginAttempts _ _ _ _
    · simp only [h3, if_false, catchBlock]
      refine ⟨by first | rfl | trivial, ?_⟩
      split <;> exact getLoginAttempts_saveLoginAttempts _ _ _ _
  | some l =>
    have hle := hfree l hl
    simp only [if_neg (not_lt.mpr hle), afterReply, hrole, hmsg, Bool.not_false, if_true]
    by_cases h3 : (getLoginAttempts s.store s.username).attempts + 1 ≥ MAX_ATTEMPTS
    · simp only [h3, if_true, catchBlock]
      refine ⟨by first | rfl | trivial, ?_⟩
      split <;> exact getLoginAttempts_saveLoginAttempts _ _ _ _
    · simp only [h3, if_false, catchBlock]
      refine ⟨by first | rfl | trivial, ?_⟩
      split <;> exact getLoginAttempts_saveLoginAttempts _ _ _ _

/-- An OK response resets the stored entry before `login` is called. -/
theorem handleLogin_success (env : Env) (s : State) (data role : JsVal)
    (hu : jsTrim s.username ≠ "") (hp : jsTrim s.password ≠ "")
    (hvu : (validateField s.fieldErrors "username" s.username).2 = true)
    (hvp : (validateField s.fieldErrors "password" s.password).2 = true)
    (hfree : ∀ l, (getLoginAttempts s.store s.username).lockoutTime = some l → l ≤ env.now)
    (hrole : data.getProp "role" = .ok role) :
    (handleLogin env s (.response true (.ok data))).sent = true ∧
    getLoginAttempts (handleLogin env s (.response true (.ok data))).state.store s.username =
      { attempts := 0, lockoutTime := none } := by
  unfold handleLogin
  simp only [hu, hp, hvu, hvp, or_self, if_false, Bool.not_true, Bool.or_self,
    Bool.false_eq_true]
  cases hlog : env.login ((data.getProp "access_token").toOption.getD .undefined) role
      ((data.getProp "username").toOption.getD .undefined)
      ((data.getProp "device_token").toOption.getD .undefined) with
  | none =>
    cases hl : (getLoginAttempts s.store s.username).lockoutTime with
    | none =>
      simp only [afterReply, hrole, hlog, Bool.not_true, Bool.false_eq_true, if_false]
      exact ⟨by first | rfl | trivial, getLoginAttempts_saveLoginAttempts _ _ _ _⟩
    | some l =>
      have hle := hfree l hl
      simp only [if_neg (not_lt.mpr hle), afterReply, hrole, hlog, Bool.not_true,
        Bool.false_eq_true, if_false]
      exact ⟨by first | rfl | trivial, getLoginAttempts_saveLoginAttempts _ _ _ _⟩
  | some message =>
    cases hl : (getLoginAttempts s.store s.username).lockoutTime with
    | none =>
      simp only [afterReply, hrole, hlog, Bool.not_true, Bool.false_eq_true, if_false,
        catchBlock]
      refine ⟨by first | rfl | trivial, ?_⟩
      split <;> exact getLoginAttempts_saveLoginAttempts _ _ _ _
    | some l =>
      have hle := hfree l hl
      simp only [if_neg (not_lt.mpr hle), afterReply, hrole, hlog, Bool.not_true,
        Bool.false_eq_true, if_false, catchBlock]
      refine ⟨by first | rfl | trivial, ?_⟩
      split <;> exact getLoginAttempts_saveLoginAttempts _ _ _ _

end Login

namespace Login

/-- C24 (defect exhibited): `handleLogin` itself keeps to the lockout: while
the stored lockout lies in the future it sends no request (and shows
`Account locked` when the form passes its checks), the third counted failure
stores a lockout of five minutes from then, and an OK response resets the
entry.  But the countdown the lockout effect starts clears the entry as soon
as fewer than 1000 ms remain: with a lockout until 303000 the tick at 302500
computes `remaining = 0` and stores `attempts: 0, lockoutTime: null`, and the
`handleLogin` call at 302600, before the expiry, sends its request. -/
theorem C24_lockout_cleared_early :
    (∀ (env : Env) (s : State) (reply : Reply) (lockoutTime : Int),
      (getLoginAttempts s.store s.username).lockoutTime = some lockoutTime →
      env.now < lockoutTime →
      (handleLogin env s reply).sent = false ∧ (handleLogin env s reply).loginCall = none ∧
      (handleLogin env s reply).state.store = s.store ∧
      (jsTrim s.username ≠ "" → jsTrim s.password ≠ "" →
        (validateField s.fieldErrors "username" s.username).2 = true →
        (validateField s.fieldErrors "password" s.password).2 = true →
        (handleLogin env s reply).state.error =
          "Account locked. Try again in " ++ formatTime ((lockoutTime - env.now) / 1000)
            ++ ".")) ∧
    (∀ (env : Env) (s : State) (data role : JsVal) (errorMsg : String),
      jsTrim s.username ≠ "" → jsTrim s.password ≠ "" →
      (validateField s.fieldErrors "username" s.username).2 = true →
      (validateField s.fieldErrors "password" s.password).2 = true →
      (∀ l, (getLoginAttempts s.store s.username).lockoutTime = some l → l ≤ env.now) →
      data.getProp "role" = .ok role → env.errorMsg data = .ok errorMsg →
      (getLoginAttempts s.store s.username).attempts + 1 ≥ 3 →
      getLoginAttempts (handleLogin env s (.response false (.ok data))).state.store s.username =
        ⟨(getLoginAttempts s.store s.username).attempts + 1, some (env.answered + 300000)⟩) ∧
    (∀ (env : Env) (s : State) (data role : JsVal),
      jsTrim s.username ≠ "" → jsTrim s.password ≠ "" →
      (validateField s.fieldErrors "username" s.username).2 = true →
      (validateField s.fieldErrors "password" s.password).2 = true →
      (∀ l, (getLoginAttempts s.store s.username).lockoutTime = some l → l ≤ env.now) →
      data.getProp "role" = .ok role →
      getLoginAttempts (handleLogin env s (.response true (.ok data))).state.store s.username =
        ⟨0, none⟩) ∧
    (handleLogin ⟨2500, 3000, fun _ => .ok "Incorrect password", "", fun _ _ _ _ => none⟩
      (handleLogin ⟨1500, 2000, fun _ => .ok "Incorrect password", "", fun _ _ _ _ => none⟩
        (handleLogin ⟨500, 1000, fun _ => .ok "Incorrect password", "", fun _ _ _ _ => none⟩
          ⟨"alice", "secret1", "", ⟨none, none⟩, none, false, []⟩
          (.response false (.ok (.obj 0 [("detail", .str "Incorrect password")])))).state
        (.response false (.ok (.obj 0 [("detail", .str "Incorrect password")])))).state
      (.response false (.ok (.obj 0 [("detail", .str "Incorrect password")])))).state.store =
      [("login_attempts_alice", ⟨3, some 303000⟩)] ∧
    lockoutEffect
      ⟨"alice", "secret1", "", ⟨none, none⟩, none, false,
        [("login_attempts_alice", ⟨3, some 303000⟩)]⟩ 3500 =
      (⟨"alice", "secret1", "", ⟨none, none⟩, none, false,
        [("login_attempts_alice", ⟨3, some 303000⟩)]⟩, some ⟨"alice", 303000⟩) ∧
    countdownTick
      ⟨"alice", "secret1", "", ⟨none, none⟩, none, false,
        [("login_attempts_alice", ⟨3, some 303000⟩)]⟩ ⟨"alice", 303000⟩ 302500 =
      (⟨"alice", "secret1", "", ⟨none, none⟩, none, false,
        [("login_attempts_alice", ⟨0, none⟩)]⟩, false) ∧
    (handleLogin ⟨302600, 302700, fun _ => .ok "Incorrect password", "", fun _ _ _ _ => none⟩
      ⟨"alice", "secret1", "", ⟨none, none⟩, none, false,
        [("login_attempts_alice", ⟨0, none⟩)]⟩
      (.response false (.ok (.obj 0 [("detail", .str "Incorrect password")])))).sent = true ∧
    (handleLogin ⟨302600, 302700, fun _ => .ok "Incorrect password", "", fun _ _ _ _ => none⟩
      ⟨"alice", "secret1", "", ⟨none, none⟩, none, false,
        [("login_attempts_alice", ⟨3, some 303000⟩)]⟩
      (.response false (.ok (.obj 0 [("detail", .str "Incorrect password")])))).sent = false := by
  refine ⟨?_, ?_, ?_, by decide, by rfl, by rfl, by decide, by decide⟩
  · intro env s reply lockoutTime hstored hnow
    obtain ⟨h1, h2, h3⟩ := handleLogin_locked env s reply lockoutTime hstored hnow
    exact ⟨h1, h2, h3, fun hu hp hvu hvp =>
      handleLogin_locked_error env s reply lockoutTime hu hp hvu hvp hstored hnow⟩
  · intro env s data role errorMsg hu hp hvu hvp hfree hrole hmsg h3
    have := (handleLogin_failure env s data role errorMsg hu hp hvu hvp hfree hrole hmsg).2
    rw [this]
    have h3' : (getLoginAttempts s.store s.username).attempts + 1 ≥ MAX_ATTEMPTS := h3
    simp only [h3', if_true]
    rfl
  · intro env s data role hu hp hvu hvp hfree hrole
    exact (handleLogin_success env s data role hu hp hvu hvp hfree hrole).2

end Login

/-! ## Token refresh: what `refreshToken` makes of an OK answer -/

namespace AuthContext

/-- A falsy `authToken` makes `login` throw before it touches anything. -/
theorem login_missing_authToken (other : JsVal → String) (sess : Session)
    (authToken userType username organizationName googleAccessToken googleRefreshToken
      deviceToken : JsVal) (h : authToken.truthy = false) :
    login other sess authToken userType username organizationName googleAccessToken
        googleRefreshToken deviceToken =
      (sess, .error (.error "Missing required login data: authToken, userType, or username")) := by
  simp only [login, h, Bool.not_false, Bool.true_or, if_true]

/-- A refresh that returns a token went through a successful `login`. -/
theorem refreshToken_success (other : JsVal → String) (u : User) (sess : Session)
    (fetched : FetchOutcome)
    (h : (Header.refreshToken other (some u) sess fetched).1.truthy = true) :
    u.googleRefreshToken.truthy = true ∧
    ∃ authToken googleAccessToken sess' path,
      login other sess authToken u.userType u.username googleAccessToken u.googleRefreshToken
        .undefined .undefined = (sess', .ok path) ∧
      Header.refreshToken other (some u) sess fetched = (authToken, sess') ∧
      Notifications.refreshToken other (some u) sess fetched = (authToken, sess') := by
  by_cases hrt : u.googleRefreshToken.truthy = true
  · refine ⟨hrt, ?_⟩
    have hrt' : (refreshTokenOf (some u)).truthy = true := hrt
    have hnull : ∀ x : Session, (((JsVal.null, x) : JsVal × Session).1.truthy = true) → False :=
      fun x hx => by simp [JsVal.truthy] at hx
    cases fetched with
    | networkError =>
      have e : Header.refreshToken other (some u) sess .networkError = (.null, sess) := by
        simp [Header.refreshToken, hrt']
      rw [e] at h
      exact (hnull _ h).elim
    | response ok json =>
      cases ok with
      | false =>
        have e : Header.refreshToken other (some u) sess (.response false json) =
            (.null, sess) := by
          simp [Header.refreshToken, hrt']
        rw [e] at h
        exact (hnull _ h).elim
      | true =>
        cases json with
        | error e0 =>
          have e : Header.refreshToken other (some u) sess (.response true (.error e0)) =
              (.null, sess) := by
            simp [Header.refreshToken, hrt']
          rw [e] at h
          exact (hnull _ h).elim
        | ok data =>
          cases ha : data.getProp "authToken" with
          | error e0 =>
            have e : Header.refreshToken other (some u) sess (.response true (.ok data)) =
                (.null, sess) := by
              simp [Header.refreshToken, hrt', ha]
            rw [e] at h
            exact (hnull _ h).elim
          | ok authToken =>
            cases hg : data.getProp "googleAccessToken" with
            | error e0 =>
              have e : Header.refreshToken other (some u) sess (.response true (.ok data)) =
                  (.null, sess) := by
                simp [Header.refreshToken, hrt', ha, hg]
              rw [e] at h
              exact (hnull _ h).elim
            | ok googleAccessToken =>
              cases hl : login other sess authToken u.userType u.username googleAccessToken
                  u.googleRefreshToken .undefined .undefined with
              | mk sess' res =>
                cases res with
                | error e0 =>
                  have e : Header.refreshToken other (some u) sess
                      (.response true (.ok data)) = (.null, sess') := by
                    simp [Header.refreshToken, hrt', ha, hg, hl]
                  rw [e] at h
                  exact (hnull _ h).elim
                | ok path =>
                  refine ⟨authToken, googleAccessToken, sess', path, hl, ?_, ?_⟩
                  · simp [Header.refreshToken, hrt', ha, hg, hl]
                  · simp [Notifications.refreshToken, hrt', ha, hg, hl]
  · have hrt' : (refreshTokenOf (some u)).truthy = false := by simpa using hrt
    have e : Header.refreshToken other (some u) sess fetched = (.null, sess) := by
      simp [Header.refreshToken, hrt']
    rw [e] at h
    simp [JsVal.truthy] at h

end AuthContext

open AuthContext in
/-- C18 (amended): with a refresh token present and an OK answer whose body is
an object, `refreshToken` takes the new token from the field `authToken` of
the body.  When that field is falsy, as for a body that carries the token as
`access_token`, `login` throws: the header and the popup return `null` with
the session unchanged, and the Notifications page returns `null` and logs
out.  When it is a non-empty string `t` (and the user type and name of the
session are non-empty strings), `refreshToken` returns `t`, and the bearer
token of the session is `t`, in `localStorage` and in the user state. -/
theorem C18_refresh_reads_authToken (other : JsVal → String) (u : User) (sess : Session)
    (ref : Nat) (props : List (String × JsVal))
    (hrt : u.googleRefreshToken.truthy = true) :
    ((propOf props "authToken").truthy = false →
      Header.refreshToken other (some u) sess (.response true (.ok (.obj ref props))) =
        (.null, sess) ∧
      Notifications.refreshToken other (some u) sess (.response true (.ok (.obj ref props))) =
        (.null, logout sess)) ∧
    (∀ t ut un : String, propOf props "authToken" = .str t → t ≠ "" →
      u.userType = .str ut → ut ≠ "" → u.username = .str un → un ≠ "" →
      (Header.refreshToken other (some u) sess (.response true (.ok (.obj ref props)))).1 =
        .str t ∧
      getItem (Header.refreshToken other (some u) sess
        (.response true (.ok (.obj ref props)))).2.storage "authToken" = .str t ∧
      (Header.refreshToken other (some u) sess
        (.response true (.ok (.obj ref props)))).2.user.map (fun usr => usr.authToken) =
          some (.str t) ∧
      Notifications.refreshToken other (some u) sess (.response true (.ok (.obj ref props))) =
        Header.refreshToken other (some u) sess (.response true (.ok (.obj ref props)))) := by
  have hrt' : (refreshTokenOf (some u)).truthy = true := hrt
  have hga : (JsVal.obj ref props).getProp "authToken" = .ok (propOf props "authToken") := rfl
  have hgg : (JsVal.obj ref props).getProp "googleAccessToken" =
      .ok (propOf props "googleAccessToken") := rfl
  constructor
  · intro hf
    have hl := login_missing_authToken other sess (propOf props "authToken") u.userType
      u.username (propOf props "googleAccessToken") u.googleRefreshToken .undefined .undefined hf
    constructor
    · simp [Header.refreshToken, hrt', hga, hgg, hl]
    · simp [Notifications.refreshToken, hrt', hga, hgg, hl]
  · intro t ut un ht htne hut hutne hun hunne
    obtain ⟨n, hn, _⟩ := normalizeUserType_str ut hutne
    obtain ⟨st, hl, h1, _⟩ := login_strings other sess t ut un n
      (propOf props "googleAccessToken") u.googleRefreshToken .undefined .undefined
      htne hutne hunne hn
    have hH : Header.refreshToken other (some u) sess (.response true (.ok (.obj ref props))) =
        (.str t,
          { user := some
              { authToken := .str t, userType := .str n, username := .str un,
                deviceToken := (orNull .undefined).or .null,
                organizationName := (orNull (propOf props "googleAccessToken")).or .null,
                googleAccessToken := (orNull u.googleRefreshToken).or .null,
                googleRefreshToken := (orNull .undefined).or .null },
            storage := st }) := by
      simp [Header.refreshToken, hrt', hga, hgg, ht, hut, hun, hl]
    have hN : Notifications.refreshToken other (some u) sess
        (.response true (.ok (.obj ref props))) =
        (.str t,
          { user := some
              { authToken := .str t, userType := .str n, username := .str un,
                deviceToken := (orNull .undefined).or .null,
                organizationName := (orNull (propOf props "googleAccessToken")).or .null,
                googleAccessToken := (orNull u.googleRefreshToken).or .null,
                googleRefreshToken := (orNull .undefined).or .null },
            storage := st }) := by
      simp [Notifications.refreshToken, hrt', hga, hgg, ht, hut, hun, hl]
    rw [hN, hH]
    exact ⟨rfl, h1, rfl, rfl⟩

open AuthContext in
/-- Witness for `C18_refresh_reads_authToken`: a body with the token in the
field `authToken`. -/
theorem C18_refresh_reads_authToken_witness :
    (Header.refreshToken (fun _ => "")
      (some ⟨.str "old", .str "Patient", .str "u", .null, .null, .null, .str "r"⟩)
      ⟨some ⟨.str "old", .str "Patient", .str "u", .null, .null, .null, .str "r"⟩,
       [("authToken", "old"), ("userType", "Patient"), ("username", "u"),
        ("googleRefreshToken", "r")]⟩
      (.response true (.ok (.obj 0 [("authToken", .str "t")])))).1 = .str "t" :=
  ((C18_refresh_reads_authToken (fun _ => "")
    ⟨.str "old", .str "Patient", .str "u", .null, .null, .null, .str "r"⟩
    ⟨some ⟨.str "old", .str "Patient", .str "u", .null, .null, .null, .str "r"⟩,
     [("authToken", "old"), ("userType", "Patient"), ("username", "u"),
      ("googleRefreshToken", "r")]⟩
    0 [("authToken", .str "t")] (by decide)).2 "t" "Patient" "u" rfl (by decide) rfl (by decide)
    rfl (by decide)).1

open AuthContext in
/-- C27 (amended): after every successful token refresh (one that returns a
token), in the header, the popup and the Notifications page, the session no
longer holds the refresh token it was made with: the user state has
`googleRefreshToken: null`, the key `googleRefreshToken` is not in
`localStorage`, the old refresh token is the `googleAccessToken` of the user
state, and the next `refreshToken` returns `null` whatever the server would
answer (and on the page logs out). -/
theorem C27_refresh_drops_refresh_token (other : JsVal → String) (u : User) (sess : Session)
    (fetched : FetchOutcome)
    (hsucc : (Header.refreshToken other (some u) sess fetched).1.truthy = true) :
    (Header.refreshToken other (some u) sess fetched).2.user.map
        (fun usr => usr.googleRefreshToken) = some .null ∧
    getItem (Header.refreshToken other (some u) sess fetched).2.storage "googleRefreshToken" =
      .null ∧
    (Header.refreshToken other (some u) sess fetched).2.user.map
        (fun usr => usr.googleAccessToken) = some u.googleRefreshToken ∧
    Notifications.refreshToken other (some u) sess fetched =
      Header.refreshToken other (some u) sess fetched ∧
    (∀ next : FetchOutcome,
      Header.refreshToken other (Header.refreshToken other (some u) sess fetched).2.user
          (Header.refreshToken other (some u) sess fetched).2 next =
        (.null, (Header.refreshToken other (some u) sess fetched).2) ∧
      Notifications.refreshToken other (Header.refreshToken other (some u) sess fetched).2.user
          (Header.refreshToken other (some u) sess fetched).2 next =
        (.null, logout (Header.refreshToken other (some u) sess fetched).2)) := by
  obtain ⟨hrt, authToken, googleAccessToken, sess', path, hl, hH, hN⟩ :=
    refreshToken_success other u sess fetched hsucc
  obtain ⟨h1, h2, _, h4⟩ := login_five_arguments other sess sess' path authToken u.userType
    u.username googleAccessToken u.googleRefreshToken hl
  rw [hN, hH]
  have h2' : sess'.user.map (fun usr => usr.googleAccessToken) = some u.googleRefreshToken := by
    rw [h2]; simp [JsVal.or, hrt]
  refine ⟨h1, h4, h2', rfl, fun next => ?_⟩
  have hnone : (refreshTokenOf sess'.user).truthy = false := by
    cases hu : sess'.user with
    | none => rfl
    | some usr =>
      rw [hu] at h1
      simp only [Option.map_some', Option.some.injEq] at h1
      simp [refreshTokenOf, h1, JsVal.truthy]
  constructor
  · simp [Header.refreshToken, hnone]
  · simp [Notifications.refreshToken, hnone]

open AuthContext in
/-- Witness for `C27_refresh_drops_refresh_token`: the refresh of a session
with the refresh token `r`. -/
theorem C27_refresh_drops_refresh_token_witness :
    (Header.refreshToken (fun _ => "")
      (some ⟨.str "old", .str "Patient", .str "u", .null, .null, .str "g0", .str "r"⟩)
      ⟨some ⟨.str "old", .str "Patient", .str "u", .null, .null, .str "g0", .str "r"⟩,
       [("authToken", "old"), ("userType", "Patient"), ("username", "u"),
        ("googleAccessToken", "g0"), ("googleRefreshToken", "r")]⟩
      (.response true (.ok (.obj 0 [("authToken", .str "t"),
        ("googleAccessToken", .str "g1")])))).2.user.map
        (fun usr => usr.googleRefreshToken) = some .null :=
  (C27_refresh_drops_refresh_token (fun _ => "")
    ⟨.str "old", .str "Patient", .str "u", .null, .null, .str "g0", .str "r"⟩
    ⟨some ⟨.str "old", .str "Patient", .str "u", .null, .null, .str "g0", .str "r"⟩,
     [("authToken", "old"), ("userType", "Patient"), ("username", "u"),
      ("googleAccessToken", "g0"), ("googleRefreshToken", "r")]⟩
    (.response true (.ok (.obj 0 [("authToken", .str "t"), ("googleAccessToken", .str "g1")])))
    (by decide)).1

end Patient
